import Mathlib

/-!
Verification of the gpspoint serialization engine of the viking GPS data
manager (file gpspoint.c): the escaping codec, the line tokenizer, the
field dispatcher, the record assembler and the writer, shallowly embedded
over `List Char` with `gdouble` modelled as `Option ℚ` (`none` = NAN
absence sentinel), `guint` as `Nat` and `gint` as `Int`.  External
collaborators (GLib string/number helpers, the coordinate converter, the
color parser, the path resolver, entity constructors declared in headers
but implemented outside this repository) are modelled from the spec where
so marked.
-/

/-- The NUL character, used by the C code as the line-buffer terminator. -/
def nulChar : Char := Char.ofNat 0

/-- `isspace` from ctype.h (the C locale). -/
def c_isspace (c : Char) : Bool :=
  c = ' ' || c = '\t' || c = '\n' || c = '\x0b' || c = '\x0c' || c = '\r'

/-- Reading a character from the line buffer at an index: positions past the
end of the modelled span read the NUL terminator, as the C buffer does. -/
def getCh (s : List Char) (i : Nat) : Char := s.getD i nulChar

/-- `isdigit` from ctype.h. -/
def c_isdigit (c : Char) : Bool := '0' ≤ c && c ≤ '9'

/-- Numeric value of a decimal digit character. -/
def digVal (c : Char) : Nat := c.toNat - '0'.toNat

/-- The per-character normalization applied by `slashdup`: line feeds and
carriage returns become a single blank. -/
def normChar (c : Char) : Char := if c = '\n' ∨ c = '\r' then ' ' else c

/-- `slashdup` (gpspoint.c): duplicate a string, prefixing every backslash or
double quote with a backslash, and replacing every line feed or carriage
return by a single space. -/
def slashdup : List Char → List Char
  | [] => []
  | c :: rest =>
    if c = '\\' ∨ c = '"' then '\\' :: c :: slashdup rest
    else normChar c :: slashdup rest

/-- The backslash-counting scan of `deslashndup`: walking the span, each
backslash is counted and the character after it is skipped.  Returns the
count together with the final value of the index `i`, which is the span
length when the scan ends on a unit boundary and the span length plus one
when a backslash in the last position makes `i` jump past the end. -/
def bs_scan : List Char → Nat × Nat
  | [] => (0, 0)
  | c :: rest =>
    if c = '\\' then
      match rest with
      | [] => (1, 2)
      | _ :: rest2 => let p := bs_scan rest2; (p.1 + 1, p.2 + 2)
    else
      let p := bs_scan rest; (p.1, p.2 + 1)

/-- The copy loop of `deslashndup`: a backslash seen while not already in
backslash state is dropped and sets the state; any other character is
copied and clears the state. -/
def deslash_core : List Char → Bool → List Char
  | [], _ => []
  | c :: rest, bs =>
    if c = '\\' ∧ bs = false then deslash_core rest true
    else c :: deslash_core rest false

/-- `deslashndup` (gpspoint.c): un-escape `len` bytes of `str`.  The C
parameter is a `guint16`, so the length passed by callers is reduced
mod 2^16.  `str` is modelled as the whole remainder of the NUL-terminated
buffer starting at the span, because the final-backslash adjustment reads
`str[i-1]`/`str[i-2]` where `i` may equal `len + 1`, i.e. one byte past the
span.  Returns `none` for the NULL result (`len < 1`). -/
def deslashndup (str : List Char) (len0 : Nat) : Option (List Char) :=
  let len := len0 % 65536
  if len < 1 then none
  else
    let span := str.take len
    let p := bs_scan span
    let iFin := p.2
    let bs_count :=
      if getCh str (iFin - 1) = '\\' ∧ (len = 1 ∨ getCh str (iFin - 2) ≠ '\\') then
        p.1 - 1
      else p.1
    let new_len := len - bs_count
    some ((deslash_core span false).take new_len)

/-- Number of characters of a string that `slashdup` escapes (backslashes and
double quotes). -/
def escCount : List Char → Nat
  | [] => 0
  | c :: rest => (if c = '\\' ∨ c = '"' then 1 else 0) + escCount rest

/-- Scan a run of decimal digits, extending the accumulated value `v` (digit
count so far `k`); returns the value, the count and the unconsumed rest. -/
def scanDigitsAcc : List Char → Nat → Nat → Nat × Nat × List Char
  | [], v, k => (v, k, [])
  | c :: rest, v, k =>
    if c_isdigit c then scanDigitsAcc rest (v * 10 + digVal c) (k + 1)
    else (v, k, c :: rest)

/-- Modelled from the spec: `g_ascii_strtod`, the locale-independent decimal
parser (decimal point is always `.`).  Modelled for the plain decimal forms
this format reads and writes: optional whitespace, optional sign, digits,
optional point and fraction digits; the exponent, hexadecimal, infinity and
not-a-number forms of the C function are not modelled.  Returns 0 when no
digits are present, as `strtod` does. -/
def g_ascii_strtod (s : List Char) : ℚ :=
  let s1 := s.dropWhile (fun c => c_isspace c)
  let p : Bool × List Char :=
    match s1 with
    | '-' :: r => (true, r)
    | '+' :: r => (false, r)
    | _ => (false, s1)
  let ip := scanDigitsAcc p.2 0 0
  let fp : Nat × Nat × List Char :=
    match ip.2.2 with
    | '.' :: r => scanDigitsAcc r 0 0
    | _ => (0, 0, ip.2.2)
  let mag : ℚ := (ip.1 : ℚ) + (fp.1 : ℚ) / ((10 : ℚ) ^ fp.2.1)
  if p.1 then -mag else mag

/-- `atoi` from the C library: optional whitespace, optional sign, digits.
Overflow of the C `int` is undefined behaviour and is not modelled. -/
def c_atoi (s : List Char) : Int :=
  let s1 := s.dropWhile (fun c => c_isspace c)
  let p : Bool × List Char :=
    match s1 with
    | '-' :: r => (true, r)
    | '+' :: r => (false, r)
    | _ => (false, s1)
  let v := scanDigitsAcc p.2 0 0
  if p.1 then -(v.1 : Int) else (v.1 : Int)

/-- Conversion of a C `int` value to a `guint` object (assignment of an
`atoi` result to an unsigned field): reduction mod 2^32. -/
def intToGuint (i : Int) : Nat := (i % (2 ^ 32 : Int)).toNat

/-- The token-scanning loop of `a_gpspoint_read_file` (the `while` over
`tag_end`): starting from the current character with the given
`inside_quote` and `backslash` flags, consume characters while the current
one is not NUL and is either non-whitespace or inside quotes; after each
step the flags are updated by looking at the next character.  Returns the
token length and the final flags. -/
def scanToken : List Char → Bool → Bool → Nat × Bool × Bool
  | [], iq, bs => (0, iq, bs)
  | c :: rest, iq, bs =>
    if !(c_isspace c) || iq then
      let nc := getCh rest 0
      let fl : Bool × Bool :=
        if nc = '\\' ∧ bs = false then (iq, true)
        else if bs then (iq, false)
        else if nc = '"' then (!iq, false)
        else (iq, bs)
      let r := scanToken rest fl.1 fl.2
      (r.1 + 1, r.2.1, r.2.2)
    else (0, iq, bs)

def GPSPOINT_TYPE_NONE : Nat := 0
def GPSPOINT_TYPE_WAYPOINT : Nat := 1
def GPSPOINT_TYPE_TRACKPOINT : Nat := 2
def GPSPOINT_TYPE_ROUTEPOINT : Nat := 3
def GPSPOINT_TYPE_TRACK : Nat := 4
def GPSPOINT_TYPE_TRACK_END : Nat := 5
def GPSPOINT_TYPE_ROUTE : Nat := 6
def GPSPOINT_TYPE_ROUTE_END : Nat := 7

/-- `struct LatLon` (coords.h): a latitude/longitude pair of doubles. -/
structure LatLon where
  lat : ℚ
  lon : ℚ
deriving DecidableEq

/-- The transient per-line parse state: the `line_*` static variables of
gpspoint.c.  Optional doubles are `Option ℚ` with `none` for the NAN
sentinel; strings are `Option (List Char)` with `none` for NULL. -/
structure LineState where
  line_type : Nat
  line_latlon : LatLon
  line_name : Option (List Char)
  line_comment : Option (List Char)
  line_description : Option (List Char)
  line_source : Option (List Char)
  line_number : Nat
  line_xtype : Option (List Char)
  line_color : Option (List Char)
  line_name_label : Int
  line_dist_label : Int
  line_image : Option (List Char)
  line_symbol : Option (List Char)
  line_url : Option (List Char)
  line_url_name : Option (List Char)
  line_image_direction : Option ℚ
  line_image_direction_ref : Int
  line_newsegment : Bool
  line_timestamp : Option ℚ
  line_altitude : Option ℚ
  line_visible : Bool
  line_extended : Bool
  line_speed : Option ℚ
  line_course : Option ℚ
  line_magvar : Option ℚ
  line_geoidheight : Option ℚ
  line_sat : Nat
  line_fix : Nat
  line_hdop : Option ℚ
  line_vdop : Option ℚ
  line_pdop : Option ℚ
  line_ageofdgpsdata : Option ℚ
  line_dgpsid : Nat
deriving DecidableEq

/-- The static initial values of the `line_*` variables (gpspoint.c lines
declaring them). -/
def initialLineState : LineState where
  line_type := GPSPOINT_TYPE_NONE
  line_latlon := ⟨0, 0⟩
  line_name := none
  line_comment := none
  line_description := none
  line_source := none
  line_number := 0
  line_xtype := none
  line_color := none
  line_name_label := 0
  line_dist_label := 0
  line_image := none
  line_symbol := none
  line_url := none
  line_url_name := none
  line_image_direction := none
  line_image_direction_ref := 0
  line_newsegment := false
  line_timestamp := none
  line_altitude := none
  line_visible := true
  line_extended := false
  line_speed := none
  line_course := none
  line_magvar := none
  line_geoidheight := none
  line_sat := 0
  line_fix := 0
  line_hdop := none
  line_vdop := none
  line_pdop := none
  line_ageofdgpsdata := none
  line_dgpsid := 0

/-- The key test `key_len == N && strncasecmp(key, lit, key_len) == 0` of
the field dispatcher, for a lowercase ASCII literal `lit`. -/
def keyIs (key : List Char) (key_len : Nat) (lit : List Char) : Bool :=
  key_len = lit.length && (key.take key_len).map Char.toLower = lit

/-- `gpspoint_process_key_and_value` (gpspoint.c): dispatch one parsed
field into the transient line state.  `key` is the buffer suffix starting
at the tag (the first `key_len` characters form the key), `value` is
`none` for the C NULL value and otherwise the buffer suffix starting at
the value (the numeric handlers read past `value_len`, exactly as
`g_ascii_strtod`/`atoi` do on the NUL-terminated buffer). -/
def gpspoint_process_key_and_value (st : LineState) (key : List Char)
    (key_len : Nat) (value : Option (List Char)) (value_len : Nat) : LineState :=
  let v := value.getD []
  if keyIs key key_len (("latitude").toList) && value.isSome then
    { st with line_latlon := ⟨g_ascii_strtod v, st.line_latlon.lon⟩ }
  else if keyIs key key_len (("longitude").toList) && value.isSome then
    { st with line_latlon := ⟨st.line_latlon.lat, g_ascii_strtod v⟩ }
  else if keyIs key key_len (("unixtime").toList) && value.isSome then
    { st with line_timestamp := some (g_ascii_strtod v) }
  else if keyIs key key_len (("altitude").toList) && value.isSome then
    { st with line_altitude := some (g_ascii_strtod v) }
  else if keyIs key key_len (("type").toList) then
    if value.isNone then { st with line_type := GPSPOINT_TYPE_NONE }
    else if keyIs v value_len (("track").toList) then
      { st with line_type := GPSPOINT_TYPE_TRACK }
    else if keyIs v value_len (("trackend").toList) then
      { st with line_type := GPSPOINT_TYPE_TRACK_END }
    else if keyIs v value_len (("trackpoint").toList) then
      { st with line_type := GPSPOINT_TYPE_TRACKPOINT }
    else if keyIs v value_len (("waypoint").toList) then
      { st with line_type := GPSPOINT_TYPE_WAYPOINT }
    else if keyIs v value_len (("route").toList) then
      { st with line_type := GPSPOINT_TYPE_ROUTE }
    else if keyIs v value_len (("routeend").toList) then
      { st with line_type := GPSPOINT_TYPE_ROUTE_END }
    else if keyIs v value_len (("routepoint").toList) then
      { st with line_type := GPSPOINT_TYPE_ROUTEPOINT }
    else
      { st with line_type := GPSPOINT_TYPE_NONE }
  else if keyIs key key_len (("name").toList) && value.isSome then
    if st.line_name = none then { st with line_name := deslashndup v value_len }
    else st
  else if keyIs key key_len (("comment").toList) && value.isSome then
    if st.line_comment = none then
      { st with line_comment := deslashndup v value_len }
    else st
  else if keyIs key key_len (("description").toList) && value.isSome then
    if st.line_description = none then
      { st with line_description := deslashndup v value_len }
    else st
  else if keyIs key key_len (("source").toList) && value.isSome then
    if st.line_source = none then
      { st with line_source := deslashndup v value_len }
    else st
  else if keyIs key key_len (("number").toList) && value.isSome then
    { st with line_number := intToGuint (c_atoi v) }
  else if keyIs key key_len (("xtype").toList) && value.isSome then
    if st.line_xtype = none then
      { st with line_xtype := deslashndup v value_len }
    else st
  else if keyIs key key_len (("color").toList) && value.isSome then
    if st.line_color = none then
      { st with line_color := deslashndup v value_len }
    else st
  else if keyIs key key_len (("draw_name_mode").toList) && value.isSome then
    { st with line_name_label := c_atoi v }
  else if keyIs key key_len (("number_dist_labels").toList) && value.isSome then
    { st with line_dist_label := c_atoi v }
  else if keyIs key key_len (("image").toList) && value.isSome then
    if st.line_image = none then
      { st with line_image := deslashndup v value_len }
    else st
  else if keyIs key key_len (("image_direction").toList) && value.isSome then
    { st with line_image_direction := some (g_ascii_strtod v) }
  else if keyIs key key_len (("image_direction_ref").toList) && value.isSome then
    { st with line_image_direction_ref := c_atoi v }
  else if keyIs key key_len (("visible").toList) && value.isSome &&
      !(getCh v 0 = 'y') && !(getCh v 0 = 'Y') &&
      !(getCh v 0 = 't') && !(getCh v 0 = 'T') then
    { st with line_visible := false }
  else if keyIs key key_len (("symbol").toList) && value.isSome then
    { st with line_symbol := some (v.take value_len) }
  else if keyIs key key_len (("newsegment").toList) && value.isSome then
    { st with line_newsegment := true }
  else if keyIs key key_len (("extended").toList) && value.isSome then
    { st with line_extended := true }
  else if keyIs key key_len (("speed").toList) && value.isSome then
    { st with line_speed := some (g_ascii_strtod v) }
  else if keyIs key key_len (("course").toList) && value.isSome then
    { st with line_course := some (g_ascii_strtod v) }
  else if keyIs key key_len (("sat").toList) && value.isSome then
    { st with line_sat := intToGuint (c_atoi v) }
  else if keyIs key key_len (("fix").toList) && value.isSome then
    { st with line_fix := intToGuint (c_atoi v) }
  else if keyIs key key_len (("hdop").toList) && value.isSome then
    { st with line_hdop := some (g_ascii_strtod v) }
  else if keyIs key key_len (("vdop").toList) && value.isSome then
    { st with line_vdop := some (g_ascii_strtod v) }
  else if keyIs key key_len (("pdop").toList) && value.isSome then
    { st with line_pdop := some (g_ascii_strtod v) }
  else if keyIs key key_len (("magvar").toList) && value.isSome then
    { st with line_magvar := some (g_ascii_strtod v) }
  else if keyIs key key_len (("geoidheight").toList) && value.isSome then
    { st with line_geoidheight := some (g_ascii_strtod v) }
  else if keyIs key key_len (("url").toList) && value.isSome then
    { st with line_url := deslashndup v value_len }
  else if keyIs key key_len (("url_name").toList) && value.isSome then
    { st with line_url_name := deslashndup v value_len }
  else if keyIs key key_len (("ageofdgpsdata").toList) && value.isSome then
    { st with line_ageofdgpsdata := some (g_ascii_strtod v) }
  else if keyIs key key_len (("dgpsid").toList) && value.isSome then
    { st with line_dgpsid := intToGuint (c_atoi v) }
  else st

/-- The key-end scan of `gpspoint_process_tag`: the loop
`while (++key_end - tag < len) if (*key_end == '=') break;` — the first
index in `[1, len)` holding `=`, or `len` when none is found.  The scan
starts at index 1, so an `=` in position 0 is never found; positions past
the end of the buffer read the NUL terminator, which is not `=`, so
searching the explicit span is equivalent. -/
def findEq (tag : List Char) (len : Nat) : Nat :=
  match ((tag.drop 1).take (len - 1)).findIdx? (fun c => c = '=') with
  | some j => j + 1
  | none => len

/-- `gpspoint_process_tag` (gpspoint.c): split one token at its first `=`,
work out the (possibly quoted) value span, and dispatch.  `tag` is the
buffer suffix starting at the token; `len` is the token length. -/
def gpspoint_process_tag (st : LineState) (tag : List Char) (len : Nat) :
    LineState :=
  let ke := findEq tag len
  if ke = len then st
  else if ke = len + 1 then st
  else
    let vs := ke + 1
    if getCh tag vs = '"' then
      let vs := vs + 1
      if getCh tag vs = '"' then
        gpspoint_process_key_and_value st tag ke none 0
      else
        if getCh tag (len - 1) = '"' then
          if (len : Int) - 1 - (vs : Int) < 0 then st
          else
            gpspoint_process_key_and_value st tag ke (some (tag.drop vs))
              (len - 1 - vs)
        else st
    else
      if (len : Int) - (vs : Int) < 0 then st
      else
        gpspoint_process_key_and_value st tag ke (some (tag.drop vs)) (len - vs)

/-- The per-line tag loop of `a_gpspoint_read_file` (the `for (;;)` over
`tag_start`): skip whitespace, stop at end of line or at a `#` comment,
toggle the quote flag if the token starts with a quote, scan the token,
process it, and continue after the separator.  The `inside_quote` and
`backslash` flags persist across tokens of one line, as in the source. -/
def processTagsF (fuel : Nat) (st : LineState) (s : List Char) (iq bs : Bool) :
    LineState :=
  match fuel with
  | 0 => st
  | fuel + 1 =>
    match s.dropWhile (fun c => c_isspace c) with
    | [] => st
    | c :: cs =>
      if c = '#' then st
      else
        let iq1 := if c = '"' then !iq else iq
        let r := scanToken (c :: cs) iq1 bs
        let st' := gpspoint_process_tag st (c :: cs) r.1
        if r.1 = (c :: cs).length then st'
        else processTagsF fuel st' ((c :: cs).drop (r.1 + 1)) r.2.1 r.2.2

def processTags (st : LineState) (s : List Char) (iq bs : Bool) : LineState :=
  processTagsF (s.length + 1) st s iq bs

/-- `VikWaypoint` (vikwaypoint.h): the fields read and written by the
gpspoint serialization core.  The coordinate is kept as a lat/lon pair:
the coordinate converter (`vik_coord_load_from_latlon` /
`vik_coord_to_latlon`) is an external collaborator modelled from the spec
as the identity pair for a fixed coordinate mode. -/
structure VikWaypoint where
  coord : LatLon
  visible : Bool
  timestamp : Option ℚ
  altitude : Option ℚ
  course : Option ℚ
  speed : Option ℚ
  magvar : Option ℚ
  geoidheight : Option ℚ
  name : Option (List Char)
  comment : Option (List Char)
  description : Option (List Char)
  source : Option (List Char)
  url : Option (List Char)
  url_name : Option (List Char)
  wtype : Option (List Char)
  fix_mode : Nat
  nsats : Nat
  hdop : Option ℚ
  vdop : Option ℚ
  pdop : Option ℚ
  ageofdgpsdata : Option ℚ
  dgpsid : Nat
  image : Option (List Char)
  image_direction : Option ℚ
  image_direction_ref : Int
  symbol : Option (List Char)
deriving DecidableEq

/-- `VikTrackpoint` (viktrack.h, external header): the fields the core
touches. -/
structure VikTrackpoint where
  coord : LatLon
  name : Option (List Char)
  newsegment : Bool
  timestamp : Option ℚ
  altitude : Option ℚ
  speed : Option ℚ
  course : Option ℚ
  nsats : Nat
  fix_mode : Nat
  hdop : Option ℚ
  vdop : Option ℚ
  pdop : Option ℚ
deriving DecidableEq

/-- `VikTrack` (viktrack.h, external header): the fields the core touches.
The GdkColor channels are 16-bit values. -/
structure VikTrack where
  visible : Bool
  is_route : Bool
  name : Option (List Char)
  comment : Option (List Char)
  description : Option (List Char)
  source : Option (List Char)
  ttype : Option (List Char)
  number : Nat
  has_color : Bool
  color : Nat × Nat × Nat
  draw_name_mode : Nat
  max_number_dist_labels : Nat
  trackpoints : List VikTrackpoint
deriving DecidableEq

/-- Modelled from the spec: an entity collection is a mapping from name to
entity, mutated only by insertion during parsing, iterated in insertion
order when writing (`vu_sorted_list_from_hash_table` with `VL_SO_NONE` is
the externally supplied insertion order).  Modelled as insertion-ordered
lists; `vik_trw_layer_filein_add_waypoint`/`_track` append. -/
structure VikTrwLayer where
  waypoints : List VikWaypoint
  tracks : List VikTrack
  routes : List VikTrack
deriving DecidableEq

/-- Modelled from the spec: `vik_waypoint_new` — every optional field at
its absence sentinel (the sentinels are documented in vikwaypoint.h). -/
def vik_waypoint_new : VikWaypoint where
  coord := ⟨0, 0⟩
  visible := true
  timestamp := none
  altitude := none
  course := none
  speed := none
  magvar := none
  geoidheight := none
  name := none
  comment := none
  description := none
  source := none
  url := none
  url_name := none
  wtype := none
  fix_mode := 0
  nsats := 0
  hdop := none
  vdop := none
  pdop := none
  ageofdgpsdata := none
  dgpsid := 0
  image := none
  image_direction := none
  image_direction_ref := 0
  symbol := none

/-- Modelled from the spec: `vik_trackpoint_new` — every optional field at
its absence sentinel. -/
def vik_trackpoint_new : VikTrackpoint where
  coord := ⟨0, 0⟩
  name := none
  newsegment := false
  timestamp := none
  altitude := none
  speed := none
  course := none
  nsats := 0
  fix_mode := 0
  hdop := none
  vdop := none
  pdop := none

/-- Modelled from the spec: `vik_track_new` — every optional field at its
absence sentinel (the track line sets all its own properties, as the
source notes that no defaults are set there). -/
def vik_track_new : VikTrack where
  visible := true
  is_route := false
  name := none
  comment := none
  description := none
  source := none
  ttype := none
  number := 0
  has_color := false
  color := (0, 0, 0)
  draw_name_mode := 0
  max_number_dist_labels := 0
  trackpoints := []

/-- Value of a hexadecimal digit character, if it is one. -/
def hexVal (c : Char) : Option Nat :=
  if c_isdigit c then some (digVal c)
  else if 'a' ≤ c ∧ c ≤ 'f' then some (c.toNat - 'a'.toNat + 10)
  else if 'A' ≤ c ∧ c ≤ 'F' then some (c.toNat - 'A'.toNat + 10)
  else none

/-- Modelled from the spec: `gdk_color_parse`, the external color parser
(`string -> color or failure`), modelled for the `#rrggbb` form this
writer emits.  GdkColor channels are 16-bit, so an 8-bit hex pair is
scaled by 0x101 = 257. -/
def gdk_color_parse (s : List Char) : Option (Nat × Nat × Nat) :=
  match s with
  | '#' :: rest =>
    if rest.length = 6 then
      match hexVal (getCh rest 0), hexVal (getCh rest 1), hexVal (getCh rest 2),
          hexVal (getCh rest 3), hexVal (getCh rest 4), hexVal (getCh rest 5) with
      | some a, some b, some c, some d, some e, some f =>
        some ((a * 16 + b) * 257, (c * 16 + d) * 257, (e * 16 + f) * 257)
      | _, _, _, _, _, _ => none
    else none
  | _ => none

/-- Modelled from the spec: `util_make_absolute_filename`, the external
path resolver (`(path, base_directory) -> absolute_or_relative path`): an
already absolute path yields NULL (the caller then keeps the path as is);
a relative path is resolved against the base directory. -/
def util_make_absolute_filename (path : List Char) (dirpath : Option (List Char)) :
    Option (List Char) :=
  if getCh path 0 = '/' then none
  else match dirpath with
    | none => none
    | some d => some (d ++ '/' :: path)

/-- The state of one `a_gpspoint_read_file` invocation: the transient line
state, the layer being filled, the `current_track` pointer and the
`have_read_something` flag.  `current_track` always points at the most
recently added track or route, so it is modelled by which of the two
collections it lives in (its referent is the last element of that list). -/
structure ReadState where
  ls : LineState
  trw : VikTrwLayer
  current : Option Bool
  have_read_something : Bool
deriving DecidableEq

/-- Mutation through the `current_track` pointer: update the most recently
added element of the pointed collection. -/
def updateLastTrack (l : List VikTrack) (f : VikTrack → VikTrack) :
    List VikTrack :=
  match l with
  | [] => []
  | [t] => [f t]
  | t :: rest => t :: updateLastTrack rest f

/-- `trackpoints_end` (gpspoint.c): when a track is open and its point list
is non-empty, reverse the list (points were prepended) and clear the
`current_track` pointer.  When the open track has no points, nothing is
done and the pointer is NOT cleared. -/
def trackpoints_end (s : ReadState) : ReadState :=
  match s.current with
  | none => s
  | some isRoute =>
    match (if isRoute then s.trw.routes else s.trw.tracks).getLast? with
    | none => s
    | some t =>
      if t.trackpoints = [] then s
      else
        { s with
          trw :=
            if isRoute then
              { s.trw with routes := (updateLastTrack s.trw.routes (fun tr =>
                  { tr with trackpoints := tr.trackpoints.reverse })) }
            else
              { s.trw with tracks := (updateLastTrack s.trw.tracks (fun tr =>
                  { tr with trackpoints := tr.trackpoints.reverse })) }
          current := none }

/-- The record-assembly step of `a_gpspoint_read_file` run once per line
after all its tags have been dispatched: close on end markers, build and
insert a waypoint, track/route, or point according to `line_type`. -/
def gpspoint_commit_line (dirpath : Option (List Char)) (s0 : ReadState) :
    ReadState :=
  let s := if s0.ls.line_type = GPSPOINT_TYPE_TRACK_END ∨
              s0.ls.line_type = GPSPOINT_TYPE_ROUTE_END then
             trackpoints_end s0 else s0
  if s.ls.line_type = GPSPOINT_TYPE_WAYPOINT ∧ s.ls.line_name ≠ none then
    let s := trackpoints_end s
    let wp : VikWaypoint :=
      { vik_waypoint_new with
        visible := s.ls.line_visible
        altitude := s.ls.line_altitude
        timestamp := s.ls.line_timestamp
        speed := s.ls.line_speed
        course := s.ls.line_course
        magvar := s.ls.line_magvar
        geoidheight := s.ls.line_geoidheight
        nsats := s.ls.line_sat
        fix_mode := s.ls.line_fix
        hdop := s.ls.line_hdop
        vdop := s.ls.line_vdop
        pdop := s.ls.line_pdop
        ageofdgpsdata := s.ls.line_ageofdgpsdata
        dgpsid := s.ls.line_dgpsid
        coord := s.ls.line_latlon
        name := s.ls.line_name
        comment := s.ls.line_comment
        description := s.ls.line_description
        source := s.ls.line_source
        url := s.ls.line_url
        url_name := s.ls.line_url_name
        wtype := s.ls.line_xtype
        image :=
          match s.ls.line_image with
          | none => none
          | some im => some ((util_make_absolute_filename im dirpath).getD im)
        image_direction := s.ls.line_image_direction
        image_direction_ref :=
          if s.ls.line_image_direction ≠ none then s.ls.line_image_direction_ref
          else vik_waypoint_new.image_direction_ref
        symbol := s.ls.line_symbol }
    { s with trw := { s.trw with waypoints := s.trw.waypoints ++ [wp] }
             have_read_something := true }
  else if (s.ls.line_type = GPSPOINT_TYPE_TRACK ∨
           s.ls.line_type = GPSPOINT_TYPE_ROUTE) ∧ s.ls.line_name ≠ none then
    let s := trackpoints_end s
    let isR := s.ls.line_type = GPSPOINT_TYPE_ROUTE
    let pl : VikTrack :=
      { vik_track_new with
        visible := s.ls.line_visible
        is_route := isR
        name := s.ls.line_name
        comment := s.ls.line_comment
        description := s.ls.line_description
        source := s.ls.line_source
        number := if s.ls.line_number ≠ 0 then s.ls.line_number
                  else vik_track_new.number
        ttype := s.ls.line_xtype
        has_color :=
          match s.ls.line_color with
          | none => vik_track_new.has_color
          | some c => (gdk_color_parse c).isSome
        color :=
          match s.ls.line_color with
          | none => vik_track_new.color
          | some c => (gdk_color_parse c).getD vik_track_new.color
        draw_name_mode := intToGuint s.ls.line_name_label
        max_number_dist_labels := intToGuint s.ls.line_dist_label
        trackpoints := [] }
    let trw' := if isR then { s.trw with routes := s.trw.routes ++ [pl] }
                else { s.trw with tracks := s.trw.tracks ++ [pl] }
    { s with trw := trw', current := some isR, have_read_something := true }
  else if (s.ls.line_type = GPSPOINT_TYPE_TRACKPOINT ∨
           s.ls.line_type = GPSPOINT_TYPE_ROUTEPOINT) ∧ s.current ≠ none then
    let tp : VikTrackpoint :=
      { vik_trackpoint_new with
        coord := s.ls.line_latlon
        newsegment := s.ls.line_newsegment
        timestamp := s.ls.line_timestamp
        altitude := s.ls.line_altitude
        name := s.ls.line_name
        speed := if s.ls.line_extended then s.ls.line_speed
                 else vik_trackpoint_new.speed
        course := if s.ls.line_extended then s.ls.line_course
                  else vik_trackpoint_new.course
        nsats := if s.ls.line_extended then s.ls.line_sat
                 else vik_trackpoint_new.nsats
        fix_mode := if s.ls.line_extended then s.ls.line_fix
                    else vik_trackpoint_new.fix_mode
        hdop := if s.ls.line_extended then s.ls.line_hdop
                else vik_trackpoint_new.hdop
        vdop := if s.ls.line_extended then s.ls.line_vdop
                else vik_trackpoint_new.vdop
        pdop := if s.ls.line_extended then s.ls.line_pdop
                else vik_trackpoint_new.pdop }
    let isR := s.current.getD false
    let l := if isR then s.trw.routes else s.trw.tracks
    let l' := updateLastTrack l
      (fun tr => { tr with trackpoints := tp :: tr.trackpoints })
    let trw' := if isR then { s.trw with routes := l' }
                else { s.trw with tracks := l' }
    { s with trw := trw', have_read_something := true }
  else s

/-- The per-line reset block at the bottom of the read loop (gpspoint.c):
every transient field is returned to its sentinel — except `line_latlon`,
which the source does not reset. -/
def resetAfterLine (ls : LineState) : LineState :=
  { ls with
    line_name := none
    line_comment := none
    line_description := none
    line_source := none
    line_xtype := none
    line_color := none
    line_image := none
    line_image_direction := none
    line_image_direction_ref := 0
    line_symbol := none
    line_type := GPSPOINT_TYPE_NONE
    line_newsegment := false
    line_timestamp := none
    line_altitude := none
    line_visible := true
    line_url := none
    line_url_name := none
    line_magvar := none
    line_geoidheight := none
    line_extended := false
    line_speed := none
    line_course := none
    line_sat := 0
    line_fix := 0
    line_hdop := none
    line_vdop := none
    line_pdop := none
    line_ageofdgpsdata := none
    line_dgpsid := 0
    line_name_label := 0
    line_dist_label := 0
    line_number := 0 }

/-- One full iteration of the read loop for one (newline-stripped) line:
tokenize and dispatch all tags, run the record assembler, reset the
transient fields. -/
def gpspoint_line_step (dirpath : Option (List Char)) (s : ReadState)
    (line : List Char) : ReadState :=
  let ls' := processTags s.ls line false false
  let s' := gpspoint_commit_line dirpath { s with ls := ls' }
  { s' with ls := resetAfterLine s'.ls }

/-- The read loop of `a_gpspoint_read_file` over the chopped lines,
stopping early (and reporting success) at a `~EndLayerData` marker. -/
def gpspoint_read_loop (dirpath : Option (List Char)) (s : ReadState) :
    List (List Char) → ReadState
  | [] => s
  | l :: rest =>
    if l.length ≥ 13 ∧ l.take 13 = ("~EndLayerData").toList then
      { s with have_read_something := true }
    else gpspoint_read_loop dirpath (gpspoint_line_step dirpath s l) rest

/-- `fgets` followed by `line_buffer[strlen(line_buffer)-1] = 0`: split the
input at line feeds; each piece loses its trailing line feed, and a final
piece with no line feed loses its last real character (the unconditional
chop). -/
def chopLinesF (fuel : Nat) (s : List Char) : List (List Char) :=
  match fuel with
  | 0 => []
  | fuel + 1 =>
    if s = [] then []
    else
      let pre := s.takeWhile (fun c => c ≠ '\n')
      if pre.length = s.length then [pre.dropLast]
      else pre :: chopLinesF fuel (s.drop (pre.length + 1))

def chopLines (s : List Char) : List (List Char) :=
  chopLinesF (s.length + 1) s

/-- `a_gpspoint_read_file` (gpspoint.c): the entry assignments to the
static parse state (only `line_type`, `line_timestamp`, `line_newsegment`,
`line_image`, `line_symbol` and `current_track` are reset on entry — the
other statics, notably `line_latlon`, keep whatever a previous invocation
left), the read loop, and the final defensive `trackpoints_end`.  `ls0` is
the leftover static state, `input` the byte stream of the file. -/
def a_gpspoint_read_file (ls0 : LineState) (dirpath : Option (List Char))
    (input : List Char) : ReadState :=
  let s0 : ReadState :=
    { ls := { ls0 with
              line_type := GPSPOINT_TYPE_NONE
              line_timestamp := none
              line_newsegment := false
              line_image := none
              line_symbol := none }
      trw := ⟨[], [], []⟩
      current := none
      have_read_something := false }
  trackpoints_end (gpspoint_read_loop dirpath s0 (chopLines input))

/-- Base-`b` digits, least significant first, by fuel-counted recursion
(structural, so concrete values reduce in the kernel); with fuel at least
`n` this agrees with `Nat.digits b n`. -/
def digitsF (b : Nat) : Nat → Nat → List Nat
  | 0, _ => []
  | _ + 1, 0 => []
  | fuel + 1, n + 1 => (n + 1) % b :: digitsF b fuel ((n + 1) / b)

/-- Decimal rendering of a natural number (the digits of `printf`-style
`%d` output for a non-negative value). -/
def natToChars (n : Nat) : List Char :=
  if n = 0 then ['0'] else ((digitsF 10 n n).map Nat.digitChar).reverse

/-- Rendering of a C `int` by `%d`. -/
def intToChars (i : Int) : List Char :=
  (if i < 0 then ['-'] else []) ++ natToChars i.natAbs

/-- `fprintf(.., "%d", v)` applied to a `guint` argument: the bit pattern
is reinterpreted as a signed int, so values of 2^31 and above print as
negative numbers. -/
def guintPrintfD (v : Nat) : List Char :=
  intToChars (if v < 2 ^ 31 then (v : Int) else (v : Int) - 2 ^ 32)

/-- Left-pad a digit string with zeros to a given width. -/
def padZeros (w : Nat) (d : List Char) : List Char :=
  List.replicate (w - d.length) '0' ++ d

/-- Modelled from the spec: `a_coords_dtostr_buffer`, the external
locale-independent fixed (non-scientific) decimal formatter used for all
double-valued fields, rendering six fractional digits (`%.6f`), with
round-half-up at the sixth digit. -/
def a_coords_dtostr (q : ℚ) : List Char :=
  let n : Nat := (Int.floor (|q| * 1000000 + 1 / 2)).toNat
  (if q < 0 then ['-'] else []) ++
    natToChars (n / 1000000) ++ '.' :: padZeros 6 (natToChars (n % 1000000))

/-- Modelled from the spec: `util_formatd ( "%.2f", .. )`, the external
locale-independent two-decimal formatter used for `image_direction`. -/
def util_formatd2 (q : ℚ) : List Char :=
  let n : Nat := (Int.floor (|q| * 100 + 1 / 2)).toNat
  (if q < 0 then ['-'] else []) ++
    natToChars (n / 100) ++ '.' :: padZeros 2 (natToChars (n % 100))

/-- `write_double` (gpspoint.c): emit ` tag="value"` unless the value is at
its NAN absence sentinel. -/
def write_double (tag : List Char) (v : Option ℚ) : List Char :=
  match v with
  | none => []
  | some q => ' ' :: tag ++ '=' :: '"' :: a_coords_dtostr q ++ ['"']

/-- `write_positive_uint` (gpspoint.c): emit ` tag="value"` unless the
value is zero. -/
def write_positive_uint (tag : List Char) (v : Nat) : List Char :=
  if v ≠ 0 then ' ' :: tag ++ '=' :: '"' :: guintPrintfD v ++ ['"'] else []

/-- `write_string` (gpspoint.c): emit ` tag="escaped value"` unless the
value is NULL or empty. -/
def write_string (tag : List Char) (v : Option (List Char)) : List Char :=
  match v with
  | none => []
  | some s =>
    if s.length ≠ 0 then ' ' :: tag ++ '=' :: '"' :: slashdup s ++ ['"']
    else []

/-- Lowercase hexadecimal rendering of a natural number. -/
def natToHexChars (n : Nat) : List Char :=
  if n = 0 then ['0'] else ((digitsF 16 n n).map Nat.digitChar).reverse

/-- `%.2x`: lowercase hex, zero-padded to two digits. -/
def hexPad2 (n : Nat) : List Char := padZeros 2 (natToHexChars n)

/-- Modelled from the spec: `g_utf8_strdown`, lowercasing (the symbol names
this is applied to are ASCII). -/
def g_utf8_strdown (s : List Char) : List Char := s.map Char.toLower

/-- Modelled from the spec: `file_GetRelativeFilename`, the external path
resolver producing a relative reference.  Treated as opaque (identity);
it is only exercised when the relative file-reference mode is active,
which the theorems below do not use. -/
def file_GetRelativeFilename (_dir path : List Char) : List Char := path

/-- The `if (wp->image)` block of `a_gpspoint_write_waypoint`: emitted
whenever the image pointer is non-NULL (even for an empty string), with
the path possibly made relative. -/
def write_wp_image (dirpath : Option (List Char)) (refRelative : Bool)
    (wp : VikWaypoint) : List Char :=
  match wp.image with
  | none => []
  | some im =>
    let tmp : Option (List Char) :=
      if refRelative then
        match dirpath with
        | some d => some (file_GetRelativeFilename d im)
        | none => none
      else none
    (" image=\"").toList ++ (tmp.getD (slashdup im)) ++ ['"']

/-- The `if (!isnan(wp->image_direction))` block of
`a_gpspoint_write_waypoint`. -/
def write_wp_image_direction (wp : VikWaypoint) : List Char :=
  match wp.image_direction with
  | none => []
  | some dir =>
    (" image_direction=\"").toList ++ util_formatd2 dir ++ ['"'] ++
    (" image_direction_ref=\"").toList ++
    intToChars wp.image_direction_ref ++ ['"']

/-- The `if (wp->symbol)` block of `a_gpspoint_write_waypoint`: emitted
whenever the symbol pointer is non-NULL (even for an empty string), with
the name lowercased. -/
def write_wp_symbol (wp : VikWaypoint) : List Char :=
  match wp.symbol with
  | none => []
  | some sy => (" symbol=\"").toList ++ g_utf8_strdown sy ++ ['"']

/-- The extended block of `a_gpspoint_write_trackpoint`: emitted only when
speed or course is present or the satellite count is positive. -/
def write_tp_extended (tp : VikTrackpoint) : List Char :=
  if tp.speed ≠ none ∨ tp.course ≠ none ∨ tp.nsats > 0 then
    (" extended=\"yes\"").toList ++
    write_double (("speed").toList) tp.speed ++
    write_double (("course").toList) tp.course ++
    write_positive_uint (("sat").toList) tp.nsats ++
    write_positive_uint (("fix").toList) tp.fix_mode ++
    write_double (("hdop").toList) tp.hdop ++
    write_double (("vdop").toList) tp.vdop ++
    write_double (("pdop").toList) tp.pdop
  else []

/-- `a_gpspoint_write_waypoint` (gpspoint.c): one output line (with its
terminating line feed) for a waypoint; nothing when the name is NULL.
`refRelative` models `a_vik_get_file_ref_format () == VIK_FILE_REF_FORMAT_RELATIVE`,
a caller-supplied mode. -/
def a_gpspoint_write_waypoint (dirpath : Option (List Char))
    (refRelative : Bool) (wp : VikWaypoint) : List Char :=
  match wp.name with
  | none => []
  | some nm =>
    ("type=\"waypoint\" latitude=\"").toList ++ a_coords_dtostr wp.coord.lat ++
    ("\" longitude=\"").toList ++ a_coords_dtostr wp.coord.lon ++
    ("\" name=\"").toList ++ slashdup nm ++ ['"'] ++
    write_double (("altitude").toList) wp.altitude ++
    write_double (("unixtime").toList) wp.timestamp ++
    write_double (("speed").toList) wp.speed ++
    write_double (("course").toList) wp.course ++
    write_double (("magvar").toList) wp.magvar ++
    write_double (("geoidheight").toList) wp.geoidheight ++
    write_string (("comment").toList) wp.comment ++
    write_string (("description").toList) wp.description ++
    write_string (("source").toList) wp.source ++
    write_string (("url").toList) wp.url ++
    write_string (("url_name").toList) wp.url_name ++
    write_string (("xtype").toList) wp.wtype ++
    write_positive_uint (("fix").toList) wp.fix_mode ++
    write_positive_uint (("sat").toList) wp.nsats ++
    write_double (("hdop").toList) wp.hdop ++
    write_double (("vdop").toList) wp.vdop ++
    write_double (("pdop").toList) wp.pdop ++
    write_double (("ageofdgpsdata").toList) wp.ageofdgpsdata ++
    write_positive_uint (("dgpsid").toList) wp.dgpsid ++
    write_wp_image dirpath refRelative wp ++
    write_wp_image_direction wp ++
    write_wp_symbol wp ++
    (if wp.visible then [] else (" visible=\"n\"").toList) ++
    ['\n']

/-- `a_gpspoint_write_trackpoint` (gpspoint.c): one output line for a
track/route point; the extended fields are emitted only when speed or
course is present or the satellite count is positive. -/
def a_gpspoint_write_trackpoint (is_route : Bool) (tp : VikTrackpoint) :
    List Char :=
  ("type=\"").toList ++ (if is_route then ("route").toList else ("track").toList) ++
  ("point\" latitude=\"").toList ++ a_coords_dtostr tp.coord.lat ++
  ("\" longitude=\"").toList ++ a_coords_dtostr tp.coord.lon ++ ['"'] ++
  write_string (("name").toList) tp.name ++
  write_double (("altitude").toList) tp.altitude ++
  write_double (("unixtime").toList) tp.timestamp ++
  (if tp.newsegment then (" newsegment=\"yes\"").toList else []) ++
  write_tp_extended tp ++
  ['\n']

/-- `a_gpspoint_write_track` (gpspoint.c): the header line, the point
lines, and the closing `trackend`/`routeend` line; nothing when the name
is NULL. -/
def a_gpspoint_write_track (trk : VikTrack) : List Char :=
  match trk.name with
  | none => []
  | some nm =>
    ("type=\"").toList ++
    (if trk.is_route then ("route").toList else ("track").toList) ++
    ("\" name=\"").toList ++ slashdup nm ++ ['"'] ++
    write_string (("comment").toList) trk.comment ++
    write_string (("description").toList) trk.description ++
    write_string (("source").toList) trk.source ++
    write_positive_uint (("number").toList) trk.number ++
    write_string (("xtype").toList) trk.ttype ++
    (if trk.has_color then
      (" color=#").toList ++ hexPad2 (trk.color.1 / 256) ++
      hexPad2 (trk.color.2.1 / 256) ++ hexPad2 (trk.color.2.2 / 256)
     else []) ++
    write_positive_uint (("draw_name_mode").toList) trk.draw_name_mode ++
    write_positive_uint (("number_dist_labels").toList)
      trk.max_number_dist_labels ++
    (if trk.visible then [] else (" visible=\"n\"").toList) ++
    ['\n'] ++
    (trk.trackpoints.map (a_gpspoint_write_trackpoint trk.is_route)).flatten ++
    ("type=\"").toList ++
    (if trk.is_route then ("route").toList else ("track").toList) ++
    ("end\"\n").toList

/-- `a_gpspoint_write_file` (gpspoint.c): the waypoint list between its
bracketing lines, then all tracks, then all routes, each collection walked
in the caller-supplied insertion order. -/
def a_gpspoint_write_file (dirpath : Option (List Char)) (refRelative : Bool)
    (trw : VikTrwLayer) : List Char :=
  ("type=\"waypointlist\"\n").toList ++
  (trw.waypoints.map (a_gpspoint_write_waypoint dirpath refRelative)).flatten ++
  ("type=\"waypointlistend\"\n").toList ++
  (trw.tracks.map a_gpspoint_write_track).flatten ++
  (trw.routes.map a_gpspoint_write_track).flatten

/-- Whether `needle` occurs as a contiguous subsequence of `hay`. -/
def containsSeq (needle hay : List Char) : Bool :=
  match hay with
  | [] => needle = []
  | _ :: rest => needle.isPrefixOf hay || containsSeq needle rest

def C9exampleState : LineState :=
  { initialLineState with
    line_name := some ['a']
    line_comment := some ['a']
    line_description := some ['a']
    line_source := some ['a']
    line_xtype := some ['a']
    line_color := some ['a']
    line_image := some ['a'] }

def C8exampleTp : VikTrackpoint :=
  { vik_trackpoint_new with
    coord := ⟨1, 2⟩
    hdop := some 1 }

/-- Well-formedness of a string field value for the round-trip: nonempty,
and free of NUL (impossible in a C string), line feed and carriage return
(which `slashdup` folds to blanks). -/
def wfString (s : List Char) : Prop :=
  s ≠ [] ∧ s.length < 32768 ∧ ∀ c ∈ s, c ≠ nulChar ∧ c ≠ '\n' ∧ c ≠ '\r'

/-- A present, well-formed optional string. -/
def wfOptString (o : Option (List Char)) : Prop :=
  o ≠ none ∧ wfString (o.getD [])

/-- A rational exactly representable by the six-decimal fixed formatter. -/
def wfQ6 (q : ℚ) : Prop := (q * 1000000).den = 1

/-- A present, exactly-representable optional double. -/
def wfOptQ6 (o : Option ℚ) : Prop := o ≠ none ∧ wfQ6 (o.getD 0)

/-- A rational exactly representable by the two-decimal formatter used for
`image_direction`. -/
def wfQ2 (q : ℚ) : Prop := (q * 100).den = 1

def wfOptQ2 (o : Option ℚ) : Prop := o ≠ none ∧ wfQ2 (o.getD 0)

/-- A present (nonzero) count that prints faithfully through `%d`. -/
def wfCount (n : Nat) : Prop := 0 < n ∧ n < 2 ^ 31

/-- A symbol survives the round trip when it is already lowercase and
contains no quote or backslash (it is written and read unescaped). -/
def wfSymbolStr (s : List Char) : Prop :=
  wfString s ∧ (∀ c ∈ s, c ≠ '"' ∧ c ≠ '\\') ∧ s.map Char.toLower = s

/-- An image path survives the round trip when it is absolute (the reader
resolves relative paths against the base directory). -/
def wfImageStr (s : List Char) : Prop := wfString s ∧ getCh s 0 = '/'

/-- A GdkColor channel that survives the 16-bit to 8-bit truncation on
write and the 8-bit to 16-bit scaling on parse: both bytes equal. -/
def wfChannel (c : Nat) : Prop := ∃ k, k < 256 ∧ c = 257 * k

/-- The round-trip well-formedness of a waypoint: the claim's sentinel
freedom (every optional present, no zero count, no empty string) plus the
conditions the code's own formatters force. -/
def wfWaypoint (wp : VikWaypoint) : Prop :=
  wfQ6 wp.coord.lat ∧ wfQ6 wp.coord.lon ∧
  wfOptQ6 wp.timestamp ∧ wfOptQ6 wp.altitude ∧ wfOptQ6 wp.course ∧
  wfOptQ6 wp.speed ∧ wfOptQ6 wp.magvar ∧ wfOptQ6 wp.geoidheight ∧
  wfOptString wp.name ∧ wfOptString wp.comment ∧ wfOptString wp.description ∧
  wfOptString wp.source ∧ wfOptString wp.url ∧ wfOptString wp.url_name ∧
  wfOptString wp.wtype ∧
  wfCount wp.fix_mode ∧ wfCount wp.nsats ∧
  wfOptQ6 wp.hdop ∧ wfOptQ6 wp.vdop ∧ wfOptQ6 wp.pdop ∧
  wfOptQ6 wp.ageofdgpsdata ∧ wfCount wp.dgpsid ∧
  wp.image ≠ none ∧ wfImageStr (wp.image.getD []) ∧
  wfOptQ2 wp.image_direction ∧
  wp.symbol ≠ none ∧ wfSymbolStr (wp.symbol.getD [])

/-- The round-trip well-formedness of a track/route point. -/
def wfTrackpoint (tp : VikTrackpoint) : Prop :=
  wfQ6 tp.coord.lat ∧ wfQ6 tp.coord.lon ∧
  wfOptString tp.name ∧
  wfOptQ6 tp.timestamp ∧ wfOptQ6 tp.altitude ∧
  wfOptQ6 tp.speed ∧ wfOptQ6 tp.course ∧
  wfCount tp.nsats ∧ wfCount tp.fix_mode ∧
  wfOptQ6 tp.hdop ∧ wfOptQ6 tp.vdop ∧ wfOptQ6 tp.pdop

/-- The round-trip well-formedness of a track or route. -/
def wfTrack (t : VikTrack) : Prop :=
  wfOptString t.name ∧ wfOptString t.comment ∧ wfOptString t.description ∧
  wfOptString t.source ∧ wfOptString t.ttype ∧
  wfCount t.number ∧
  t.has_color = true ∧ wfChannel t.color.1 ∧ wfChannel t.color.2.1 ∧
  wfChannel t.color.2.2 ∧
  wfCount t.draw_name_mode ∧ wfCount t.max_number_dist_labels ∧
  ∀ tp ∈ t.trackpoints, wfTrackpoint tp

/-- The round-trip well-formedness of a whole layer. -/
def wfTrw (trw : VikTrwLayer) : Prop :=
  (∀ wp ∈ trw.waypoints, wfWaypoint wp) ∧
  (∀ t ∈ trw.tracks, wfTrack t ∧ t.is_route = false) ∧
  (∀ t ∈ trw.routes, wfTrack t ∧ t.is_route = true)

/-- The value part of one `key=value` token of a written line. -/
inductive TokVal where
  | quoted (e : List Char)
  | raw (w : List Char)
deriving DecidableEq

/-- One `key=value` token of a written line. -/
structure TokSpec where
  key : List Char
  val : TokVal
deriving DecidableEq

/-- The text of one token. -/
def renderTok : TokSpec → List Char
  | ⟨k, .quoted e⟩ => k ++ '=' :: '"' :: (e ++ ['"'])
  | ⟨k, .raw w⟩ => k ++ '=' :: w

/-- The text of a line: tokens separated by single blanks. -/
def renderToks : List TokSpec → List Char
  | [] => []
  | t :: ts =>
    renderTok t ++ (match ts with | [] => [] | _ :: _ => ' ' :: renderToks ts)

/-- The `type` value dispatch of `gpspoint_process_key_and_value`,
expressed on the value span alone. -/
def typeDispatch (e : List Char) : Nat :=
  if keyIs e e.length (("track").toList) then GPSPOINT_TYPE_TRACK
  else if keyIs e e.length (("trackend").toList) then GPSPOINT_TYPE_TRACK_END
  else if keyIs e e.length (("trackpoint").toList) then GPSPOINT_TYPE_TRACKPOINT
  else if keyIs e e.length (("waypoint").toList) then GPSPOINT_TYPE_WAYPOINT
  else if keyIs e e.length (("route").toList) then GPSPOINT_TYPE_ROUTE
  else if keyIs e e.length (("routeend").toList) then GPSPOINT_TYPE_ROUTE_END
  else if keyIs e e.length (("routepoint").toList) then GPSPOINT_TYPE_ROUTEPOINT
  else GPSPOINT_TYPE_NONE

/-- The line state at the start of every line after the first: all
sentinels except the leaked latitude/longitude pair. -/
def resetState (ll : LatLon) : LineState :=
  { initialLineState with line_latlon := ll }

/-- An escaped sequence as `slashdup` produces them: backslash and double
quote occur only as the second character of a backslash-led pair. -/
inductive EscSeq : List Char → Prop
  | nil : EscSeq []
  | plain (c : Char) (h : c ≠ '\\' ∧ c ≠ '"') (rest : List Char) :
      EscSeq rest → EscSeq (c :: rest)
  | esc (x : Char) (h : x = '\\' ∨ x = '"') (rest : List Char) :
      EscSeq rest → EscSeq ('\\' :: x :: rest)

/-- A character that passes through the token scanner without side effects:
not whitespace, not a backslash, not a double quote. -/
def plainTokChar (c : Char) : Prop :=
  c_isspace c = false ∧ c ≠ '\\' ∧ c ≠ '"'

/-- Well-formedness of one written token for the token scanner: a nonempty
key of plain characters (no whitespace, backslash, quote, equals sign or
hash), and a value that is either a nonempty escaped sequence (quoted
form) or a nonempty run of plain characters (raw form). -/
def TokGood : TokSpec → Prop
  | ⟨k, .quoted e⟩ => k ≠ [] ∧
      (∀ c ∈ k, plainTokChar c ∧ c ≠ '=' ∧ c ≠ '#') ∧ EscSeq e ∧ e ≠ [] ∧
      (∀ c ∈ e, c ≠ '\n')
  | ⟨k, .raw w⟩ => k ≠ [] ∧
      (∀ c ∈ k, plainTokChar c ∧ c ≠ '=' ∧ c ≠ '#') ∧
      (∀ c ∈ w, plainTokChar c) ∧ w ≠ []

/-- The separator-and-tail text that follows the head token of a line. -/
def renderSep : List TokSpec → List Char
  | [] => []
  | t :: ts => ' ' :: renderToks (t :: ts)

/-- The accumulated line state after the per-token dispatch steps of one
written line, token by token: each step hands the dispatcher the buffer
suffix starting at the token, exactly as the tag loop does. -/
def stepToks : LineState → List TokSpec → LineState
  | st, [] => st
  | st, t :: ts =>
    stepToks
      (gpspoint_process_tag st (renderTok t ++ renderSep ts)
        (renderTok t).length) ts

instance (c : Char) : Decidable (plainTokChar c) := by
  unfold plainTokChar
  infer_instance

lemma bs_scan_cons_ne {c : Char} (h : c ≠ '\\') (l : List Char) :
    bs_scan (c :: l) = ((bs_scan l).1, (bs_scan l).2 + 1) := by
  rw [bs_scan.eq_def]
  simp only [if_neg h]

lemma bs_scan_cons_bs (c : Char) (l : List Char) :
    bs_scan ('\\' :: c :: l) = ((bs_scan l).1 + 1, (bs_scan l).2 + 2) := by
  rw [bs_scan.eq_def]
  simp

lemma normChar_ne_backslash {c : Char} (h : ¬ (c = '\\' ∨ c = '"')) :
    normChar c ≠ '\\' := by
  unfold normChar
  split
  · decide
  · intro hc; exact h (Or.inl hc)

lemma length_slashdup (s : List Char) :
    (slashdup s).length = s.length + escCount s := by
  induction s with
  | nil => rfl
  | cons c rest ih =>
    by_cases hc : c = '\\' ∨ c = '"' <;> simp [slashdup, escCount, hc, ih] <;> omega

lemma bs_scan_slashdup (s : List Char) :
    bs_scan (slashdup s) = (escCount s, (slashdup s).length) := by
  induction s with
  | nil => rfl
  | cons c rest ih =>
    by_cases hc : c = '\\' ∨ c = '"'
    · simp only [slashdup, if_pos hc, bs_scan_cons_bs, ih, escCount, List.length_cons]
      simp [hc, Prod.ext_iff]
      omega
    · have hnc := normChar_ne_backslash hc
      simp only [slashdup, if_neg hc, bs_scan_cons_ne hnc, ih, escCount, List.length_cons]
      simp [hc]

lemma deslash_core_slashdup (s : List Char) :
    deslash_core (slashdup s) false = List.map normChar s := by
  induction s with
  | nil => rfl
  | cons c rest ih =>
    by_cases hc : c = '\\' ∨ c = '"'
    · have hset : deslash_core ('\\' :: c :: slashdup rest) false
          = deslash_core (c :: slashdup rest) true := by
        simp [deslash_core]
      have hcopy : deslash_core (c :: slashdup rest) true
          = c :: deslash_core (slashdup rest) false := by
        simp [deslash_core]
      have hnorm : normChar c = c := by
        rcases hc with h | h <;> subst h <;> rfl
      simp [slashdup, hc, hset, hcopy, ih, hnorm]
    · have hnc := normChar_ne_backslash hc
      simp [slashdup, hc, deslash_core, hnc, ih]

lemma slashdup_shape (s : List Char) :
    slashdup s = [] ∨ (∃ t c, c ≠ '\\' ∧ slashdup s = t ++ [c]) ∨
      (∃ t, slashdup s = t ++ ['\\', '\\']) := by
  induction s with
  | nil => left; rfl
  | cons c rest ih =>
    by_cases hc : c = '\\' ∨ c = '"'
    · rcases ih with h0 | ⟨t, d, hd, ht⟩ | ⟨t, ht⟩
      · by_cases hcc : c = '\\'
        · right; right; exact ⟨[], by simp [slashdup, hc, h0, hcc]⟩
        · right; left; exact ⟨['\\'], c, hcc, by simp [slashdup, hc, h0]⟩
      · right; left; exact ⟨'\\' :: c :: t, d, hd, by simp [slashdup, hc, ht]⟩
      · right; right; exact ⟨'\\' :: c :: t, by simp [slashdup, hc, ht]⟩
    · have hnc := normChar_ne_backslash hc
      rcases ih with h0 | ⟨t, d, hd, ht⟩ | ⟨t, ht⟩
      · right; left; exact ⟨[], normChar c, hnc, by simp [slashdup, hc, h0]⟩
      · right; left; exact ⟨normChar c :: t, d, hd, by simp [slashdup, hc, ht]⟩
      · right; right; exact ⟨normChar c :: t, by simp [slashdup, hc, ht]⟩

lemma slashdup_no_lone_trailing_bs (s : List Char) :
    ¬ (getCh (slashdup s) ((slashdup s).length - 1) = '\\' ∧
       ((slashdup s).length = 1 ∨
        getCh (slashdup s) ((slashdup s).length - 2) ≠ '\\')) := by
  rcases slashdup_shape s with h0 | ⟨t, c, hc, ht⟩ | ⟨t, ht⟩
  · rw [h0]
    simp [getCh]
  · rw [ht]
    intro hcon
    apply hc
    have hlen : (t ++ [c]).length - 1 = t.length := by simp
    have h1 := hcon.1
    rw [hlen, getCh, List.getD_append_right t [c] nulChar t.length (le_refl _)] at h1
    simpa using h1
  · rw [ht]
    intro hcon
    have hlen : (t ++ ['\\', '\\']).length = t.length + 2 := by simp
    rcases hcon.2 with h2 | h2
    · omega
    · apply h2
      rw [hlen]
      have h22 : t.length + 2 - 2 = t.length := by omega
      rw [h22, getCh, List.getD_append_right t ['\\', '\\'] nulChar t.length (le_refl _)]
      simp

/-- C2 (counterexample): the escaping round-trip claim fails at the empty
string: `deslashndup` returns NULL (`none`) when given length 0, which is
not the empty string that the claim demands. -/
theorem C2_counterexample :
    ¬ (deslashndup (slashdup []) (slashdup []).length
        = some (List.map normChar [])) := by decide

/-- C2 (amended): for every nonempty string `s` whose escaped form fits the
`guint16` length parameter, unescaping the escaped form of `s` with its full
length yields `s` with every line feed and carriage return replaced by a
single space. -/
theorem C2_escape_unescape_roundtrip (s : List Char) (h1 : s ≠ [])
    (h2 : (slashdup s).length < 65536) :
    deslashndup (slashdup s) (slashdup s).length
      = some (List.map normChar s) := by
  have hmod : (slashdup s).length % 65536 = (slashdup s).length :=
    Nat.mod_eq_of_lt h2
  have hne : slashdup s ≠ [] := by
    cases s with
    | nil => exact absurd rfl h1
    | cons c r => by_cases hc : c = '\\' ∨ c = '"' <;> simp [slashdup, hc]
  have hpos : 0 < (slashdup s).length := List.length_pos.mpr hne
  simp only [deslashndup, hmod]
  rw [if_neg (by omega), List.take_length, bs_scan_slashdup,
    if_neg (slashdup_no_lone_trailing_bs s), deslash_core_slashdup,
    length_slashdup]
  congr 1
  have hsub : s.length + escCount s - escCount s = s.length := by omega
  rw [hsub, show s.length = (List.map normChar s).length by simp,
    List.take_length]

/-- C2 (witness): the amended round-trip evaluated at a concrete string
containing a quote, a backslash and a newline. -/
theorem C2_witness :
    (("a\"b\\c\nd").toList ≠ [] ∧
      (slashdup (("a\"b\\c\nd").toList)).length < 65536) ∧
    deslashndup (slashdup (("a\"b\\c\nd").toList))
        (slashdup (("a\"b\\c\nd").toList)).length
      = some (List.map normChar (("a\"b\\c\nd").toList)) :=
  ⟨⟨by decide, by decide⟩, C2_escape_unescape_roundtrip _ (by decide) (by decide)⟩

lemma getCh_append_right (a b : List Char) (j : Nat) :
    getCh (a ++ b) (a.length + j) = getCh b j := by
  simp only [getCh]
  rw [List.getD_append_right a b nulChar (a.length + j) (Nat.le_add_right _ _)]
  congr 1
  omega

lemma getCh_append_left (a b : List Char) (j : Nat) (h : j < a.length) :
    getCh (a ++ b) j = getCh a j := by
  simp only [getCh]
  rw [List.getD_append a b nulChar j h]

lemma findIdx_take_append (xs tail : List Char) (m : Nat)
    (hno : ∀ c ∈ xs, c ≠ '=') (hm : xs.length < m) :
    (((xs ++ '=' :: tail).take m).findIdx? (fun c => c = '=')) = some xs.length := by
  have hnone : xs.findIdx? (fun c => c = '=') = none := by
    rw [List.findIdx?_eq_none_iff]
    intro x hx
    simp [hno x hx]
  simp [List.findIdx?_cons, hnone, hm]

lemma findEq_key (k tail : List Char) (len : Nat) (hk : k ≠ [])
    (hno : ∀ c ∈ k, c ≠ '=') (hlen : k.length < len) :
    findEq (k ++ '=' :: tail) len = k.length := by
  unfold findEq
  match k, hk with
  | c :: cs, _ =>
    have hd : (c :: cs ++ '=' :: tail).drop 1 = cs ++ '=' :: tail := by simp
    rw [hd, findIdx_take_append cs tail (len - 1)
      (fun d hd => hno d (List.mem_cons_of_mem c hd))
      (by simp only [List.length_cons] at hlen; omega)]
    simp only [List.length_cons]


lemma process_tag_quoted (st : LineState) (k e rest : List Char)
    (hk : k ≠ []) (hkeq : ∀ c ∈ k, c ≠ '=')
    (he : e ≠ []) (he0 : getCh e 0 ≠ '"') :
    gpspoint_process_tag st (k ++ '=' :: '"' :: (e ++ '"' :: rest))
        (k.length + 3 + e.length)
      = gpspoint_process_key_and_value st
          (k ++ '=' :: '"' :: (e ++ '"' :: rest)) k.length
          (some (e ++ '"' :: rest)) e.length := by
  have hke : findEq (k ++ '=' :: '"' :: (e ++ '"' :: rest))
      (k.length + 3 + e.length) = k.length :=
    findEq_key k _ _ hk hkeq (by omega)
  have h1 : getCh (k ++ '=' :: '"' :: (e ++ '"' :: rest)) (k.length + 1) = '"' :=
    getCh_append_right k ('=' :: '"' :: (e ++ '"' :: rest)) 1
  have h2 : getCh (k ++ '=' :: '"' :: (e ++ '"' :: rest)) (k.length + 2)
      = getCh e 0 := by
    rw [getCh_append_right k ('=' :: '"' :: (e ++ '"' :: rest)) 2]
    show getCh (e ++ '"' :: rest) 0 = getCh e 0
    match e, he with
    | c :: e', _ => rfl
  have h3 : getCh (k ++ '=' :: '"' :: (e ++ '"' :: rest))
      (k.length + 3 + e.length - 1) = '"' := by
    have e1 : k.length + 3 + e.length - 1 = k.length + (e.length + 2) := by omega
    rw [e1, getCh_append_right k ('=' :: '"' :: (e ++ '"' :: rest)) (e.length + 2)]
    show getCh (e ++ '"' :: rest) e.length = '"'
    have := getCh_append_right e ('"' :: rest) 0
    simpa using this
  have hdrop : (k ++ '=' :: '"' :: (e ++ '"' :: rest)).drop (k.length + 2)
      = e ++ '"' :: rest := by
    rw [List.drop_append_eq_append_drop]
    simp
  simp only [gpspoint_process_tag, hke]
  rw [if_neg (by omega), if_neg (by omega), if_pos h1]
  rw [h2, if_neg he0, if_pos h3, if_neg (by push_cast; omega)]
  rw [hdrop]
  congr 1
  omega

lemma process_tag_empty_quoted (st : LineState) (k rest : List Char)
    (hk : k ≠ []) (hkeq : ∀ c ∈ k, c ≠ '=') :
    gpspoint_process_tag st (k ++ '=' :: '"' :: '"' :: rest) (k.length + 3)
      = gpspoint_process_key_and_value st (k ++ '=' :: '"' :: '"' :: rest)
          k.length none 0 := by
  have hke : findEq (k ++ '=' :: '"' :: '"' :: rest) (k.length + 3) = k.length :=
    findEq_key k _ _ hk hkeq (by omega)
  have h1 : getCh (k ++ '=' :: '"' :: '"' :: rest) (k.length + 1) = '"' :=
    getCh_append_right k ('=' :: '"' :: '"' :: rest) 1
  have h2 : getCh (k ++ '=' :: '"' :: '"' :: rest) (k.length + 2) = '"' :=
    getCh_append_right k ('=' :: '"' :: '"' :: rest) 2
  simp only [gpspoint_process_tag, hke]
  rw [if_neg (by omega), if_neg (by omega), if_pos h1, if_pos h2]

lemma process_tag_unquoted (st : LineState) (k w rest : List Char)
    (hk : k ≠ []) (hkeq : ∀ c ∈ k, c ≠ '=')
    (hw : getCh (w ++ rest) 0 ≠ '"') :
    gpspoint_process_tag st (k ++ '=' :: (w ++ rest)) (k.length + 1 + w.length)
      = gpspoint_process_key_and_value st (k ++ '=' :: (w ++ rest)) k.length
          (some (w ++ rest)) w.length := by
  have hke : findEq (k ++ '=' :: (w ++ rest)) (k.length + 1 + w.length) = k.length :=
    findEq_key k _ _ hk hkeq (by omega)
  have h1 : getCh (k ++ '=' :: (w ++ rest)) (k.length + 1) = getCh (w ++ rest) 0 := by
    rw [getCh_append_right k ('=' :: (w ++ rest)) 1]
    rfl
  have hdrop : (k ++ '=' :: (w ++ rest)).drop (k.length + 1) = w ++ rest := by
    rw [List.drop_append_eq_append_drop]
    simp
  simp only [gpspoint_process_tag, hke]
  rw [if_neg (by omega), if_neg (by omega), if_neg (by rw [h1]; exact hw)]
  rw [if_neg (by push_cast; omega)]
  rw [hdrop]
  congr 1
  omega

lemma pkv_null_value (st : LineState) (key : List Char) (klen : Nat) (vl : Nat) :
    gpspoint_process_key_and_value st key klen none vl
      = if keyIs key klen (("type").toList) then
          { st with line_type := GPSPOINT_TYPE_NONE }
        else st := by
  unfold gpspoint_process_key_and_value
  simp

/-- C5 (counterexample): a token with a quoted empty value, `name=""`, does
not produce an explicit-empty value distinct from absence: the dispatcher
state afterwards is identical to the state with no token processed at all
(`line_name` is still NULL). -/
theorem C5_counterexample :
    gpspoint_process_tag initialLineState (("name=\"\"").toList) 7
      = initialLineState := by
  with_unfolding_all decide

/-- C5 (amended): for every token `key=""`, the tag parser passes the NULL
value (size 0) to the dispatcher, so the field is treated exactly as not
present; the only key that reacts to a NULL value is `type`, which resets
the line type to NONE. -/
theorem C5_empty_quoted_value_is_null (st : LineState) (k rest : List Char)
    (hk : k ≠ []) (hkeq : ∀ c ∈ k, c ≠ '=') :
    gpspoint_process_tag st (k ++ '=' :: '"' :: '"' :: rest) (k.length + 3)
      = if keyIs (k ++ '=' :: '"' :: '"' :: rest) k.length (("type").toList) then
          { st with line_type := GPSPOINT_TYPE_NONE }
        else st := by
  rw [process_tag_empty_quoted st k rest hk hkeq, pkv_null_value]

/-- C5 (witness): the amended statement evaluated at the concrete token
`name=""` on the pristine line state. -/
theorem C5_witness :
    ((("name").toList ≠ [] ∧ ∀ c ∈ (("name").toList), c ≠ '=') ∧
     gpspoint_process_tag initialLineState
        ((("name").toList) ++ '=' :: '"' :: '"' :: []) ((("name").toList).length + 3)
      = if keyIs ((("name").toList) ++ '=' :: '"' :: '"' :: [])
            (("name").toList).length (("type").toList) then
          { initialLineState with line_type := GPSPOINT_TYPE_NONE }
        else initialLineState) :=
  ⟨⟨by decide, by decide⟩,
    C5_empty_quoted_value_is_null initialLineState (("name").toList) []
      (by decide) (by decide)⟩

lemma empty_unquoted_visible (st : LineState) (rest : List Char)
    (hr : rest = [] ∨ getCh rest 0 = ' ') :
    gpspoint_process_tag st (("visible").toList ++ '=' :: rest)
        (("visible").toList.length + 1)
      = { st with line_visible := false } := by
  have h0 : getCh ([] ++ rest) 0 ≠ '"' := by
    rcases hr with h | h
    · subst h; decide
    · simp only [List.nil_append, h]; decide
  have hstep := process_tag_unquoted st (("visible").toList) [] rest
    (by decide) (by decide) h0
  simp only [List.nil_append, List.length_nil, Nat.add_zero] at hstep
  rw [hstep]
  unfold gpspoint_process_key_and_value
  rcases hr with h | h
  · subst h
    simp +decide [keyIs, List.take_left]
  · simp +decide [keyIs, List.take_left, h]

lemma empty_unquoted_comment (st : LineState) (rest : List Char)
    (hr : getCh rest 0 ≠ '"') :
    gpspoint_process_tag st (("comment").toList ++ '=' :: rest)
        (("comment").toList.length + 1)
      = st := by
  have h0 : getCh ([] ++ rest) 0 ≠ '"' := by simpa using hr
  have hstep := process_tag_unquoted st (("comment").toList) [] rest
    (by decide) (by decide) h0
  simp only [List.nil_append, List.length_nil, Nat.add_zero] at hstep
  rw [hstep]
  unfold gpspoint_process_key_and_value
  simp +decide [keyIs, List.take_left, deslashndup]
  intro h
  rw [← h]

lemma empty_unquoted_latitude (st : LineState) (rest : List Char)
    (hr : getCh rest 0 ≠ '"') :
    gpspoint_process_tag st (("latitude").toList ++ '=' :: rest)
        (("latitude").toList.length + 1)
      = { st with line_latlon := ⟨g_ascii_strtod rest, st.line_latlon.lon⟩ } := by
  have h0 : getCh ([] ++ rest) 0 ≠ '"' := by simpa using hr
  have hstep := process_tag_unquoted st (("latitude").toList) [] rest
    (by decide) (by decide) h0
  simp only [List.nil_append, List.length_nil, Nat.add_zero] at hstep
  rw [hstep]
  unfold gpspoint_process_key_and_value
  simp +decide [keyIs, List.take_left]

/-- C6 (counterexample): the token `visible=` (a key with `=` and nothing
after it) is NOT discarded with the state unchanged: it sets the
visibility flag to false. -/
theorem C6_counterexample :
    gpspoint_process_tag initialLineState (("visible=").toList) 8
      ≠ initialLineState := by
  with_unfolding_all decide

/-- C6 (amended): a token `key=` with nothing after it passes a non-NULL
zero-length value to the dispatcher rather than being discarded: a
string-valued key such as `comment` stores nothing and leaves the state
unchanged, but `visible=` sets the visibility flag false, and a numeric
key such as `latitude` parses whatever text follows the token in the
buffer; the rest of the line continues to be processed either way. -/
theorem C6_empty_unquoted_value (st : LineState) (rest : List Char)
    (hsep : rest = [] ∨ getCh rest 0 = ' ') :
    gpspoint_process_tag st (("comment").toList ++ '=' :: rest)
        (("comment").toList.length + 1) = st ∧
    gpspoint_process_tag st (("visible").toList ++ '=' :: rest)
        (("visible").toList.length + 1)
      = { st with line_visible := false } ∧
    gpspoint_process_tag st (("latitude").toList ++ '=' :: rest)
        (("latitude").toList.length + 1)
      = { st with line_latlon := ⟨g_ascii_strtod rest, st.line_latlon.lon⟩ } := by
  have hq : getCh rest 0 ≠ '"' := by
    rcases hsep with h | h
    · subst h; decide
    · rw [h]; decide
  exact ⟨empty_unquoted_comment st rest hq,
    empty_unquoted_visible st rest hsep,
    empty_unquoted_latitude st rest hq⟩

/-- C6 (witness): the amended statement evaluated with nothing following
the token, on the pristine line state. -/
theorem C6_witness :
    (([] : List Char) = [] ∨ getCh ([] : List Char) 0 = ' ') ∧
    (gpspoint_process_tag initialLineState (("comment").toList ++ '=' :: [])
        (("comment").toList.length + 1) = initialLineState ∧
     gpspoint_process_tag initialLineState (("visible").toList ++ '=' :: [])
        (("visible").toList.length + 1)
      = { initialLineState with line_visible := false } ∧
     gpspoint_process_tag initialLineState (("latitude").toList ++ '=' :: [])
        (("latitude").toList.length + 1)
      = { initialLineState with
          line_latlon := ⟨g_ascii_strtod [], initialLineState.line_latlon.lon⟩ }) :=
  ⟨Or.inl rfl, C6_empty_unquoted_value initialLineState [] (Or.inl rfl)⟩

/-- C7: a waypoint, track or route line without a name, and a point line
with no open track/route, produce nothing at all: the record assembler
leaves the whole read state unchanged (no entity, no point, no error
signal) and parsing continues with the next line. -/
theorem C7_nameless_or_orphan_dropped (dp : Option (List Char)) (s : ReadState)
    (h : ((s.ls.line_type = GPSPOINT_TYPE_WAYPOINT ∨
           s.ls.line_type = GPSPOINT_TYPE_TRACK ∨
           s.ls.line_type = GPSPOINT_TYPE_ROUTE) ∧ s.ls.line_name = none) ∨
         ((s.ls.line_type = GPSPOINT_TYPE_TRACKPOINT ∨
           s.ls.line_type = GPSPOINT_TYPE_ROUTEPOINT) ∧ s.current = none)) :
    gpspoint_commit_line dp s = s := by
  unfold gpspoint_commit_line
  rcases h with ⟨hty, hname⟩ | ⟨hty, hcur⟩
  · rcases hty with hty | hty | hty <;>
      simp [hty, hname, GPSPOINT_TYPE_WAYPOINT, GPSPOINT_TYPE_TRACK,
        GPSPOINT_TYPE_ROUTE, GPSPOINT_TYPE_TRACK_END, GPSPOINT_TYPE_ROUTE_END,
        GPSPOINT_TYPE_TRACKPOINT, GPSPOINT_TYPE_ROUTEPOINT]
  · rcases hty with hty | hty <;>
      simp [hty, hcur, GPSPOINT_TYPE_WAYPOINT, GPSPOINT_TYPE_TRACK,
        GPSPOINT_TYPE_ROUTE, GPSPOINT_TYPE_TRACK_END, GPSPOINT_TYPE_ROUTE_END,
        GPSPOINT_TYPE_TRACKPOINT, GPSPOINT_TYPE_ROUTEPOINT]

/-- C7 (witness): a nameless waypoint line and an orphan trackpoint line on
concrete states. -/
theorem C7_witness :
    (((GPSPOINT_TYPE_WAYPOINT = GPSPOINT_TYPE_WAYPOINT ∨
       GPSPOINT_TYPE_WAYPOINT = GPSPOINT_TYPE_TRACK ∨
       GPSPOINT_TYPE_WAYPOINT = GPSPOINT_TYPE_ROUTE) ∧
      ({ initialLineState with line_type := GPSPOINT_TYPE_WAYPOINT }).line_name
        = none) ∧
     gpspoint_commit_line none
        ⟨{ initialLineState with line_type := GPSPOINT_TYPE_WAYPOINT },
          ⟨[], [], []⟩, none, false⟩
      = ⟨{ initialLineState with line_type := GPSPOINT_TYPE_WAYPOINT },
          ⟨[], [], []⟩, none, false⟩) :=
  ⟨⟨Or.inl rfl, rfl⟩,
    C7_nameless_or_orphan_dropped none _ (Or.inl ⟨Or.inl rfl, rfl⟩)⟩

/-- C9: within one line, the string keys name, comment, description,
source, xtype, color and image keep the value of the first occurrence (a
later occurrence dispatched while the field is already set is ignored),
whereas url, url_name, symbol and every numeric key overwrite
unconditionally, so their last occurrence wins.  Stated on the dispatcher:
a second occurrence on the same line runs on a state whose field is
already set. -/
theorem C9_first_occurrence_keys_vs_last (st : LineState) (v : List Char)
    (vl : Nat) (xn xc xd xs xx xcol xi : List Char)
    (hn : st.line_name = some xn) (hc : st.line_comment = some xc)
    (hd : st.line_description = some xd) (hs : st.line_source = some xs)
    (hx : st.line_xtype = some xx) (hcol : st.line_color = some xcol)
    (hi : st.line_image = some xi) :
    ((gpspoint_process_key_and_value st (("name=").toList) 4
        (some v) vl).line_name = some xn ∧
     (gpspoint_process_key_and_value st (("comment=").toList) 7
        (some v) vl).line_comment = some xc ∧
     (gpspoint_process_key_and_value st (("description=").toList) 11
        (some v) vl).line_description = some xd ∧
     (gpspoint_process_key_and_value st (("source=").toList) 6
        (some v) vl).line_source = some xs ∧
     (gpspoint_process_key_and_value st (("xtype=").toList) 5
        (some v) vl).line_xtype = some xx ∧
     (gpspoint_process_key_and_value st (("color=").toList) 5
        (some v) vl).line_color = some xcol ∧
     (gpspoint_process_key_and_value st (("image=").toList) 5
        (some v) vl).line_image = some xi) ∧
    ((gpspoint_process_key_and_value st (("url=").toList) 3
        (some v) vl).line_url = deslashndup v vl ∧
     (gpspoint_process_key_and_value st (("url_name=").toList) 8
        (some v) vl).line_url_name = deslashndup v vl ∧
     (gpspoint_process_key_and_value st (("symbol=").toList) 6
        (some v) vl).line_symbol = some (v.take vl)) ∧
    ((gpspoint_process_key_and_value st (("latitude=").toList) 8
        (some v) vl).line_latlon.lat = g_ascii_strtod v ∧
     (gpspoint_process_key_and_value st (("longitude=").toList) 9
        (some v) vl).line_latlon.lon = g_ascii_strtod v ∧
     (gpspoint_process_key_and_value st (("unixtime=").toList) 8
        (some v) vl).line_timestamp = some (g_ascii_strtod v) ∧
     (gpspoint_process_key_and_value st (("altitude=").toList) 8
        (some v) vl).line_altitude = some (g_ascii_strtod v) ∧
     (gpspoint_process_key_and_value st (("number=").toList) 6
        (some v) vl).line_number = intToGuint (c_atoi v) ∧
     (gpspoint_process_key_and_value st (("draw_name_mode=").toList) 14
        (some v) vl).line_name_label = c_atoi v ∧
     (gpspoint_process_key_and_value st (("number_dist_labels=").toList) 18
        (some v) vl).line_dist_label = c_atoi v ∧
     (gpspoint_process_key_and_value st (("image_direction=").toList) 15
        (some v) vl).line_image_direction = some (g_ascii_strtod v) ∧
     (gpspoint_process_key_and_value st (("image_direction_ref=").toList) 19
        (some v) vl).line_image_direction_ref = c_atoi v ∧
     (gpspoint_process_key_and_value st (("speed=").toList) 5
        (some v) vl).line_speed = some (g_ascii_strtod v) ∧
     (gpspoint_process_key_and_value st (("course=").toList) 6
        (some v) vl).line_course = some (g_ascii_strtod v) ∧
     (gpspoint_process_key_and_value st (("sat=").toList) 3
        (some v) vl).line_sat = intToGuint (c_atoi v) ∧
     (gpspoint_process_key_and_value st (("fix=").toList) 3
        (some v) vl).line_fix = intToGuint (c_atoi v) ∧
     (gpspoint_process_key_and_value st (("hdop=").toList) 4
        (some v) vl).line_hdop = some (g_ascii_strtod v) ∧
     (gpspoint_process_key_and_value st (("vdop=").toList) 4
        (some v) vl).line_vdop = some (g_ascii_strtod v) ∧
     (gpspoint_process_key_and_value st (("pdop=").toList) 4
        (some v) vl).line_pdop = some (g_ascii_strtod v) ∧
     (gpspoint_process_key_and_value st (("magvar=").toList) 6
        (some v) vl).line_magvar = some (g_ascii_strtod v) ∧
     (gpspoint_process_key_and_value st (("geoidheight=").toList) 11
        (some v) vl).line_geoidheight = some (g_ascii_strtod v) ∧
     (gpspoint_process_key_and_value st (("ageofdgpsdata=").toList) 13
        (some v) vl).line_ageofdgpsdata = some (g_ascii_strtod v) ∧
     (gpspoint_process_key_and_value st (("dgpsid=").toList) 6
        (some v) vl).line_dgpsid = intToGuint (c_atoi v)) := by
  refine ⟨⟨?_, ?_, ?_, ?_, ?_, ?_, ?_⟩, ⟨?_, ?_, ?_⟩,
    ⟨?_, ?_, ?_, ?_, ?_, ?_, ?_, ?_, ?_, ?_, ?_, ?_, ?_, ?_, ?_, ?_, ?_, ?_,
     ?_, ?_⟩⟩
  all_goals unfold gpspoint_process_key_and_value
  all_goals simp +decide [*]

/-- C9 (witness): the dispatcher keeps the stored name and overwrites the
stored url, on a concrete state with every guarded field set. -/
theorem C9_witness :
    (C9exampleState.line_name = some ['a'] ∧
     C9exampleState.line_comment = some ['a'] ∧
     C9exampleState.line_description = some ['a'] ∧
     C9exampleState.line_source = some ['a'] ∧
     C9exampleState.line_xtype = some ['a'] ∧
     C9exampleState.line_color = some ['a'] ∧
     C9exampleState.line_image = some ['a']) ∧
    ((gpspoint_process_key_and_value C9exampleState (("name=").toList) 4
        (some ['b']) 1).line_name = some ['a'] ∧
     (gpspoint_process_key_and_value C9exampleState (("url=").toList) 3
        (some ['b']) 1).line_url = deslashndup ['b'] 1) :=
  ⟨⟨rfl, rfl, rfl, rfl, rfl, rfl, rfl⟩,
   ⟨(C9_first_occurrence_keys_vs_last C9exampleState ['b'] 1 _ _ _ _ _ _ _
      rfl rfl rfl rfl rfl rfl rfl).1.1,
    (C9_first_occurrence_keys_vs_last C9exampleState ['b'] 1 _ _ _ _ _ _ _
      rfl rfl rfl rfl rfl rfl rfl).2.1.1⟩⟩

/-- C10: a `newsegment` or `extended` key with any non-NULL value sets its
flag to true regardless of the value's content (in particular
`newsegment="no"` and `extended="0"`), and a NULL value (the parse of
`key=""`) leaves the state untouched, so the flags remain false only when
the key is absent or its value parses as absent. -/
theorem C10_newsegment_extended_flags (st : LineState) (v : List Char)
    (vl : Nat) :
    ((gpspoint_process_key_and_value st (("newsegment=").toList) 10
        (some v) vl).line_newsegment = true ∧
     (gpspoint_process_key_and_value st (("extended=").toList) 8
        (some v) vl).line_extended = true) ∧
    (gpspoint_process_key_and_value st (("newsegment=").toList) 10
        none vl = st ∧
     gpspoint_process_key_and_value st (("extended=").toList) 8
        none vl = st) := by
  refine ⟨⟨?_, ?_⟩, ?_, ?_⟩
  · unfold gpspoint_process_key_and_value
    simp +decide
  · unfold gpspoint_process_key_and_value
    simp +decide
  · rw [pkv_null_value]
    simp +decide
  · rw [pkv_null_value]
    simp +decide

lemma trackpoints_end_ls (s : ReadState) : (trackpoints_end s).ls = s.ls := by
  unfold trackpoints_end
  repeat' split
  all_goals rfl

lemma trackpoints_end_hrs (s : ReadState) :
    (trackpoints_end s).have_read_something = s.have_read_something := by
  unfold trackpoints_end
  repeat' split
  all_goals rfl

lemma trackpoints_end_closes (s : ReadState) (b : Bool) (t : VikTrack)
    (hcur : s.current = some b)
    (hlast : (if b then s.trw.routes else s.trw.tracks).getLast? = some t)
    (hne : t.trackpoints ≠ []) :
    trackpoints_end s
      = { s with
          trw :=
            if b then
              { s.trw with routes := (updateLastTrack s.trw.routes (fun tr =>
                  { tr with trackpoints := tr.trackpoints.reverse })) }
            else
              { s.trw with tracks := (updateLastTrack s.trw.tracks (fun tr =>
                  { tr with trackpoints := tr.trackpoints.reverse })) }
          current := none } := by
  unfold trackpoints_end
  rw [hcur]
  simp only [hlast]
  rw [if_neg hne]

/-- C4 (counterexample): a TRACK_END line processed while the open track
has an EMPTY point list does not clear the current-entity pointer, and a
trackpoint on a later line (with no new track start) IS appended to the
supposedly closed track. -/
theorem C4_counterexample :
    (gpspoint_read_loop none ⟨initialLineState, ⟨[], [], []⟩, none, false⟩
        [(("type=\"track\" name=\"T\"").toList),
         (("type=\"trackend\"").toList)]).current ≠ none ∧
    ((a_gpspoint_read_file initialLineState none
        (("type=\"track\" name=\"T\"\ntype=\"trackend\"\ntype=\"trackpoint\" latitude=\"1\" longitude=\"2\"\n").toList)).trw.tracks.map
      (fun t => t.trackpoints.length)) = [1] := by
  with_unfolding_all decide

/-- C4 (amended): a TRACK_END or ROUTE_END line processed while the open
track/route has a NON-EMPTY accumulated point list reverses that list into
file order and clears the current-entity pointer (when the list is empty
the pointer is not cleared, which is what the counterexample exhibits). -/
theorem C4_end_closes_nonempty_track (dp : Option (List Char)) (s : ReadState)
    (b : Bool) (t : VikTrack)
    (hty : s.ls.line_type = GPSPOINT_TYPE_TRACK_END ∨
           s.ls.line_type = GPSPOINT_TYPE_ROUTE_END)
    (hcur : s.current = some b)
    (hlast : (if b then s.trw.routes else s.trw.tracks).getLast? = some t)
    (hne : t.trackpoints ≠ []) :
    gpspoint_commit_line dp s
      = { s with
          trw :=
            if b then
              { s.trw with routes := (updateLastTrack s.trw.routes (fun tr =>
                  { tr with trackpoints := tr.trackpoints.reverse })) }
            else
              { s.trw with tracks := (updateLastTrack s.trw.tracks (fun tr =>
                  { tr with trackpoints := tr.trackpoints.reverse })) }
          current := none } := by
  have hend : gpspoint_commit_line dp s = trackpoints_end s := by
    unfold gpspoint_commit_line
    have hls := trackpoints_end_ls s
    rcases hty with h | h <;>
      simp [h, hls, GPSPOINT_TYPE_WAYPOINT, GPSPOINT_TYPE_TRACK,
        GPSPOINT_TYPE_ROUTE, GPSPOINT_TYPE_TRACK_END, GPSPOINT_TYPE_ROUTE_END,
        GPSPOINT_TYPE_TRACKPOINT, GPSPOINT_TYPE_ROUTEPOINT]
  rw [hend]
  exact trackpoints_end_closes s b t hcur hlast hne

/-- C4 (witness): the amended statement on a concrete state holding an
open track with one point. -/
theorem C4_witness :
    ((({ initialLineState with line_type := GPSPOINT_TYPE_TRACK_END } : LineState).line_type
        = GPSPOINT_TYPE_TRACK_END ∨
      ({ initialLineState with line_type := GPSPOINT_TYPE_TRACK_END } : LineState).line_type
        = GPSPOINT_TYPE_ROUTE_END) ∧
     ([{ vik_track_new with trackpoints := [vik_trackpoint_new] }].getLast?
        = some { vik_track_new with trackpoints := [vik_trackpoint_new] }) ∧
     ({ vik_track_new with trackpoints := [vik_trackpoint_new] }).trackpoints ≠ []) ∧
    gpspoint_commit_line none
        ⟨{ initialLineState with line_type := GPSPOINT_TYPE_TRACK_END },
         ⟨[], [{ vik_track_new with trackpoints := [vik_trackpoint_new] }], []⟩,
         some false, true⟩
      = ⟨{ initialLineState with line_type := GPSPOINT_TYPE_TRACK_END },
         ⟨[], [{ vik_track_new with trackpoints := [vik_trackpoint_new] }], []⟩,
         none, true⟩ := by
  refine ⟨⟨Or.inl rfl, by decide, by decide⟩, ?_⟩
  have h := C4_end_closes_nonempty_track none
    ⟨{ initialLineState with line_type := GPSPOINT_TYPE_TRACK_END },
     ⟨[], [{ vik_track_new with trackpoints := [vik_trackpoint_new] }], []⟩,
     some false, true⟩
    false { vik_track_new with trackpoints := [vik_trackpoint_new] }
    (Or.inl rfl) rfl (by decide) (by decide)
  rw [h]
  with_unfolding_all decide

/-- C3 (counterexample): after processing a line that set a latitude and a
longitude, the latitude/longitude pair is NOT back at its absence value:
the source's per-line reset block omits `line_latlon`, so it leaks into
later lines. -/
theorem C3_counterexample :
    (gpspoint_line_step none ⟨initialLineState, ⟨[], [], []⟩, none, false⟩
        (("type=\"trackpoint\" latitude=\"7\" longitude=\"8\"").toList)).ls.line_latlon
      ≠ initialLineState.line_latlon := by
  with_unfolding_all decide

lemma resetAfterLine_eq (ls : LineState) :
    resetAfterLine ls
      = { initialLineState with line_latlon := ls.line_latlon } := rfl

/-- C3 (amended): after the read loop finishes any input line, every
transient per-line field is back at its absence sentinel EXCEPT the
latitude/longitude pair, which keeps the values parsed most recently and
can therefore influence a later line that lacks its own
latitude/longitude tokens. -/
theorem C3_reset_all_but_latlon (dp : Option (List Char)) (s : ReadState)
    (line : List Char) :
    (gpspoint_line_step dp s line).ls
      = { initialLineState with
          line_latlon := (gpspoint_line_step dp s line).ls.line_latlon } := by
  simp only [gpspoint_line_step]
  exact resetAfterLine_eq _

/-- C8 (counterexample): a trackpoint whose hdop is present (not NAN) but
whose speed and course are NAN and satellite count zero is written WITHOUT
its hdop field: the extended block is gated on speed/course/sat only, so a
present field is dropped. -/
theorem C8_counterexample :
    containsSeq (("hdop").toList)
        (a_gpspoint_write_trackpoint false C8exampleTp) = false ∧
    C8exampleTp.hdop ≠ none := by
  with_unfolding_all decide

/-- C8 (amended): each writer combinator emits nothing exactly at its
absence sentinel (NAN double, zero count, NULL or empty string, true
visibility) and emits the field otherwise — including an explicit zero for
a non-count numeric field; EXCEPT that a trackpoint's extended fields
(speed, course, sat, fix, hdop, vdop, pdop) are emitted only when speed or
course is present or the satellite count is positive, and a waypoint's
image and symbol blocks are emitted whenever the pointer is non-NULL, even
for an empty string. -/
theorem C8_sentinel_omission (tag : List Char) (v : Option ℚ) (n : Nat)
    (sv : Option (List Char)) (tp : VikTrackpoint) (wp : VikWaypoint)
    (dp : Option (List Char)) (rr : Bool) :
    (write_double tag v = [] ↔ v = none) ∧
    (write_positive_uint tag n = [] ↔ n = 0) ∧
    (write_string tag sv = [] ↔ sv = none ∨ sv = some []) ∧
    (write_tp_extended tp = [] ↔
      tp.speed = none ∧ tp.course = none ∧ tp.nsats = 0) ∧
    (write_wp_image dp rr wp = [] ↔ wp.image = none) ∧
    (write_wp_image_direction wp = [] ↔ wp.image_direction = none) ∧
    (write_wp_symbol wp = [] ↔ wp.symbol = none) ∧
    ((if wp.visible then [] else ((" visible=\"n\"").toList)) = [] ↔
      wp.visible = true) := by
  refine ⟨?_, ?_, ?_, ?_, ?_, ?_, ?_, ?_⟩
  · cases v <;> simp [write_double]
  · rcases Nat.eq_zero_or_pos n with h | h
    · simp [write_positive_uint, h]
    · simp [write_positive_uint, Nat.pos_iff_ne_zero.mp h]
  · rcases sv with _ | s
    · simp [write_string]
    · rcases s with _ | ⟨c, s'⟩ <;> simp [write_string]
  · unfold write_tp_extended
    by_cases h : tp.speed = none ∧ tp.course = none ∧ tp.nsats = 0
    · rw [if_neg]
      · simp [h]
      · simp [h.1, h.2.1, h.2.2]
    · rw [if_pos]
      · constructor
        · intro hc
          exact absurd hc (by simp +decide)
        · intro hc
          exact absurd hc h
      · by_contra hnc
        push_neg at hnc
        exact h ⟨hnc.1, hnc.2.1, by omega⟩
  · rcases h : wp.image with _ | im <;> simp [write_wp_image, h]
  · rcases h : wp.image_direction with _ | d <;> simp [write_wp_image_direction, h]
  · rcases h : wp.symbol with _ | sy <;> simp [write_wp_symbol, h]
  · cases h : wp.visible <;> simp [h]

lemma chopLinesF_fuel (f1 : Nat) : ∀ (f2 : Nat) (s : List Char),
    s.length < f1 → s.length < f2 → chopLinesF f1 s = chopLinesF f2 s := by
  induction f1 with
  | zero => intro f2 s h1 _; omega
  | succ f1 ih =>
    intro f2 s h1 h2
    match f2, h2 with
    | f2 + 1, h2 =>
      show chopLinesF (f1 + 1) s = chopLinesF (f2 + 1) s
      unfold chopLinesF
      by_cases hs : s = []
      · simp [hs]
      · simp only [if_neg hs]
        by_cases hp : (s.takeWhile (fun c => c ≠ '\n')).length = s.length
        · simp only [if_pos hp]
        · simp only [if_neg hp]
          have hple : (s.takeWhile (fun c => c ≠ '\n')).length ≤ s.length :=
            (List.takeWhile_prefix _).sublist.length_le
          have hpos : 0 < s.length := List.length_pos.mpr hs
          have hlen := List.length_drop ((s.takeWhile (fun c => c ≠ '\n')).length + 1) s
          rw [ih f2 _ (by omega) (by omega)]

lemma takeWhile_no_nl (body rest : List Char) (hb : ∀ c ∈ body, c ≠ '\n') :
    (body ++ '\n' :: rest).takeWhile (fun c => c ≠ '\n') = body := by
  induction body with
  | nil => simp
  | cons c cs ih =>
    have hc := hb c (List.mem_cons_self c cs)
    have ih2 := ih (fun d hd => hb d (List.mem_cons_of_mem c hd))
    simp only [List.cons_append, List.takeWhile_cons]
    simp [hc]
    simp only [ne_eq] at ih2 ⊢
    simpa using ih2

lemma chopLines_cons_line (body rest : List Char) (hb : ∀ c ∈ body, c ≠ '\n') :
    chopLines (body ++ '\n' :: rest) = body :: chopLines rest := by
  unfold chopLines
  have hne : body ++ '\n' :: rest ≠ [] := by simp
  have hlen : (body ++ '\n' :: rest).length = body.length + 1 + rest.length := by
    simp; omega
  unfold chopLinesF
  simp only [if_neg hne]
  rw [takeWhile_no_nl body rest hb]
  have hneq : ¬ (body.length = (body ++ '\n' :: rest).length) := by
    rw [hlen]; omega
  rw [if_neg hneq]
  have hdrop : (body ++ '\n' :: rest).drop (body.length + 1) = rest := by
    rw [List.drop_append_eq_append_drop]
    simp
  rw [hdrop]
  congr 1
  exact chopLinesF_fuel ((body ++ '\n' :: rest).length) (rest.length + 1) rest
    (by rw [hlen]; omega) (by omega)

lemma processTagsF_fuel (f1 : Nat) : ∀ (f2 : Nat) (st : LineState) (s : List Char)
    (iq bs : Bool), s.length < f1 → s.length < f2 →
    processTagsF f1 st s iq bs = processTagsF f2 st s iq bs := by
  induction f1 with
  | zero => intro f2 st s iq bs h1 _; omega
  | succ f1 ih =>
    intro f2 st s iq bs h1 h2
    match f2, h2 with
    | f2 + 1, h2 =>
      show processTagsF (f1 + 1) st s iq bs = processTagsF (f2 + 1) st s iq bs
      unfold processTagsF
      rcases hd : s.dropWhile (fun c => c_isspace c) with _ | ⟨c, cs⟩
      · rfl
      · have hle : (c :: cs).length ≤ s.length := by
          rw [← hd]
          exact (List.dropWhile_suffix _).sublist.length_le
        simp only []
        by_cases hc : c = '#'
        · simp [hc]
        · simp only [if_neg hc]
          by_cases hbreak :
              (scanToken (c :: cs) (if c = '"' then !iq else iq) bs).1
                = (c :: cs).length
          · simp only [if_pos hbreak]
          · simp only [if_neg hbreak]
            have hdl := List.length_drop
              ((scanToken (c :: cs) (if c = '"' then !iq else iq) bs).1 + 1) (c :: cs)
            have hcl : (c :: cs).length = cs.length + 1 := by simp
            exact ih f2 _ _ _ _ (by omega) (by omega)

lemma processTags_fuel_eq (f : Nat) (st : LineState) (s : List Char) (iq bs : Bool)
    (h : s.length < f) : processTagsF f st s iq bs = processTags st s iq bs :=
  processTagsF_fuel f (s.length + 1) st s iq bs h (by omega)

lemma space_not_digit {c : Char} (h : c_isspace c = true) : c_isdigit c = false := by
  unfold c_isspace at h
  simp only [Bool.or_eq_true, decide_eq_true_eq] at h
  rcases h with ((((h | h) | h) | h) | h) | h <;> subst h <;> decide

lemma scanDigitsAcc_run (ds : List Char) : ∀ (r : List Char) (v k : Nat),
    (∀ c ∈ ds, c_isdigit c = true) → c_isdigit (getCh r 0) = false →
    scanDigitsAcc (ds ++ r) v k
      = (ds.foldl (fun a c => a * 10 + digVal c) v, k + ds.length, r) := by
  induction ds with
  | nil =>
    intro r v k _ hr
    match r with
    | [] => rfl
    | c :: r' =>
      have : c_isdigit c = false := hr
      simp [scanDigitsAcc, this]
  | cons d ds ih =>
    intro r v k hds hr
    have hd : c_isdigit d = true := hds d (List.mem_cons_self d ds)
    have hstep : scanDigitsAcc (d :: (ds ++ r)) v k
        = scanDigitsAcc (ds ++ r) (v * 10 + digVal d) (k + 1) := by
      simp [scanDigitsAcc, hd]
    rw [List.cons_append, hstep,
      ih r _ _ (fun c hc => hds c (List.mem_cons_of_mem d hc)) hr]
    simp [List.foldl_cons]
    omega

lemma digitsF_eq (b : Nat) (hb : 1 < b) :
    ∀ (fuel n : Nat), n ≤ fuel → digitsF b fuel n = Nat.digits b n := by
  intro fuel
  induction fuel with
  | zero =>
    intro n hn
    have : n = 0 := by omega
    subst this
    simp [digitsF, Nat.digits_zero]
  | succ fuel ih =>
    intro n hn
    match n with
    | 0 => simp [digitsF, Nat.digits_zero]
    | m + 1 =>
      rw [digitsF, Nat.digits_def' hb (by omega)]
      rw [ih ((m + 1) / b) (by
        have := Nat.div_lt_self (by omega : 0 < m + 1) hb
        omega)]

lemma digitChar_isdigit : ∀ d < 10, c_isdigit (Nat.digitChar d) = true := by decide

lemma digVal_digitChar : ∀ d < 10, digVal (Nat.digitChar d) = d := by decide

lemma natToChars_digits (n : Nat) : ∀ c ∈ natToChars n, c_isdigit c = true := by
  unfold natToChars
  by_cases h : n = 0
  · intro c hc
    simp [h] at hc
    subst hc
    decide
  · simp only [if_neg h, digitsF_eq 10 (by norm_num) n n (le_refl n)]
    intro c hc
    rw [List.mem_reverse, List.mem_map] at hc
    obtain ⟨d, hd, rfl⟩ := hc
    exact digitChar_isdigit d (Nat.digits_lt_base (by norm_num) hd)

lemma foldl_digits_acc (l : List Nat) (hl : ∀ d ∈ l, d < 10) (v : Nat) :
    ((l.map Nat.digitChar).reverse.foldl (fun a c => a * 10 + digVal c) v)
      = v * 10 ^ l.length + Nat.ofDigits 10 l := by
  induction l generalizing v with
  | nil => simp
  | cons d l ih =>
    have hd : d < 10 := hl d (List.mem_cons_self d l)
    simp only [List.map_cons, List.reverse_cons, List.foldl_append, List.foldl_cons,
      List.foldl_nil]
    rw [ih (fun x hx => hl x (List.mem_cons_of_mem d hx)) v]
    rw [digVal_digitChar d hd]
    simp [Nat.ofDigits_cons, List.length_cons]
    ring

lemma digit_not_space {c : Char} (h : c_isdigit c = true) : c_isspace c = false := by
  cases hs : c_isspace c with
  | false => rfl
  | true => rw [space_not_digit hs] at h; cases h

lemma natToChars_ne_nil (n : Nat) : natToChars n ≠ [] := by
  unfold natToChars
  by_cases h : n = 0
  · simp [h]
  · simp only [if_neg h, digitsF_eq 10 (by norm_num) n n (le_refl n), ne_eq,
      List.reverse_eq_nil_iff, List.map_eq_nil_iff]
    exact Nat.digits_ne_nil_iff_ne_zero.mpr h

lemma natToChars_foldl0 (n : Nat) :
    (natToChars n).foldl (fun a c => a * 10 + digVal c) 0 = n := by
  unfold natToChars
  by_cases h : n = 0
  · subst h; decide
  · rw [if_neg h, digitsF_eq 10 (by norm_num) n n (le_refl n),
      foldl_digits_acc (Nat.digits 10 n) (fun d hd => Nat.digits_lt_base (by norm_num) hd) 0]
    simp [Nat.ofDigits_digits]

lemma natToChars_length_le (n w : Nat) (hw : 0 < w) (h : n < 10 ^ w) :
    (natToChars n).length ≤ w := by
  unfold natToChars
  by_cases h0 : n = 0
  · simpa [h0] using hw
  · rw [if_neg h0, digitsF_eq 10 (by norm_num) n n (le_refl n)]
    simp only [List.length_reverse, List.length_map]
    rw [Nat.digits_len 10 n (by norm_num) h0]
    have : Nat.log 10 n < w := Nat.log_lt_of_lt_pow h0 h
    omega

lemma zeros_foldl (k : Nat) :
    (List.replicate k '0').foldl (fun a c => a * 10 + digVal c) 0 = 0 := by
  induction k with
  | zero => rfl
  | succ k ih => simpa [List.replicate_succ] using ih

lemma padZeros_foldl (w : Nat) (d : List Char) :
    (padZeros w d).foldl (fun a c => a * 10 + digVal c) 0
      = d.foldl (fun a c => a * 10 + digVal c) 0 := by
  unfold padZeros
  rw [List.foldl_append, zeros_foldl]

lemma padZeros_digits (w : Nat) (d : List Char) (hd : ∀ c ∈ d, c_isdigit c = true) :
    ∀ c ∈ padZeros w d, c_isdigit c = true := by
  intro c hc
  unfold padZeros at hc
  rcases List.mem_append.mp hc with h | h
  · rw [List.eq_of_mem_replicate h]; decide
  · exact hd c h

lemma padZeros_length (w : Nat) (d : List Char) (hd : d.length ≤ w) :
    (padZeros w d).length = w := by
  unfold padZeros
  simp [List.length_append, List.length_replicate]
  omega

lemma intToGuint_ofNat (n : Nat) (h : n < 2 ^ 32) : intToGuint (n : Int) = n := by
  unfold intToGuint
  rw [Int.emod_eq_of_lt (by positivity) (by exact_mod_cast h)]
  simp

lemma scanDigits_natToChars (n : Nat) (r : List Char)
    (hr : c_isdigit (getCh r 0) = false) :
    scanDigitsAcc (natToChars n ++ r) 0 0 = (n, (natToChars n).length, r) := by
  rw [scanDigitsAcc_run (natToChars n) r 0 0 (natToChars_digits n) hr,
    natToChars_foldl0]
  simp

lemma scanDigits_padZeros (n w : Nat) (hw : (natToChars n).length ≤ w)
    (r : List Char) (hr : c_isdigit (getCh r 0) = false) :
    scanDigitsAcc (padZeros w (natToChars n) ++ r) 0 0 = (n, w, r) := by
  rw [scanDigitsAcc_run _ r 0 0 (padZeros_digits w _ (natToChars_digits n)) hr,
    padZeros_foldl, natToChars_foldl0, padZeros_length w _ hw]
  simp

lemma g_ascii_strtod_fixed (M F w : Nat) (neg : Bool) (r : List Char)
    (hF : (natToChars F).length ≤ w) (hr : c_isdigit (getCh r 0) = false) :
    g_ascii_strtod ((if neg then ['-'] else []) ++
        natToChars M ++ '.' :: (padZeros w (natToChars F) ++ r))
      = (if neg then -((M : ℚ) + (F : ℚ) / 10 ^ w)
         else (M : ℚ) + (F : ℚ) / 10 ^ w) := by
  obtain ⟨c, t, hct⟩ := List.exists_cons_of_ne_nil (natToChars_ne_nil M)
  have hc : c_isdigit c = true :=
    natToChars_digits M c (hct ▸ List.mem_cons_self c t)
  have hdot : c_isdigit (getCh ('.' :: (padZeros w (natToChars F) ++ r)) 0)
      = false := rfl
  have hscan1 : scanDigitsAcc
      (natToChars M ++ '.' :: (padZeros w (natToChars F) ++ r)) 0 0
      = (M, (natToChars M).length, '.' :: (padZeros w (natToChars F) ++ r)) :=
    scanDigits_natToChars M _ hdot
  have hscan2 : scanDigitsAcc (padZeros w (natToChars F) ++ r) 0 0
      = (F, w, r) := scanDigits_padZeros F w hF r hr
  have hc1 : ¬ (c = '-') := by
    intro h; rw [h] at hc; exact absurd hc (by decide)
  have hc2 : ¬ (c = '+') := by
    intro h; rw [h] at hc; exact absurd hc (by decide)
  cases neg with
  | false =>
    have hstr : (if false then ['-'] else []) ++
        natToChars M ++ '.' :: (padZeros w (natToChars F) ++ r)
        = c :: (t ++ '.' :: (padZeros w (natToChars F) ++ r)) := by
      rw [hct]; simp
    rw [hstr]
    simp only [g_ascii_strtod]
    rw [List.dropWhile_cons]
    simp only [digit_not_space hc, Bool.false_eq_true, if_false]
    split
    · rename_i h
      split at h
      · rename_i r1 heq
        injection heq with h1 _
        exact absurd h1 hc1
      · simp at h
      · simp at h
    · rename_i h
      clear h
      split
      · rename_i r1 heq
        injection heq with h1 _
        exact absurd h1 hc1
      · rename_i r1 heq
        injection heq with h1 _
        exact absurd h1 hc2
      · rw [← List.cons_append, ← hct]
        simp only [hscan1]
        norm_num [hscan2]
  | true =>
    have hstr : (if true then ['-'] else []) ++
        natToChars M ++ '.' :: (padZeros w (natToChars F) ++ r)
        = '-' :: (natToChars M ++ '.' :: (padZeros w (natToChars F) ++ r)) := by
      simp
    rw [hstr]
    simp only [g_ascii_strtod]
    have hdw : List.dropWhile (fun c => c_isspace c)
        ('-' :: (natToChars M ++ '.' :: (padZeros w (natToChars F) ++ r)))
        = '-' :: (natToChars M ++ '.' :: (padZeros w (natToChars F) ++ r)) := rfl
    rw [hdw]
    split
    · rename_i h
      clear h
      split
      · rename_i r1 heq
        injection heq with h1 h2
        subst h2
        simp only [hscan1]
        norm_num [hscan2]
      · rename_i r1 heq
        injection heq with h1 _
        exact absurd h1.symm (by decide)
      · rename_i s1x hx1 hx2
        exact absurd rfl (fun hh => hx1 _ hh)
    · rename_i h
      split at h
      · exact absurd rfl h
      · rename_i r1 heq
        injection heq with h1 _
        exact absurd h1.symm (by decide)
      · rename_i s1x hx1 hx2
        exact absurd rfl (fun hh => hx1 _ hh)

lemma natCast_div_add_mod_div (n P : Nat) (hP : 0 < P) :
    ((n / P : Nat) : ℚ) + ((n % P : Nat) : ℚ) / (P : ℚ) = (n : ℚ) / P := by
  have h := Nat.div_add_mod n P
  have h2 : n / P * P + n % P = n := by rw [Nat.mul_comm]; exact h
  have hP0 : (P : ℚ) ≠ 0 := by positivity
  field_simp
  exact_mod_cast h2

lemma fixed_num_floor (q : ℚ) (P : ℚ) (hP : 0 ≤ P) (hden : (q * P).den = 1) :
    ((Int.floor (|q| * P + 1/2)).toNat : ℚ) = |q| * P := by
  have hz : ((q * P).num : ℚ) = q * P := (Rat.den_eq_one_iff _).mp hden
  have habs : |q| * P = (((q * P).num.natAbs : ℕ) : ℚ) := by
    have h1 : |q| * P = |(((q * P).num : ℤ) : ℚ)| := by
      rw [hz, abs_mul, abs_of_nonneg hP]
    rw [h1, Int.cast_natAbs, Int.cast_abs]
  rw [habs]
  have hcast : (((q * P).num.natAbs : ℕ) : ℚ)
      = (((q * P).num.natAbs : ℤ) : ℚ) := (Int.cast_natCast _).symm
  rw [hcast, Int.floor_int_add]
  have hhalf : Int.floor ((1:ℚ)/2) = 0 := by
    rw [Int.floor_eq_zero_iff]
    simp [Set.mem_Ico]
    norm_num
  rw [hhalf]
  simp only [add_zero]
  rw [Int.toNat_natCast]
  exact (Int.cast_natCast _).symm

lemma fixed_print_strtod (w P : Nat) (Pq : ℚ) (hPc : ((P : ℕ) : ℚ) = Pq)
    (hpow : P = 10 ^ w) (hw : 0 < w) (q : ℚ) (hden : (q * Pq).den = 1)
    (r : List Char) (hr : c_isdigit (getCh r 0) = false) :
    g_ascii_strtod ((if q < 0 then ['-'] else []) ++
      natToChars ((Int.floor (|q| * Pq + 1/2)).toNat / P) ++
      '.' :: (padZeros w (natToChars ((Int.floor (|q| * Pq + 1/2)).toNat % P))
        ++ r)) = q := by
  subst hpow
  subst hPc
  have hten : ((10 ^ w : ℕ) : ℚ) = (10 : ℚ) ^ w := by push_cast; ring
  rw [hten] at hden ⊢
  have hP : (0:ℚ) ≤ (10 : ℚ) ^ w := by positivity
  have hn : (((Int.floor (|q| * (10:ℚ) ^ w + 1/2)).toNat : ℕ) : ℚ)
      = |q| * (10:ℚ) ^ w := fixed_num_floor q _ hP hden
  have hpos : 0 < 10 ^ w := Nat.pow_pos (by norm_num)
  have hFlt : (Int.floor (|q| * (10:ℚ) ^ w + 1/2)).toNat % 10 ^ w
      < 10 ^ w := Nat.mod_lt _ hpos
  have hF : (natToChars ((Int.floor (|q| * (10:ℚ) ^ w + 1/2)).toNat
      % 10 ^ w)).length ≤ w := natToChars_length_le _ w hw hFlt
  have harith : (((Int.floor (|q| * (10:ℚ) ^ w + 1/2)).toNat / 10 ^ w
        : ℕ) : ℚ) +
      (((Int.floor (|q| * (10:ℚ) ^ w + 1/2)).toNat % 10 ^ w : ℕ) : ℚ)
        / (10 : ℚ) ^ w = |q| := by
    have h1 := natCast_div_add_mod_div
      ((Int.floor (|q| * (10:ℚ) ^ w + 1/2)).toNat) (10 ^ w) hpos
    rw [hten] at h1
    rw [h1, hn]
    have h10 : ((10 : ℚ) ^ w) ≠ 0 := by positivity
    field_simp
  by_cases hs : q < 0
  · rw [if_pos hs]
    have happ := g_ascii_strtod_fixed
      ((Int.floor (|q| * (10:ℚ) ^ w + 1/2)).toNat / 10 ^ w)
      ((Int.floor (|q| * (10:ℚ) ^ w + 1/2)).toNat % 10 ^ w)
      w true r hF hr
    simp only [if_pos] at happ
    simp only [List.singleton_append] at happ ⊢
    rw [happ, harith, abs_of_neg hs, neg_neg]
  · rw [if_neg hs]
    have happ := g_ascii_strtod_fixed
      ((Int.floor (|q| * (10:ℚ) ^ w + 1/2)).toNat / 10 ^ w)
      ((Int.floor (|q| * (10:ℚ) ^ w + 1/2)).toNat % 10 ^ w)
      w false r hF hr
    simp only [Bool.false_eq_true, if_false, List.nil_append] at happ ⊢
    rw [happ, harith, abs_of_nonneg (not_lt.mp hs)]

lemma dtostr_strtod (q : ℚ) (hq : wfQ6 q) (r : List Char)
    (hr : c_isdigit (getCh r 0) = false) :
    g_ascii_strtod (a_coords_dtostr q ++ r) = q := by
  have h := fixed_print_strtod 6 1000000 1000000 (by norm_num) (by norm_num)
    (by norm_num) q hq r hr
  unfold a_coords_dtostr
  simpa [List.append_assoc] using h

lemma formatd2_strtod (q : ℚ) (hq : wfQ2 q) (r : List Char)
    (hr : c_isdigit (getCh r 0) = false) :
    g_ascii_strtod (util_formatd2 q ++ r) = q := by
  have h := fixed_print_strtod 2 100 100 (by norm_num) (by norm_num)
    (by norm_num) q hq r hr
  unfold util_formatd2
  simpa [List.append_assoc] using h

lemma c_atoi_natToChars (n : Nat) (r : List Char)
    (hr : c_isdigit (getCh r 0) = false) :
    c_atoi (natToChars n ++ r) = (n : Int) := by
  obtain ⟨c, t, hct⟩ := List.exists_cons_of_ne_nil (natToChars_ne_nil n)
  have hc : c_isdigit c = true :=
    natToChars_digits n c (hct ▸ List.mem_cons_self c t)
  have hc1 : ¬ (c = '-') := by
    intro h; rw [h] at hc; exact absurd hc (by decide)
  have hc2 : ¬ (c = '+') := by
    intro h; rw [h] at hc; exact absurd hc (by decide)
  have hscan : scanDigitsAcc (natToChars n ++ r) 0 0
      = (n, (natToChars n).length, r) := scanDigits_natToChars n r hr
  have hstr : natToChars n ++ r = c :: (t ++ r) := by rw [hct]; simp
  rw [hstr]
  simp only [c_atoi]
  rw [List.dropWhile_cons]
  simp only [digit_not_space hc, Bool.false_eq_true, if_false]
  split
  · rename_i h
    split at h
    · rename_i r1 heq
      injection heq with h1 _
      exact absurd h1 hc1
    · simp at h
    · simp at h
  · rename_i h
    clear h
    split
    · rename_i r1 heq
      injection heq with h1 _
      exact absurd h1 hc1
    · rename_i r1 heq
      injection heq with h1 _
      exact absurd h1 hc2
    · rw [← List.cons_append, ← hct]
      simp only [hscan]

lemma c_atoi_intToChars (i : Int) (r : List Char)
    (hr : c_isdigit (getCh r 0) = false) :
    c_atoi (intToChars i ++ r) = i := by
  unfold intToChars
  by_cases hs : i < 0
  · rw [if_pos hs]
    have hscan : scanDigitsAcc (natToChars i.natAbs ++ r) 0 0
        = (i.natAbs, (natToChars i.natAbs).length, r) :=
      scanDigits_natToChars i.natAbs r hr
    simp only [List.cons_append, List.nil_append]
    simp only [c_atoi]
    have hdw : List.dropWhile (fun c => c_isspace c)
        ('-' :: (natToChars i.natAbs ++ r))
        = '-' :: (natToChars i.natAbs ++ r) := rfl
    rw [hdw]
    split
    · rename_i h
      clear h
      split
      · rename_i r1 heq
        injection heq with h1 h2
        subst h2
        simp only [hscan]
        omega
      · rename_i r1 heq
        injection heq with h1 _
        exact absurd h1.symm (by decide)
      · rename_i s1x hx1 hx2
        exact absurd rfl (fun hh => hx1 _ hh)
    · rename_i h
      split at h
      · exact absurd rfl h
      · rename_i r1 heq
        injection heq with h1 _
        exact absurd h1.symm (by decide)
      · rename_i s1x hx1 hx2
        exact absurd rfl (fun hh => hx1 _ hh)
  · rw [if_neg hs]
    rw [List.nil_append, c_atoi_natToChars i.natAbs r hr]
    omega

lemma guintPrintfD_eq (n : Nat) (h : n < 2 ^ 31) :
    guintPrintfD n = natToChars n := by
  unfold guintPrintfD intToChars
  rw [if_pos h, if_neg (by omega : ¬ ((n : Int) < 0))]
  simp

lemma atoi_guintPrintfD (n : Nat) (h : n < 2 ^ 31) (r : List Char)
    (hr : c_isdigit (getCh r 0) = false) :
    intToGuint (c_atoi (guintPrintfD n ++ r)) = n := by
  rw [guintPrintfD_eq n h, c_atoi_natToChars n r hr]
  unfold intToGuint
  rw [Int.emod_eq_of_lt (by positivity) (by exact_mod_cast (by omega : n < 2 ^ 32))]
  simp

lemma space_not_special {c : Char} (h : c_isspace c = true) :
    c ≠ '\\' ∧ c ≠ '"' ∧ c ≠ '=' ∧ c ≠ '#' := by
  unfold c_isspace at h
  simp only [Bool.or_eq_true, decide_eq_true_eq] at h
  rcases h with ((((h | h) | h) | h) | h) | h <;> subst h <;> exact ⟨by decide, by decide, by decide, by decide⟩

lemma scanToken_nil (iq bs : Bool) : scanToken [] iq bs = (0, iq, bs) := rfl

lemma scanToken_stop (c : Char) (rest : List Char) (iq bs : Bool)
    (h : (!(c_isspace c) || iq) = false) :
    scanToken (c :: rest) iq bs = (0, iq, bs) := by
  rw [scanToken]
  simp only [h, Bool.false_eq_true, if_false]

lemma scanToken_take (c : Char) (rest : List Char) (iq bs : Bool)
    (h : (!(c_isspace c) || iq) = true) (iq2 bs2 : Bool)
    (hfl : (if getCh rest 0 = '\\' ∧ bs = false then ((iq : Bool), (true : Bool))
            else if bs then (iq, false)
            else if getCh rest 0 = '"' then (!iq, false)
            else (iq, bs)) = (iq2, bs2)) :
    scanToken (c :: rest) iq bs
      = ((scanToken rest iq2 bs2).1 + 1, (scanToken rest iq2 bs2).2.1,
         (scanToken rest iq2 bs2).2.2) := by
  rw [scanToken]
  simp only [h, if_true]
  rw [hfl]

lemma scanToken_stop_at (r : List Char) (hr : r = [] ∨ c_isspace (getCh r 0) = true) :
    scanToken r false false = (0, false, false) := by
  rcases hr with rfl | hs
  · rfl
  · match r with
    | [] => rfl
    | c2 :: r2 =>
      exact scanToken_stop c2 r2 false false (by simp [show c_isspace c2 = true from hs])

lemma scanToken_quoted (e : List Char) (he : EscSeq e) :
    ∀ (p : Char) (r : List Char), (r = [] ∨ c_isspace (getCh r 0) = true) →
    scanToken (p :: (e ++ '"' :: r)) true false = (e.length + 2, false, false) := by
  induction he with
  | nil =>
    intro p r hr
    simp only [List.nil_append]
    have hfl1 : (if getCh ('"' :: r) 0 = '\\' ∧ false = false then ((true : Bool), (true : Bool))
        else if false then (true, false)
        else if getCh ('"' :: r) 0 = '"' then (!true, false)
        else (true, false)) = (false, false) := by
      rw [show getCh ('"' :: r) 0 = '"' from rfl]; decide
    rw [scanToken_take p ('"' :: r) true false (by simp) false false hfl1]
    have hne : getCh r 0 ≠ '\\' ∧ getCh r 0 ≠ '"' := by
      rcases hr with rfl | hs
      · exact ⟨by decide, by decide⟩
      · exact ⟨(space_not_special hs).1, (space_not_special hs).2.1⟩
    have hfl2 : (if getCh r 0 = '\\' ∧ false = false then ((false : Bool), (true : Bool))
        else if false then (false, false)
        else if getCh r 0 = '"' then (!false, false)
        else (false, false)) = (false, false) := by
      simp [hne.1, hne.2]
    rw [scanToken_take '"' r false false (by decide) false false hfl2]
    rw [scanToken_stop_at r hr]
    simp
  | plain c h rest _ ih =>
    intro p r hr
    simp only [List.cons_append]
    have hfl : (if getCh (c :: (rest ++ '"' :: r)) 0 = '\\' ∧ false = false
          then ((true : Bool), (true : Bool))
        else if false then (true, false)
        else if getCh (c :: (rest ++ '"' :: r)) 0 = '"' then (!true, false)
        else (true, false)) = (true, false) := by
      rw [show getCh (c :: (rest ++ '"' :: r)) 0 = c from rfl]
      simp [h.1, h.2]
    rw [scanToken_take p (c :: (rest ++ '"' :: r)) true false (by simp) true false hfl]
    rw [ih c r hr]
    simp
  | esc x hx rest _ ih =>
    intro p r hr
    simp only [List.cons_append]
    have hfl1 : (if getCh ('\\' :: (x :: (rest ++ '"' :: r))) 0 = '\\' ∧ false = false
          then ((true : Bool), (true : Bool))
        else if false then (true, false)
        else if getCh ('\\' :: (x :: (rest ++ '"' :: r))) 0 = '"' then (!true, false)
        else (true, false)) = (true, true) := by
      rw [show getCh ('\\' :: (x :: (rest ++ '"' :: r))) 0 = '\\' from rfl]
      simp
    rw [scanToken_take p ('\\' :: (x :: (rest ++ '"' :: r))) true false (by simp)
      true true hfl1]
    have hfl2 : (if getCh (x :: (rest ++ '"' :: r)) 0 = '\\' ∧ true = false
          then ((true : Bool), (true : Bool))
        else if true then (true, false)
        else if getCh (x :: (rest ++ '"' :: r)) 0 = '"' then (!true, false)
        else (true, true)) = (true, false) := by
      simp
    rw [scanToken_take '\\' (x :: (rest ++ '"' :: r)) true true (by decide)
      true false hfl2]
    rw [ih x r hr]
    simp

lemma getCh_head_ok (w' r : List Char) (hw : ∀ c ∈ w', plainTokChar c)
    (hr : r = [] ∨ c_isspace (getCh r 0) = true) :
    getCh (w' ++ r) 0 ≠ '\\' ∧ getCh (w' ++ r) 0 ≠ '"' := by
  match w' with
  | [] =>
    simp only [List.nil_append]
    rcases hr with rfl | hs
    · exact ⟨by decide, by decide⟩
    · exact ⟨(space_not_special hs).1, (space_not_special hs).2.1⟩
  | c2 :: w2 =>
    have h2 := hw c2 (List.mem_cons_self c2 w2)
    exact ⟨h2.2.1, h2.2.2⟩

lemma scanToken_raw (w : List Char) (hw : ∀ c ∈ w, plainTokChar c)
    (r : List Char) (hr : r = [] ∨ c_isspace (getCh r 0) = true) :
    scanToken (w ++ r) false false = (w.length, false, false) := by
  induction w with
  | nil => simpa using scanToken_stop_at r hr
  | cons c w' ihw =>
    have hc := hw c (List.mem_cons_self c w')
    have hnc := getCh_head_ok w' r (fun d hd => hw d (List.mem_cons_of_mem c hd)) hr
    have hfl : (if getCh (w' ++ r) 0 = '\\' ∧ false = false
          then ((false : Bool), (true : Bool))
        else if false then (false, false)
        else if getCh (w' ++ r) 0 = '"' then (!false, false)
        else (false, false)) = (false, false) := by
      simp [hnc.1, hnc.2]
    rw [List.cons_append,
      scanToken_take c (w' ++ r) false false (by simp [hc.1]) false false hfl,
      ihw (fun d hd => hw d (List.mem_cons_of_mem c hd))]
    simp

lemma scanToken_key_quoted (k : List Char) (hk : ∀ c ∈ k, plainTokChar c)
    (e : List Char) (he : EscSeq e) (r : List Char)
    (hr : r = [] ∨ c_isspace (getCh r 0) = true) :
    scanToken (k ++ '=' :: '"' :: (e ++ '"' :: r)) false false
      = (k.length + 3 + e.length, false, false) := by
  induction k with
  | nil =>
    simp only [List.nil_append]
    have hfl : (if getCh ('"' :: (e ++ '"' :: r)) 0 = '\\' ∧ false = false
          then ((false : Bool), (true : Bool))
        else if false then (false, false)
        else if getCh ('"' :: (e ++ '"' :: r)) 0 = '"' then (!false, false)
        else (false, false)) = (true, false) := by
      rw [show getCh ('"' :: (e ++ '"' :: r)) 0 = '"' from rfl]
      decide
    rw [scanToken_take '=' ('"' :: (e ++ '"' :: r)) false false (by decide)
      true false hfl]
    rw [scanToken_quoted e he '"' r hr]
    simp
    omega
  | cons c k' ihk =>
    have hc := hk c (List.mem_cons_self c k')
    have hnc : getCh (k' ++ '=' :: '"' :: (e ++ '"' :: r)) 0 ≠ '\\' ∧
        getCh (k' ++ '=' :: '"' :: (e ++ '"' :: r)) 0 ≠ '"' := by
      match k' with
      | [] =>
        rw [show getCh (([] : List Char) ++ '=' :: '"' :: (e ++ '"' :: r)) 0
          = '=' from rfl]
        exact ⟨by decide, by decide⟩
      | c2 :: k2 =>
        have h2 := hk c2 (List.mem_cons_of_mem c (List.mem_cons_self c2 k2))
        exact ⟨h2.2.1, h2.2.2⟩
    have hfl : (if getCh (k' ++ '=' :: '"' :: (e ++ '"' :: r)) 0 = '\\' ∧ false = false
          then ((false : Bool), (true : Bool))
        else if false then (false, false)
        else if getCh (k' ++ '=' :: '"' :: (e ++ '"' :: r)) 0 = '"' then (!false, false)
        else (false, false)) = (false, false) := by
      simp [hnc.1, hnc.2]
    rw [List.cons_append,
      scanToken_take c (k' ++ '=' :: '"' :: (e ++ '"' :: r)) false false
        (by simp [hc.1]) false false hfl,
      ihk (fun d hd => hk d (List.mem_cons_of_mem c hd))]
    simp
    omega

set_option maxRecDepth 4000 in
lemma hexPad2_eq (k : Nat) (hk : k < 256) :
    hexPad2 k = [Nat.digitChar (k / 16), Nat.digitChar (k % 16)] := by
  have hall : (List.range 256).all
      (fun k => hexPad2 k = [Nat.digitChar (k / 16), Nat.digitChar (k % 16)])
        = true := by decide
  have := List.all_eq_true.mp hall k (List.mem_range.mpr hk)
  simpa using this

lemma hexVal_digitChar : ∀ d < 16, hexVal (Nat.digitChar d) = some d := by decide

lemma digitChar16_plain : ∀ d < 16, c_isspace (Nat.digitChar d) = false ∧
    Nat.digitChar d ≠ '\\' ∧ Nat.digitChar d ≠ '"' ∧ Nat.digitChar d ≠ '=' ∧
    Nat.digitChar d ≠ '#' := by decide

lemma wfChannel_div (c : Nat) (h : wfChannel c) :
    c / 256 < 256 ∧ (c / 256) * 257 = c := by
  obtain ⟨k, hk, rfl⟩ := h
  constructor <;> omega

lemma gdk_color_parse_digits (a b c d e f : Nat) (ha : a < 16) (hb : b < 16)
    (hc : c < 16) (hd : d < 16) (he : e < 16) (hf : f < 16) :
    gdk_color_parse ['#', Nat.digitChar a, Nat.digitChar b, Nat.digitChar c,
        Nat.digitChar d, Nat.digitChar e, Nat.digitChar f]
      = some ((a * 16 + b) * 257, (c * 16 + d) * 257, (e * 16 + f) * 257) := by
  simp only [gdk_color_parse]
  rw [if_pos (by simp)]
  rw [show getCh [Nat.digitChar a, Nat.digitChar b, Nat.digitChar c,
      Nat.digitChar d, Nat.digitChar e, Nat.digitChar f] 0 = Nat.digitChar a from rfl]
  rw [show getCh [Nat.digitChar a, Nat.digitChar b, Nat.digitChar c,
      Nat.digitChar d, Nat.digitChar e, Nat.digitChar f] 1 = Nat.digitChar b from rfl]
  rw [show getCh [Nat.digitChar a, Nat.digitChar b, Nat.digitChar c,
      Nat.digitChar d, Nat.digitChar e, Nat.digitChar f] 2 = Nat.digitChar c from rfl]
  rw [show getCh [Nat.digitChar a, Nat.digitChar b, Nat.digitChar c,
      Nat.digitChar d, Nat.digitChar e, Nat.digitChar f] 3 = Nat.digitChar d from rfl]
  rw [show getCh [Nat.digitChar a, Nat.digitChar b, Nat.digitChar c,
      Nat.digitChar d, Nat.digitChar e, Nat.digitChar f] 4 = Nat.digitChar e from rfl]
  rw [show getCh [Nat.digitChar a, Nat.digitChar b, Nat.digitChar c,
      Nat.digitChar d, Nat.digitChar e, Nat.digitChar f] 5 = Nat.digitChar f from rfl]
  rw [hexVal_digitChar a ha, hexVal_digitChar b hb, hexVal_digitChar c hc,
    hexVal_digitChar d hd, hexVal_digitChar e he, hexVal_digitChar f hf]

lemma gdk_color_roundtrip (c1 c2 c3 : Nat) (h1 : wfChannel c1)
    (h2 : wfChannel c2) (h3 : wfChannel c3) :
    gdk_color_parse ('#' :: (hexPad2 (c1 / 256) ++ (hexPad2 (c2 / 256) ++
      hexPad2 (c3 / 256)))) = some (c1, c2, c3) := by
  obtain ⟨ha1, ha2⟩ := wfChannel_div c1 h1
  obtain ⟨hb1, hb2⟩ := wfChannel_div c2 h2
  obtain ⟨hc1, hc2⟩ := wfChannel_div c3 h3
  rw [hexPad2_eq _ ha1, hexPad2_eq _ hb1, hexPad2_eq _ hc1]
  have h := gdk_color_parse_digits (c1 / 256 / 16) (c1 / 256 % 16)
    (c2 / 256 / 16) (c2 / 256 % 16) (c3 / 256 / 16) (c3 / 256 % 16)
    (by omega) (by omega) (by omega) (by omega) (by omega) (by omega)
  simp only [List.cons_append, List.nil_append] at h ⊢
  rw [h]
  have e1 : (c1 / 256 / 16 * 16 + c1 / 256 % 16) * 257 = c1 := by omega
  have e2 : (c2 / 256 / 16 * 16 + c2 / 256 % 16) * 257 = c2 := by omega
  have e3 : (c3 / 256 / 16 * 16 + c3 / 256 % 16) * 257 = c3 := by omega
  rw [e1, e2, e3]

lemma keyIs_append (k x lit : List Char) :
    keyIs (k ++ x) k.length lit = keyIs k k.length lit := by
  unfold keyIs
  rw [show (k ++ x).take k.length = k by simp, List.take_length]

lemma pkv_latitude (st : LineState) (junk v : List Char) (vlen : Nat) :
    gpspoint_process_key_and_value st (("latitude").toList ++ junk)
        (("latitude").toList).length (some v) vlen
      = { st with line_latlon := ⟨g_ascii_strtod v, st.line_latlon.lon⟩ } := by
  unfold gpspoint_process_key_and_value
  simp only [Option.getD_some, keyIs_append]
  simp +decide

lemma pkv_longitude (st : LineState) (junk v : List Char) (vlen : Nat) :
    gpspoint_process_key_and_value st (("longitude").toList ++ junk)
        (("longitude").toList).length (some v) vlen
      = { st with line_latlon := ⟨st.line_latlon.lat, g_ascii_strtod v⟩ } := by
  unfold gpspoint_process_key_and_value
  simp only [Option.getD_some, keyIs_append]
  simp +decide

lemma pkv_unixtime (st : LineState) (junk v : List Char) (vlen : Nat) :
    gpspoint_process_key_and_value st (("unixtime").toList ++ junk)
        (("unixtime").toList).length (some v) vlen
      = { st with line_timestamp := some (g_ascii_strtod v) } := by
  unfold gpspoint_process_key_and_value
  simp only [Option.getD_some, keyIs_append]
  simp +decide

lemma pkv_altitude (st : LineState) (junk v : List Char) (vlen : Nat) :
    gpspoint_process_key_and_value st (("altitude").toList ++ junk)
        (("altitude").toList).length (some v) vlen
      = { st with line_altitude := some (g_ascii_strtod v) } := by
  unfold gpspoint_process_key_and_value
  simp only [Option.getD_some, keyIs_append]
  simp +decide

lemma pkv_number (st : LineState) (junk v : List Char) (vlen : Nat) :
    gpspoint_process_key_and_value st (("number").toList ++ junk)
        (("number").toList).length (some v) vlen
      = { st with line_number := intToGuint (c_atoi v) } := by
  unfold gpspoint_process_key_and_value
  simp only [Option.getD_some, keyIs_append]
  simp +decide

lemma pkv_draw_name_mode (st : LineState) (junk v : List Char) (vlen : Nat) :
    gpspoint_process_key_and_value st (("draw_name_mode").toList ++ junk)
        (("draw_name_mode").toList).length (some v) vlen
      = { st with line_name_label := c_atoi v } := by
  unfold gpspoint_process_key_and_value
  simp only [Option.getD_some, keyIs_append]
  simp +decide

lemma pkv_number_dist_labels (st : LineState) (junk v : List Char) (vlen : Nat) :
    gpspoint_process_key_and_value st (("number_dist_labels").toList ++ junk)
        (("number_dist_labels").toList).length (some v) vlen
      = { st with line_dist_label := c_atoi v } := by
  unfold gpspoint_process_key_and_value
  simp only [Option.getD_some, keyIs_append]
  simp +decide

lemma pkv_image_direction (st : LineState) (junk v : List Char) (vlen : Nat) :
    gpspoint_process_key_and_value st (("image_direction").toList ++ junk)
        (("image_direction").toList).length (some v) vlen
      = { st with line_image_direction := some (g_ascii_strtod v) } := by
  unfold gpspoint_process_key_and_value
  simp only [Option.getD_some, keyIs_append]
  simp +decide

lemma pkv_image_direction_ref (st : LineState) (junk v : List Char) (vlen : Nat) :
    gpspoint_process_key_and_value st (("image_direction_ref").toList ++ junk)
        (("image_direction_ref").toList).length (some v) vlen
      = { st with line_image_direction_ref := c_atoi v } := by
  unfold gpspoint_process_key_and_value
  simp only [Option.getD_some, keyIs_append]
  simp +decide

lemma pkv_symbol (st : LineState) (junk v : List Char) (vlen : Nat) :
    gpspoint_process_key_and_value st (("symbol").toList ++ junk)
        (("symbol").toList).length (some v) vlen
      = { st with line_symbol := some (v.take vlen) } := by
  unfold gpspoint_process_key_and_value
  simp only [Option.getD_some, keyIs_append]
  simp +decide

lemma pkv_newsegment (st : LineState) (junk v : List Char) (vlen : Nat) :
    gpspoint_process_key_and_value st (("newsegment").toList ++ junk)
        (("newsegment").toList).length (some v) vlen
      = { st with line_newsegment := true } := by
  unfold gpspoint_process_key_and_value
  simp only [Option.getD_some, keyIs_append]
  simp +decide

lemma pkv_extended (st : LineState) (junk v : List Char) (vlen : Nat) :
    gpspoint_process_key_and_value st (("extended").toList ++ junk)
        (("extended").toList).length (some v) vlen
      = { st with line_extended := true } := by
  unfold gpspoint_process_key_and_value
  simp only [Option.getD_some, keyIs_append]
  simp +decide

lemma pkv_speed (st : LineState) (junk v : List Char) (vlen : Nat) :
    gpspoint_process_key_and_value st (("speed").toList ++ junk)
        (("speed").toList).length (some v) vlen
      = { st with line_speed := some (g_ascii_strtod v) } := by
  unfold gpspoint_process_key_and_value
  simp only [Option.getD_some, keyIs_append]
  simp +decide

lemma pkv_course (st : LineState) (junk v : List Char) (vlen : Nat) :
    gpspoint_process_key_and_value st (("course").toList ++ junk)
        (("course").toList).length (some v) vlen
      = { st with line_course := some (g_ascii_strtod v) } := by
  unfold gpspoint_process_key_and_value
  simp only [Option.getD_some, keyIs_append]
  simp +decide

lemma pkv_sat (st : LineState) (junk v : List Char) (vlen : Nat) :
    gpspoint_process_key_and_value st (("sat").toList ++ junk)
        (("sat").toList).length (some v) vlen
      = { st with line_sat := intToGuint (c_atoi v) } := by
  unfold gpspoint_process_key_and_value
  simp only [Option.getD_some, keyIs_append]
  simp +decide

lemma pkv_fix (st : LineState) (junk v : List Char) (vlen : Nat) :
    gpspoint_process_key_and_value st (("fix").toList ++ junk)
        (("fix").toList).length (some v) vlen
      = { st with line_fix := intToGuint (c_atoi v) } := by
  unfold gpspoint_process_key_and_value
  simp only [Option.getD_some, keyIs_append]
  simp +decide

lemma pkv_hdop (st : LineState) (junk v : List Char) (vlen : Nat) :
    gpspoint_process_key_and_value st (("hdop").toList ++ junk)
        (("hdop").toList).length (some v) vlen
      = { st with line_hdop := some (g_ascii_strtod v) } := by
  unfold gpspoint_process_key_and_value
  simp only [Option.getD_some, keyIs_append]
  simp +decide

lemma pkv_vdop (st : LineState) (junk v : List Char) (vlen : Nat) :
    gpspoint_process_key_and_value st (("vdop").toList ++ junk)
        (("vdop").toList).length (some v) vlen
      = { st with line_vdop := some (g_ascii_strtod v) } := by
  unfold gpspoint_process_key_and_value
  simp only [Option.getD_some, keyIs_append]
  simp +decide

lemma pkv_pdop (st : LineState) (junk v : List Char) (vlen : Nat) :
    gpspoint_process_key_and_value st (("pdop").toList ++ junk)
        (("pdop").toList).length (some v) vlen
      = { st with line_pdop := some (g_ascii_strtod v) } := by
  unfold gpspoint_process_key_and_value
  simp only [Option.getD_some, keyIs_append]
  simp +decide

lemma pkv_magvar (st : LineState) (junk v : List Char) (vlen : Nat) :
    gpspoint_process_key_and_value st (("magvar").toList ++ junk)
        (("magvar").toList).length (some v) vlen
      = { st with line_magvar := some (g_ascii_strtod v) } := by
  unfold gpspoint_process_key_and_value
  simp only [Option.getD_some, keyIs_append]
  simp +decide

lemma pkv_geoidheight (st : LineState) (junk v : List Char) (vlen : Nat) :
    gpspoint_process_key_and_value st (("geoidheight").toList ++ junk)
        (("geoidheight").toList).length (some v) vlen
      = { st with line_geoidheight := some (g_ascii_strtod v) } := by
  unfold gpspoint_process_key_and_value
  simp only [Option.getD_some, keyIs_append]
  simp +decide

lemma pkv_url (st : LineState) (junk v : List Char) (vlen : Nat) :
    gpspoint_process_key_and_value st (("url").toList ++ junk)
        (("url").toList).length (some v) vlen
      = { st with line_url := deslashndup v vlen } := by
  unfold gpspoint_process_key_and_value
  simp only [Option.getD_some, keyIs_append]
  simp +decide

lemma pkv_url_name (st : LineState) (junk v : List Char) (vlen : Nat) :
    gpspoint_process_key_and_value st (("url_name").toList ++ junk)
        (("url_name").toList).length (some v) vlen
      = { st with line_url_name := deslashndup v vlen } := by
  unfold gpspoint_process_key_and_value
  simp only [Option.getD_some, keyIs_append]
  simp +decide

lemma pkv_ageofdgpsdata (st : LineState) (junk v : List Char) (vlen : Nat) :
    gpspoint_process_key_and_value st (("ageofdgpsdata").toList ++ junk)
        (("ageofdgpsdata").toList).length (some v) vlen
      = { st with line_ageofdgpsdata := some (g_ascii_strtod v) } := by
  unfold gpspoint_process_key_and_value
  simp only [Option.getD_some, keyIs_append]
  simp +decide

lemma pkv_dgpsid (st : LineState) (junk v : List Char) (vlen : Nat) :
    gpspoint_process_key_and_value st (("dgpsid").toList ++ junk)
        (("dgpsid").toList).length (some v) vlen
      = { st with line_dgpsid := intToGuint (c_atoi v) } := by
  unfold gpspoint_process_key_and_value
  simp only [Option.getD_some, keyIs_append]
  simp +decide

lemma pkv_name (st : LineState) (junk v : List Char) (vlen : Nat)
    (h : st.line_name = none) :
    gpspoint_process_key_and_value st (("name").toList ++ junk)
        (("name").toList).length (some v) vlen
      = { st with line_name := deslashndup v vlen } := by
  unfold gpspoint_process_key_and_value
  simp only [Option.getD_some, keyIs_append]
  simp +decide [h]

lemma pkv_comment (st : LineState) (junk v : List Char) (vlen : Nat)
    (h : st.line_comment = none) :
    gpspoint_process_key_and_value st (("comment").toList ++ junk)
        (("comment").toList).length (some v) vlen
      = { st with line_comment := deslashndup v vlen } := by
  unfold gpspoint_process_key_and_value
  simp only [Option.getD_some, keyIs_append]
  simp +decide [h]

lemma pkv_description (st : LineState) (junk v : List Char) (vlen : Nat)
    (h : st.line_description = none) :
    gpspoint_process_key_and_value st (("description").toList ++ junk)
        (("description").toList).length (some v) vlen
      = { st with line_description := deslashndup v vlen } := by
  unfold gpspoint_process_key_and_value
  simp only [Option.getD_some, keyIs_append]
  simp +decide [h]

lemma pkv_source (st : LineState) (junk v : List Char) (vlen : Nat)
    (h : st.line_source = none) :
    gpspoint_process_key_and_value st (("source").toList ++ junk)
        (("source").toList).length (some v) vlen
      = { st with line_source := deslashndup v vlen } := by
  unfold gpspoint_process_key_and_value
  simp only [Option.getD_some, keyIs_append]
  simp +decide [h]

lemma pkv_xtype (st : LineState) (junk v : List Char) (vlen : Nat)
    (h : st.line_xtype = none) :
    gpspoint_process_key_and_value st (("xtype").toList ++ junk)
        (("xtype").toList).length (some v) vlen
      = { st with line_xtype := deslashndup v vlen } := by
  unfold gpspoint_process_key_and_value
  simp only [Option.getD_some, keyIs_append]
  simp +decide [h]

lemma pkv_color (st : LineState) (junk v : List Char) (vlen : Nat)
    (h : st.line_color = none) :
    gpspoint_process_key_and_value st (("color").toList ++ junk)
        (("color").toList).length (some v) vlen
      = { st with line_color := deslashndup v vlen } := by
  unfold gpspoint_process_key_and_value
  simp only [Option.getD_some, keyIs_append]
  simp +decide [h]

lemma pkv_image (st : LineState) (junk v : List Char) (vlen : Nat)
    (h : st.line_image = none) :
    gpspoint_process_key_and_value st (("image").toList ++ junk)
        (("image").toList).length (some v) vlen
      = { st with line_image := deslashndup v vlen } := by
  unfold gpspoint_process_key_and_value
  simp only [Option.getD_some, keyIs_append]
  simp +decide [h]

lemma pkv_type_waypoint (st : LineState) (junk junk2 : List Char) :
    gpspoint_process_key_and_value st (("type").toList ++ junk)
        (("type").toList).length (some (("waypoint").toList ++ junk2))
        (("waypoint").toList).length
      = { st with line_type := GPSPOINT_TYPE_WAYPOINT } := by
  unfold gpspoint_process_key_and_value
  simp only [Option.getD_some, keyIs_append]
  simp +decide

lemma pkv_type_track (st : LineState) (junk junk2 : List Char) :
    gpspoint_process_key_and_value st (("type").toList ++ junk)
        (("type").toList).length (some (("track").toList ++ junk2))
        (("track").toList).length
      = { st with line_type := GPSPOINT_TYPE_TRACK } := by
  unfold gpspoint_process_key_and_value
  simp only [Option.getD_some, keyIs_append]
  simp +decide

lemma pkv_type_route (st : LineState) (junk junk2 : List Char) :
    gpspoint_process_key_and_value st (("type").toList ++ junk)
        (("type").toList).length (some (("route").toList ++ junk2))
        (("route").toList).length
      = { st with line_type := GPSPOINT_TYPE_ROUTE } := by
  unfold gpspoint_process_key_and_value
  simp only [Option.getD_some, keyIs_append]
  simp +decide

lemma pkv_type_trackpoint (st : LineState) (junk junk2 : List Char) :
    gpspoint_process_key_and_value st (("type").toList ++ junk)
        (("type").toList).length (some (("trackpoint").toList ++ junk2))
        (("trackpoint").toList).length
      = { st with line_type := GPSPOINT_TYPE_TRACKPOINT } := by
  unfold gpspoint_process_key_and_value
  simp only [Option.getD_some, keyIs_append]
  simp +decide

lemma pkv_type_routepoint (st : LineState) (junk junk2 : List Char) :
    gpspoint_process_key_and_value st (("type").toList ++ junk)
        (("type").toList).length (some (("routepoint").toList ++ junk2))
        (("routepoint").toList).length
      = { st with line_type := GPSPOINT_TYPE_ROUTEPOINT } := by
  unfold gpspoint_process_key_and_value
  simp only [Option.getD_some, keyIs_append]
  simp +decide

lemma pkv_type_trackend (st : LineState) (junk junk2 : List Char) :
    gpspoint_process_key_and_value st (("type").toList ++ junk)
        (("type").toList).length (some (("trackend").toList ++ junk2))
        (("trackend").toList).length
      = { st with line_type := GPSPOINT_TYPE_TRACK_END } := by
  unfold gpspoint_process_key_and_value
  simp only [Option.getD_some, keyIs_append]
  simp +decide

lemma pkv_type_routeend (st : LineState) (junk junk2 : List Char) :
    gpspoint_process_key_and_value st (("type").toList ++ junk)
        (("type").toList).length (some (("routeend").toList ++ junk2))
        (("routeend").toList).length
      = { st with line_type := GPSPOINT_TYPE_ROUTE_END } := by
  unfold gpspoint_process_key_and_value
  simp only [Option.getD_some, keyIs_append]
  simp +decide

lemma pkv_type_waypointlist (st : LineState) (junk junk2 : List Char) :
    gpspoint_process_key_and_value st (("type").toList ++ junk)
        (("type").toList).length (some (("waypointlist").toList ++ junk2))
        (("waypointlist").toList).length
      = { st with line_type := GPSPOINT_TYPE_NONE } := by
  unfold gpspoint_process_key_and_value
  simp only [Option.getD_some, keyIs_append]
  simp +decide

lemma pkv_type_waypointlistend (st : LineState) (junk junk2 : List Char) :
    gpspoint_process_key_and_value st (("type").toList ++ junk)
        (("type").toList).length (some (("waypointlistend").toList ++ junk2))
        (("waypointlistend").toList).length
      = { st with line_type := GPSPOINT_TYPE_NONE } := by
  unfold gpspoint_process_key_and_value
  simp only [Option.getD_some, keyIs_append]
  simp +decide

lemma pkv_visible_n (st : LineState) (junk junk2 : List Char) (vlen : Nat) :
    gpspoint_process_key_and_value st (("visible").toList ++ junk)
        (("visible").toList).length (some (("n").toList ++ junk2)) vlen
      = { st with line_visible := false } := by
  unfold gpspoint_process_key_and_value
  simp only [Option.getD_some, keyIs_append]
  simp +decide [show getCh ('n' :: junk2) 0 = 'n' from rfl]

lemma dropWhile_cons_not_space (c : Char) (l : List Char)
    (h : c_isspace c = false) :
    (c :: l).dropWhile (fun d => c_isspace d) = c :: l := by
  rw [List.dropWhile_cons]
  simp [h]

lemma processTagsF_step (fuel : Nat) (st : LineState) (tok rest : List Char)
    (hscan : scanToken (tok ++ ' ' :: rest) false false
      = (tok.length, false, false))
    (c : Char) (cs : List Char) (htok : tok = c :: cs)
    (hsp : c_isspace c = false) (hhash : c ≠ '#') (hq : c ≠ '"') :
    processTagsF (fuel + 1) st (tok ++ ' ' :: rest) false false
      = processTagsF fuel
          (gpspoint_process_tag st (tok ++ ' ' :: rest) tok.length)
          rest false false := by
  subst htok
  rw [processTagsF]
  simp only [List.cons_append]
  rw [dropWhile_cons_not_space c (cs ++ ' ' :: rest) hsp]
  split
  · rename_i heq
    cases heq
  · rename_i c2 cs2 heq
    injection heq with h1 h2
    subst h1
    subst h2
    rw [if_neg hhash]
    simp only [if_neg hq]
    rw [show (c :: (cs ++ ' ' :: rest)) = ((c :: cs) ++ ' ' :: rest) from rfl,
      hscan]
    simp only []
    rw [if_neg (by simp)]
    congr 1
    rw [show ((c :: cs) ++ ' ' :: rest) = (c :: (cs ++ ' ' :: rest)) from rfl]
    rw [List.drop_succ_cons]
    rw [List.drop_append_eq_append_drop]
    simp

lemma processTagsF_last (fuel : Nat) (st : LineState) (tok : List Char)
    (hscan : scanToken tok false false = (tok.length, false, false))
    (c : Char) (cs : List Char) (htok : tok = c :: cs)
    (hsp : c_isspace c = false) (hhash : c ≠ '#') (hq : c ≠ '"') :
    processTagsF (fuel + 1) st tok false false
      = gpspoint_process_tag st tok tok.length := by
  subst htok
  rw [processTagsF]
  rw [dropWhile_cons_not_space c cs hsp]
  split
  · rename_i heq
    cases heq
  · rename_i c2 cs2 heq
    injection heq with h1 h2
    subst h1
    subst h2
    rw [if_neg hhash]
    simp only [if_neg hq]
    rw [hscan]
    simp

lemma renderToks_cons (t : TokSpec) (ts : List TokSpec) :
    renderToks (t :: ts) = renderTok t ++ renderSep ts := by
  rw [renderToks.eq_def]
  match ts with
  | [] => simp [renderSep]
  | t2 :: ts2 => simp [renderSep]

lemma renderSep_head (ts : List TokSpec) :
    renderSep ts = [] ∨ c_isspace (getCh (renderSep ts) 0) = true := by
  match ts with
  | [] => left; rfl
  | t :: ts2 => right; rfl

lemma escSeq_head_ne_quote {e : List Char} (he : EscSeq e) (hne : e ≠ []) :
    getCh e 0 ≠ '"' := by
  cases he with
  | nil => exact absurd rfl hne
  | plain c h rest _ => exact h.2
  | esc x hx rest _ =>
    rw [show getCh ('\\' :: x :: rest) 0 = '\\' from rfl]
    decide

lemma renderTok_scan (t : TokSpec) (h : TokGood t) (r : List Char)
    (hr : r = [] ∨ c_isspace (getCh r 0) = true) :
    scanToken (renderTok t ++ r) false false
      = ((renderTok t).length, false, false) := by
  match t with
  | ⟨k, .quoted e⟩ =>
    obtain ⟨hk, hkc, hesc, hene, _⟩ := h
    have hshape : renderTok ⟨k, .quoted e⟩ ++ r
        = k ++ '=' :: '"' :: (e ++ '"' :: r) := by
      rw [renderTok]
      simp
    rw [hshape, scanToken_key_quoted k (fun c hc => (hkc c hc).1) e hesc r hr]
    rw [renderTok]
    simp
    omega
  | ⟨k, .raw w⟩ =>
    obtain ⟨hk, hkc, hwc, hwne⟩ := h
    have hshape : renderTok ⟨k, .raw w⟩ ++ r = (k ++ '=' :: w) ++ r := by
      rw [renderTok]
    have hall : ∀ c ∈ k ++ '=' :: w, plainTokChar c := by
      intro c hc
      rcases List.mem_append.mp hc with hc | hc
      · exact (hkc c hc).1
      · rcases List.mem_cons.mp hc with rfl | hc
        · exact ⟨by decide, by decide, by decide⟩
        · exact hwc c hc
    rw [hshape, scanToken_raw (k ++ '=' :: w) hall r hr]
    rw [renderTok]

lemma renderTok_head (t : TokSpec) (h : TokGood t) :
    ∃ c cs, renderTok t = c :: cs ∧ c_isspace c = false ∧ c ≠ '#' ∧ c ≠ '"' := by
  match t with
  | ⟨k, .quoted e⟩ =>
    obtain ⟨hk, hkc, _, _⟩ := h
    match k, hk with
    | c :: k2, _ =>
      have hc := hkc c (List.mem_cons_self c k2)
      exact ⟨c, k2 ++ '=' :: '"' :: (e ++ ['"']),
        by rw [renderTok]; simp, hc.1.1, hc.2.2, hc.1.2.2⟩
  | ⟨k, .raw w⟩ =>
    obtain ⟨hk, hkc, _, _⟩ := h
    match k, hk with
    | c :: k2, _ =>
      have hc := hkc c (List.mem_cons_self c k2)
      exact ⟨c, k2 ++ '=' :: w, by rw [renderTok]; simp, hc.1.1, hc.2.2, hc.1.2.2⟩

lemma processTagsF_renderToks : ∀ (toks : List TokSpec) (st : LineState)
    (fuel : Nat), (∀ t ∈ toks, TokGood t) →
    (renderToks toks).length < fuel →
    processTagsF fuel st (renderToks toks) false false = stepToks st toks := by
  intro toks
  induction toks with
  | nil =>
    intro st fuel _ hf
    obtain ⟨f, rfl⟩ : ∃ f, fuel = f + 1 := ⟨fuel - 1, by omega⟩
    rw [show renderToks [] = [] from rfl, stepToks, processTagsF]
    rfl
  | cons t ts ih =>
    intro st fuel hg hf
    have hgt := hg t (List.mem_cons_self t ts)
    obtain ⟨c, cs, hct, hsp, hhash, hq⟩ := renderTok_head t hgt
    obtain ⟨f, rfl⟩ : ∃ f, fuel = f + 1 := ⟨fuel - 1, by omega⟩
    rw [renderToks_cons] at hf ⊢
    match ts with
    | [] =>
      rw [show renderSep ([] : List TokSpec) = [] from rfl, List.append_nil]
      rw [processTagsF_last f st (renderTok t)
        (by simpa using renderTok_scan t hgt [] (Or.inl rfl))
        c cs hct hsp hhash hq]
      rw [stepToks, show renderSep ([] : List TokSpec) = [] from rfl,
        List.append_nil, stepToks]
    | t2 :: ts2 =>
      rw [show renderSep (t2 :: ts2) = ' ' :: renderToks (t2 :: ts2) from rfl]
        at hf ⊢
      rw [processTagsF_step f st (renderTok t) (renderToks (t2 :: ts2))
        (renderTok_scan t hgt _ (Or.inr rfl)) c cs hct hsp hhash hq]
      rw [ih _ f (fun x hx => hg x (List.mem_cons_of_mem t hx))
        (by simp at hf ⊢; omega)]
      rfl

lemma processTags_renderToks (toks : List TokSpec) (st : LineState)
    (hg : ∀ t ∈ toks, TokGood t) :
    processTags st (renderToks toks) false false = stepToks st toks := by
  rw [processTags]
  exact processTagsF_renderToks toks st _ hg (by omega)

lemma padZeros_mem (w : Nat) (d : List Char) (c : Char) (hc : c ∈ padZeros w d) :
    c = '0' ∨ c ∈ d := by
  unfold padZeros at hc
  rcases List.mem_append.mp hc with h | h
  · exact Or.inl (List.eq_of_mem_replicate h)
  · exact Or.inr h

lemma a_coords_dtostr_chars (q : ℚ) :
    ∀ c ∈ a_coords_dtostr q, c_isdigit c = true ∨ c = '.' ∨ c = '-' := by
  intro c hc
  simp only [a_coords_dtostr] at hc
  rcases List.mem_append.mp hc with hab | h3
  · rcases List.mem_append.mp hab with hif | hn
    · split at hif
      · simp at hif
        subst hif
        right; right; rfl
      · simp at hif
    · exact Or.inl (natToChars_digits _ c hn)
  · rcases List.mem_cons.mp h3 with rfl | hp
    · right; left; rfl
    · rcases padZeros_mem _ _ c hp with rfl | h
      · left; decide
      · exact Or.inl (natToChars_digits _ c h)
lemma util_formatd2_chars (q : ℚ) :
    ∀ c ∈ util_formatd2 q, c_isdigit c = true ∨ c = '.' ∨ c = '-' := by
  intro c hc
  simp only [util_formatd2] at hc
  rcases List.mem_append.mp hc with hab | h3
  · rcases List.mem_append.mp hab with hif | hn
    · split at hif
      · simp at hif
        subst hif
        right; right; rfl
      · simp at hif
    · exact Or.inl (natToChars_digits _ c hn)
  · rcases List.mem_cons.mp h3 with rfl | hp
    · right; left; rfl
    · rcases padZeros_mem _ _ c hp with rfl | h
      · left; decide
      · exact Or.inl (natToChars_digits _ c h)
lemma intToChars_chars (i : Int) :
    ∀ c ∈ intToChars i, c_isdigit c = true ∨ c = '-' := by
  intro c hc
  unfold intToChars at hc
  simp only [List.mem_append, List.mem_cons] at hc
  rcases hc with hif | hn
  · split at hif
    · simp at hif
      subst hif
      right; rfl
    · simp at hif
  · exact Or.inl (natToChars_digits _ c hn)
lemma numChar_not_special {c : Char}
    (h : c_isdigit c = true ∨ c = '.' ∨ c = '-') : c ≠ '\\' ∧ c ≠ '"' := by
  rcases h with h | rfl | rfl
  · exact ⟨fun hh => by subst hh; exact absurd h (by decide),
      fun hh => by subst hh; exact absurd h (by decide)⟩
  · exact ⟨by decide, by decide⟩
  · exact ⟨by decide, by decide⟩
lemma a_coords_dtostr_ne_nil (q : ℚ) : a_coords_dtostr q ≠ [] := by
  simp only [a_coords_dtostr]
  intro h
  rcases List.append_eq_nil.mp h with ⟨_, h3⟩
  exact List.cons_ne_nil _ _ h3
lemma util_formatd2_ne_nil (q : ℚ) : util_formatd2 q ≠ [] := by
  simp only [util_formatd2]
  intro h
  rcases List.append_eq_nil.mp h with ⟨_, h3⟩
  exact List.cons_ne_nil _ _ h3
lemma intToChars_ne_nil (i : Int) : intToChars i ≠ [] := by
  unfold intToChars
  intro h
  rcases List.append_eq_nil.mp h with ⟨_, h2⟩
  exact natToChars_ne_nil _ h2

lemma map_normChar_id (s : List Char) (h : ∀ c ∈ s, c ≠ '\n' ∧ c ≠ '\r') :
    s.map normChar = s := by
  induction s with
  | nil => rfl
  | cons c rest ih =>
    have hc := h c (List.mem_cons_self c rest)
    have : normChar c = c := by
      unfold normChar
      rw [if_neg (by rintro (rfl | rfl) <;> simp at hc)]
    rw [List.map_cons, this, ih (fun d hd => h d (List.mem_cons_of_mem c hd))]

lemma slashdup_ne_nil (s : List Char) (h : s ≠ []) : slashdup s ≠ [] := by
  intro hc
  have hl := length_slashdup s
  rw [hc] at hl
  simp only [List.length_nil] at hl
  have h0 : s.length = 0 := by omega
  exact h (List.length_eq_zero.mp h0)

lemma plainTokChar_ne_newline {c : Char} (h : plainTokChar c) : c ≠ '\n' := by
  intro hh
  subst hh
  exact absurd h.1 (by decide)

lemma renderTok_no_newline (t : TokSpec) (h : TokGood t) :
    ∀ c ∈ renderTok t, c ≠ '\n' := by
  match t with
  | ⟨k, .quoted e⟩ =>
    obtain ⟨hk, hkc, hesc, hene, hnl⟩ := h
    intro c hc
    rw [renderTok] at hc
    rcases List.mem_append.mp hc with h1 | h2
    · exact plainTokChar_ne_newline (hkc c h1).1
    · rcases List.mem_cons.mp h2 with rfl | h3
      · decide
      · rcases List.mem_cons.mp h3 with rfl | h4
        · decide
        · rcases List.mem_append.mp h4 with h5 | h6
          · exact hnl c h5
          · rcases List.mem_cons.mp h6 with rfl | h7
            · decide
            · simp at h7
  | ⟨k, .raw w⟩ =>
    obtain ⟨hk, hkc, hwc, hwne⟩ := h
    intro c hc
    rw [renderTok] at hc
    rcases List.mem_append.mp hc with h1 | h2
    · exact plainTokChar_ne_newline (hkc c h1).1
    · rcases List.mem_cons.mp h2 with rfl | h3
      · decide
      · exact plainTokChar_ne_newline (hwc c h3)

lemma renderToks_no_newline (toks : List TokSpec)
    (h : ∀ t ∈ toks, TokGood t) : ∀ c ∈ renderToks toks, c ≠ '\n' := by
  induction toks with
  | nil => intro c hc; simp [renderToks] at hc
  | cons t ts ih =>
    intro c hc
    rw [renderToks_cons] at hc
    rcases List.mem_append.mp hc with h1 | h2
    · exact renderTok_no_newline t (h t (List.mem_cons_self t ts)) c h1
    · match ts with
      | [] => simp [renderSep] at h2
      | t2 :: ts2 =>
        rw [show renderSep (t2 :: ts2) = ' ' :: renderToks (t2 :: ts2) from rfl]
          at h2
        rcases List.mem_cons.mp h2 with rfl | h3
        · decide
        · exact ih (fun x hx => h x (List.mem_cons_of_mem t hx)) c h3

lemma write_double_some (tag : List Char) (q : ℚ) :
    write_double tag (some q)
      = ' ' :: renderTok ⟨tag, .quoted (a_coords_dtostr q)⟩ := by
  rw [write_double, renderTok]
  simp

lemma write_string_some (tag s : List Char) (hs : s ≠ []) :
    write_string tag (some s) = ' ' :: renderTok ⟨tag, .quoted (slashdup s)⟩ := by
  rw [write_string, if_pos (fun h => hs (List.length_eq_zero.mp h))]
  rw [renderTok]
  simp

lemma write_positive_uint_pos (tag : List Char) (v : Nat) (hv : v ≠ 0) :
    write_positive_uint tag v
      = ' ' :: renderTok ⟨tag, .quoted (guintPrintfD v)⟩ := by
  rw [write_positive_uint, if_pos hv, renderTok]
  simp

lemma write_wp_image_eq (dirpath : Option (List Char)) (wp : VikWaypoint)
    (im : List Char) (him : wp.image = some im) :
    write_wp_image dirpath false wp
      = ' ' :: renderTok ⟨("image").toList, .quoted (slashdup im)⟩ := by
  rw [write_wp_image, him]
  simp only [Bool.false_eq_true, if_false]
  rw [renderTok]
  rfl

lemma write_wp_image_direction_eq (wp : VikWaypoint) (dir : ℚ)
    (hdir : wp.image_direction = some dir) :
    write_wp_image_direction wp
      = ' ' :: renderTok ⟨("image_direction").toList, .quoted (util_formatd2 dir)⟩
        ++ ' ' :: renderTok ⟨("image_direction_ref").toList,
            .quoted (intToChars wp.image_direction_ref)⟩ := by
  rw [write_wp_image_direction, hdir]
  simp only [renderTok]
  have h1 : ((" image_direction=\"").toList) =
      ' ' :: ("image_direction").toList ++ ['=', '"'] := rfl
  have h2 : ((" image_direction_ref=\"").toList) =
      ' ' :: ("image_direction_ref").toList ++ ['=', '"'] := rfl
  rw [h1, h2]
  simp

lemma write_wp_symbol_eq (wp : VikWaypoint) (sy : List Char)
    (hsy : wp.symbol = some sy) :
    write_wp_symbol wp
      = ' ' :: renderTok ⟨("symbol").toList, .quoted (g_utf8_strdown sy)⟩ := by
  rw [write_wp_symbol, hsy]
  simp only [renderTok]
  have h1 : ((" symbol=\"").toList) = ' ' :: ("symbol").toList ++ ['=', '"'] := rfl
  rw [h1]
  simp

set_option maxRecDepth 4000 in
lemma wp_line_shape (dirpath : Option (List Char))
    (lat lon ts alt sp crs mg gh hd vd pd age dir : ℚ)
    (nm cm ds srcl url urln xt im sy : List Char) (fx sat dg : Nat)
    (ref : Int) (vis : Bool)
    (hnm : nm ≠ []) (hcm : cm ≠ []) (hds : ds ≠ []) (hsrc : srcl ≠ [])
    (hurl : url ≠ []) (hurln : urln ≠ []) (hxt : xt ≠ [])
    (hfx : fx ≠ 0) (hsat : sat ≠ 0) (hdg : dg ≠ 0) :
    a_gpspoint_write_waypoint dirpath false
      ⟨⟨lat, lon⟩, vis, some ts, some alt, some crs, some sp, some mg, some gh,
       some nm, some cm, some ds, some srcl, some url, some urln, some xt,
       fx, sat, some hd, some vd, some pd, some age, dg, some im, some dir,
       ref, some sy⟩
      = renderToks ([⟨("type").toList, .quoted (("waypoint").toList)⟩,
       ⟨("latitude").toList, .quoted (a_coords_dtostr lat)⟩,
       ⟨("longitude").toList, .quoted (a_coords_dtostr lon)⟩,
       ⟨("name").toList, .quoted (slashdup nm)⟩,
       ⟨("altitude").toList, .quoted (a_coords_dtostr alt)⟩,
       ⟨("unixtime").toList, .quoted (a_coords_dtostr ts)⟩,
       ⟨("speed").toList, .quoted (a_coords_dtostr sp)⟩,
       ⟨("course").toList, .quoted (a_coords_dtostr crs)⟩,
       ⟨("magvar").toList, .quoted (a_coords_dtostr mg)⟩,
       ⟨("geoidheight").toList, .quoted (a_coords_dtostr gh)⟩,
       ⟨("comment").toList, .quoted (slashdup cm)⟩,
       ⟨("description").toList, .quoted (slashdup ds)⟩,
       ⟨("source").toList, .quoted (slashdup srcl)⟩,
       ⟨("url").toList, .quoted (slashdup url)⟩,
       ⟨("url_name").toList, .quoted (slashdup urln)⟩,
       ⟨("xtype").toList, .quoted (slashdup xt)⟩,
       ⟨("fix").toList, .quoted (guintPrintfD fx)⟩,
       ⟨("sat").toList, .quoted (guintPrintfD sat)⟩,
       ⟨("hdop").toList, .quoted (a_coords_dtostr hd)⟩,
       ⟨("vdop").toList, .quoted (a_coords_dtostr vd)⟩,
       ⟨("pdop").toList, .quoted (a_coords_dtostr pd)⟩,
       ⟨("ageofdgpsdata").toList, .quoted (a_coords_dtostr age)⟩,
       ⟨("dgpsid").toList, .quoted (guintPrintfD dg)⟩,
       ⟨("image").toList, .quoted (slashdup im)⟩,
       ⟨("image_direction").toList, .quoted (util_formatd2 dir)⟩,
       ⟨("image_direction_ref").toList, .quoted (intToChars ref)⟩,
       ⟨("symbol").toList, .quoted (g_utf8_strdown sy)⟩] ++
      (if vis then [] else [⟨("visible").toList, .quoted (("n").toList)⟩])) ++ ['\n'] := by
  have hL0 : (("type=\"waypoint\" latitude=\"").toList) = ['t', 'y', 'p', 'e', '=', '"', 'w', 'a', 'y', 'p', 'o', 'i', 'n', 't', '"', ' ', 'l', 'a', 't', 'i', 't', 'u', 'd', 'e', '=', '"'] := rfl
  have hL1 : (("\" longitude=\"").toList) = ['"', ' ', 'l', 'o', 'n', 'g', 'i', 't', 'u', 'd', 'e', '=', '"'] := rfl
  have hL2 : (("\" name=\"").toList) = ['"', ' ', 'n', 'a', 'm', 'e', '=', '"'] := rfl
  have hL3 : ((" image=\"").toList) = [' ', 'i', 'm', 'a', 'g', 'e', '=', '"'] := rfl
  have hL4 : ((" image_direction=\"").toList) = [' ', 'i', 'm', 'a', 'g', 'e', '_', 'd', 'i', 'r', 'e', 'c', 't', 'i', 'o', 'n', '=', '"'] := rfl
  have hL5 : ((" image_direction_ref=\"").toList) = [' ', 'i', 'm', 'a', 'g', 'e', '_', 'd', 'i', 'r', 'e', 'c', 't', 'i', 'o', 'n', '_', 'r', 'e', 'f', '=', '"'] := rfl
  have hL6 : ((" symbol=\"").toList) = [' ', 's', 'y', 'm', 'b', 'o', 'l', '=', '"'] := rfl
  have hL7 : ((" visible=\"n\"").toList) = [' ', 'v', 'i', 's', 'i', 'b', 'l', 'e', '=', '"', 'n', '"'] := rfl
  have hK0 : (("type").toList) = ['t', 'y', 'p', 'e'] := rfl
  have hK1 : (("waypoint").toList) = ['w', 'a', 'y', 'p', 'o', 'i', 'n', 't'] := rfl
  have hK2 : (("latitude").toList) = ['l', 'a', 't', 'i', 't', 'u', 'd', 'e'] := rfl
  have hK3 : (("longitude").toList) = ['l', 'o', 'n', 'g', 'i', 't', 'u', 'd', 'e'] := rfl
  have hK4 : (("name").toList) = ['n', 'a', 'm', 'e'] := rfl
  have hK5 : (("visible").toList) = ['v', 'i', 's', 'i', 'b', 'l', 'e'] := rfl
  have hK6 : (("n").toList) = ['n'] := rfl
  have hK7 : (("image").toList) = ['i', 'm', 'a', 'g', 'e'] := rfl
  have hK8 : (("image_direction").toList) = ['i', 'm', 'a', 'g', 'e', '_', 'd', 'i', 'r', 'e', 'c', 't', 'i', 'o', 'n'] := rfl
  have hK9 : (("image_direction_ref").toList) = ['i', 'm', 'a', 'g', 'e', '_', 'd', 'i', 'r', 'e', 'c', 't', 'i', 'o', 'n', '_', 'r', 'e', 'f'] := rfl
  have hK10 : (("symbol").toList) = ['s', 'y', 'm', 'b', 'o', 'l'] := rfl
  cases vis <;>
  · rw [a_gpspoint_write_waypoint]
    simp only [write_double_some, write_string_some _ _ hnm,
      write_string_some _ _ hcm, write_string_some _ _ hds,
      write_string_some _ _ hsrc, write_string_some _ _ hurl,
      write_string_some _ _ hurln, write_string_some _ _ hxt,
      write_positive_uint_pos _ _ hfx, write_positive_uint_pos _ _ hsat,
      write_positive_uint_pos _ _ hdg,
      write_wp_image, write_wp_image_direction, write_wp_symbol]
    simp only [renderToks_cons, renderSep, renderTok, Option.getD_none,
      hL0, hL1, hL2, hL3, hL4, hL5, hL6, hL7,
      hK0, hK1, hK2, hK3, hK4, hK5, hK6, hK7, hK8, hK9, hK10,
      Bool.false_eq_true, if_false, if_true,
      List.append_assoc, List.cons_append, List.nil_append, List.append_nil]

lemma renderTok_quoted_append (k e R : List Char) :
    renderTok ⟨k, .quoted e⟩ ++ R = k ++ '=' :: '"' :: (e ++ '"' :: R) := by
  rw [renderTok]
  simp

lemma renderTok_quoted_length (k e : List Char) :
    (renderTok ⟨k, .quoted e⟩).length = k.length + 3 + e.length := by
  rw [renderTok]
  simp
  omega

lemma stepTok_quoted (st : LineState) (k e : List Char) (ts : List TokSpec)
    (hk : k ≠ []) (hkeq : ∀ c ∈ k, c ≠ '=') (he : e ≠ [])
    (he0 : getCh e 0 ≠ '"') :
    stepToks st (⟨k, .quoted e⟩ :: ts)
      = stepToks (gpspoint_process_key_and_value st
          (k ++ '=' :: '"' :: (e ++ '"' :: renderSep ts)) k.length
          (some (e ++ '"' :: renderSep ts)) e.length) ts := by
  rw [stepToks, renderTok_quoted_append, renderTok_quoted_length,
    process_tag_quoted st k e _ hk hkeq he he0]

lemma take_len_append (a b : List Char) : (a ++ b).take a.length = a := by simp

lemma normChar_ne_quote {c : Char} (h : ¬ (c = '\\' ∨ c = '"')) :
    normChar c ≠ '"' := by
  unfold normChar
  split
  · decide
  · intro hq
    exact h (Or.inr hq)

lemma escSeq_slashdup (s : List Char) : EscSeq (slashdup s) := by
  induction s with
  | nil => exact EscSeq.nil
  | cons c rest ih =>
    by_cases hc : c = '\\' ∨ c = '"'
    · rw [slashdup, if_pos hc]
      exact EscSeq.esc c hc _ ih
    · rw [slashdup, if_neg hc]
      exact EscSeq.plain (normChar c)
        ⟨normChar_ne_backslash hc, normChar_ne_quote hc⟩ _ ih

lemma escSeq_of_no_special (e : List Char) (h : ∀ c ∈ e, c ≠ '\\' ∧ c ≠ '"') :
    EscSeq e := by
  induction e with
  | nil => exact EscSeq.nil
  | cons c rest ih =>
    exact EscSeq.plain c (h c (List.mem_cons_self c rest))
      _ (ih (fun d hd => h d (List.mem_cons_of_mem c hd)))

lemma getCh_mem (l : List Char) (i : Nat) (h : i < l.length) : getCh l i ∈ l := by
  unfold getCh
  rw [List.getD_eq_getElem l nulChar h]
  exact List.getElem_mem h

lemma bs_scan_no_bs (w : List Char) (h : ∀ c ∈ w, c ≠ '\\') :
    bs_scan w = (0, w.length) := by
  induction w with
  | nil => rfl
  | cons c rest ih =>
    rw [bs_scan_cons_ne (h c (List.mem_cons_self c rest)),
      ih (fun d hd => h d (List.mem_cons_of_mem c hd))]
    simp

lemma deslash_core_no_bs (w : List Char) (h : ∀ c ∈ w, c ≠ '\\') :
    deslash_core w false = w := by
  induction w with
  | nil => rfl
  | cons c rest ih =>
    rw [deslash_core, if_neg (by simp [h c (List.mem_cons_self c rest)])]
    rw [ih (fun d hd => h d (List.mem_cons_of_mem c hd))]

lemma deslashndup_plain (w r : List Char) (hw : w ≠ [])
    (hbs : ∀ c ∈ w, c ≠ '\\') (hlen : w.length < 65536) :
    deslashndup (w ++ r) w.length = some w := by
  simp only [deslashndup]
  have hmod : w.length % 65536 = w.length := Nat.mod_eq_of_lt hlen
  have hpos : 0 < w.length := List.length_pos.mpr hw
  rw [hmod, if_neg (by omega)]
  have hspan : (w ++ r).take w.length = w := by simp
  rw [hspan, bs_scan_no_bs w hbs]
  have hlast : getCh (w ++ r) (w.length - 1) ≠ '\\' := by
    rw [getCh_append_left w r (w.length - 1) (by omega)]
    exact hbs _ (getCh_mem w (w.length - 1) (by omega))
  rw [if_neg (by intro hcon; exact hlast hcon.1)]
  rw [deslash_core_no_bs w hbs]
  simp

lemma deslashndup_slashdup_append (s r : List Char) (hs : s ≠ [])
    (hlen : (slashdup s).length < 65536) :
    deslashndup (slashdup s ++ r) (slashdup s).length
      = some (s.map normChar) := by
  simp only [deslashndup]
  have hmod : (slashdup s).length % 65536 = (slashdup s).length :=
    Nat.mod_eq_of_lt hlen
  have hpos : 0 < (slashdup s).length := by
    rw [length_slashdup]
    have : 0 < s.length := List.length_pos.mpr hs
    omega
  rw [hmod, if_neg (by omega)]
  have hspan : (slashdup s ++ r).take (slashdup s).length = slashdup s := by simp
  rw [hspan, bs_scan_slashdup]
  have hno := slashdup_no_lone_trailing_bs s
  have hg1 : getCh (slashdup s ++ r) ((slashdup s).length - 1)
      = getCh (slashdup s) ((slashdup s).length - 1) :=
    getCh_append_left _ _ _ (by omega)
  have hg2 : getCh (slashdup s ++ r) ((slashdup s).length - 2)
      = getCh (slashdup s) ((slashdup s).length - 2) :=
    getCh_append_left _ _ _ (by omega)
  rw [if_neg (by rw [hg1, hg2]; exact hno)]
  rw [deslash_core_slashdup]
  have hnl : (slashdup s).length - escCount s = s.length := by
    rw [length_slashdup]; omega
  rw [hnl]
  simp

lemma head_ne_quote_of_num (l : List Char) (hne : l ≠ [])
    (h : ∀ c ∈ l, c_isdigit c = true ∨ c = '.' ∨ c = '-') :
    getCh l 0 ≠ '"' := by
  have hp : 0 < l.length := List.length_pos.mpr hne
  exact (numChar_not_special (h _ (getCh_mem l 0 hp))).2


lemma step_latitude (st : LineState) (ts : List TokSpec) (e : List Char)
    (he : e ≠ []) (he0 : getCh e 0 ≠ '"') :
    stepToks st (⟨("latitude").toList, .quoted e⟩ :: ts)
      = stepToks { st with line_latlon := ⟨g_ascii_strtod (e ++ '"' :: renderSep ts), st.line_latlon.lon⟩ } ts := by
  rw [stepTok_quoted st (("latitude").toList) e ts (by decide) (by decide) he he0,
    pkv_latitude]

lemma step_longitude (st : LineState) (ts : List TokSpec) (e : List Char)
    (he : e ≠ []) (he0 : getCh e 0 ≠ '"') :
    stepToks st (⟨("longitude").toList, .quoted e⟩ :: ts)
      = stepToks { st with line_latlon := ⟨st.line_latlon.lat, g_ascii_strtod (e ++ '"' :: renderSep ts)⟩ } ts := by
  rw [stepTok_quoted st (("longitude").toList) e ts (by decide) (by decide) he he0,
    pkv_longitude]

lemma step_unixtime (st : LineState) (ts : List TokSpec) (e : List Char)
    (he : e ≠ []) (he0 : getCh e 0 ≠ '"') :
    stepToks st (⟨("unixtime").toList, .quoted e⟩ :: ts)
      = stepToks { st with line_timestamp := some (g_ascii_strtod (e ++ '"' :: renderSep ts)) } ts := by
  rw [stepTok_quoted st (("unixtime").toList) e ts (by decide) (by decide) he he0,
    pkv_unixtime]

lemma step_altitude (st : LineState) (ts : List TokSpec) (e : List Char)
    (he : e ≠ []) (he0 : getCh e 0 ≠ '"') :
    stepToks st (⟨("altitude").toList, .quoted e⟩ :: ts)
      = stepToks { st with line_altitude := some (g_ascii_strtod (e ++ '"' :: renderSep ts)) } ts := by
  rw [stepTok_quoted st (("altitude").toList) e ts (by decide) (by decide) he he0,
    pkv_altitude]

lemma step_number (st : LineState) (ts : List TokSpec) (e : List Char)
    (he : e ≠ []) (he0 : getCh e 0 ≠ '"') :
    stepToks st (⟨("number").toList, .quoted e⟩ :: ts)
      = stepToks { st with line_number := intToGuint (c_atoi (e ++ '"' :: renderSep ts)) } ts := by
  rw [stepTok_quoted st (("number").toList) e ts (by decide) (by decide) he he0,
    pkv_number]

lemma step_draw_name_mode (st : LineState) (ts : List TokSpec) (e : List Char)
    (he : e ≠ []) (he0 : getCh e 0 ≠ '"') :
    stepToks st (⟨("draw_name_mode").toList, .quoted e⟩ :: ts)
      = stepToks { st with line_name_label := c_atoi (e ++ '"' :: renderSep ts) } ts := by
  rw [stepTok_quoted st (("draw_name_mode").toList) e ts (by decide) (by decide) he he0,
    pkv_draw_name_mode]

lemma step_number_dist_labels (st : LineState) (ts : List TokSpec) (e : List Char)
    (he : e ≠ []) (he0 : getCh e 0 ≠ '"') :
    stepToks st (⟨("number_dist_labels").toList, .quoted e⟩ :: ts)
      = stepToks { st with line_dist_label := c_atoi (e ++ '"' :: renderSep ts) } ts := by
  rw [stepTok_quoted st (("number_dist_labels").toList) e ts (by decide) (by decide) he he0,
    pkv_number_dist_labels]

lemma step_image_direction (st : LineState) (ts : List TokSpec) (e : List Char)
    (he : e ≠ []) (he0 : getCh e 0 ≠ '"') :
    stepToks st (⟨("image_direction").toList, .quoted e⟩ :: ts)
      = stepToks { st with line_image_direction := some (g_ascii_strtod (e ++ '"' :: renderSep ts)) } ts := by
  rw [stepTok_quoted st (("image_direction").toList) e ts (by decide) (by decide) he he0,
    pkv_image_direction]

lemma step_image_direction_ref (st : LineState) (ts : List TokSpec) (e : List Char)
    (he : e ≠ []) (he0 : getCh e 0 ≠ '"') :
    stepToks st (⟨("image_direction_ref").toList, .quoted e⟩ :: ts)
      = stepToks { st with line_image_direction_ref := c_atoi (e ++ '"' :: renderSep ts) } ts := by
  rw [stepTok_quoted st (("image_direction_ref").toList) e ts (by decide) (by decide) he he0,
    pkv_image_direction_ref]

lemma step_symbol (st : LineState) (ts : List TokSpec) (e : List Char)
    (he : e ≠ []) (he0 : getCh e 0 ≠ '"') :
    stepToks st (⟨("symbol").toList, .quoted e⟩ :: ts)
      = stepToks { st with line_symbol := some e } ts := by
  rw [stepTok_quoted st (("symbol").toList) e ts (by decide) (by decide) he he0,
    pkv_symbol,
    take_len_append]

lemma step_newsegment (st : LineState) (ts : List TokSpec) (e : List Char)
    (he : e ≠ []) (he0 : getCh e 0 ≠ '"') :
    stepToks st (⟨("newsegment").toList, .quoted e⟩ :: ts)
      = stepToks { st with line_newsegment := true } ts := by
  rw [stepTok_quoted st (("newsegment").toList) e ts (by decide) (by decide) he he0,
    pkv_newsegment]

lemma step_extended (st : LineState) (ts : List TokSpec) (e : List Char)
    (he : e ≠ []) (he0 : getCh e 0 ≠ '"') :
    stepToks st (⟨("extended").toList, .quoted e⟩ :: ts)
      = stepToks { st with line_extended := true } ts := by
  rw [stepTok_quoted st (("extended").toList) e ts (by decide) (by decide) he he0,
    pkv_extended]

lemma step_speed (st : LineState) (ts : List TokSpec) (e : List Char)
    (he : e ≠ []) (he0 : getCh e 0 ≠ '"') :
    stepToks st (⟨("speed").toList, .quoted e⟩ :: ts)
      = stepToks { st with line_speed := some (g_ascii_strtod (e ++ '"' :: renderSep ts)) } ts := by
  rw [stepTok_quoted st (("speed").toList) e ts (by decide) (by decide) he he0,
    pkv_speed]

lemma step_course (st : LineState) (ts : List TokSpec) (e : List Char)
    (he : e ≠ []) (he0 : getCh e 0 ≠ '"') :
    stepToks st (⟨("course").toList, .quoted e⟩ :: ts)
      = stepToks { st with line_course := some (g_ascii_strtod (e ++ '"' :: renderSep ts)) } ts := by
  rw [stepTok_quoted st (("course").toList) e ts (by decide) (by decide) he he0,
    pkv_course]

lemma step_sat (st : LineState) (ts : List TokSpec) (e : List Char)
    (he : e ≠ []) (he0 : getCh e 0 ≠ '"') :
    stepToks st (⟨("sat").toList, .quoted e⟩ :: ts)
      = stepToks { st with line_sat := intToGuint (c_atoi (e ++ '"' :: renderSep ts)) } ts := by
  rw [stepTok_quoted st (("sat").toList) e ts (by decide) (by decide) he he0,
    pkv_sat]

lemma step_fix (st : LineState) (ts : List TokSpec) (e : List Char)
    (he : e ≠ []) (he0 : getCh e 0 ≠ '"') :
    stepToks st (⟨("fix").toList, .quoted e⟩ :: ts)
      = stepToks { st with line_fix := intToGuint (c_atoi (e ++ '"' :: renderSep ts)) } ts := by
  rw [stepTok_quoted st (("fix").toList) e ts (by decide) (by decide) he he0,
    pkv_fix]

lemma step_hdop (st : LineState) (ts : List TokSpec) (e : List Char)
    (he : e ≠ []) (he0 : getCh e 0 ≠ '"') :
    stepToks st (⟨("hdop").toList, .quoted e⟩ :: ts)
      = stepToks { st with line_hdop := some (g_ascii_strtod (e ++ '"' :: renderSep ts)) } ts := by
  rw [stepTok_quoted st (("hdop").toList) e ts (by decide) (by decide) he he0,
    pkv_hdop]

lemma step_vdop (st : LineState) (ts : List TokSpec) (e : List Char)
    (he : e ≠ []) (he0 : getCh e 0 ≠ '"') :
    stepToks st (⟨("vdop").toList, .quoted e⟩ :: ts)
      = stepToks { st with line_vdop := some (g_ascii_strtod (e ++ '"' :: renderSep ts)) } ts := by
  rw [stepTok_quoted st (("vdop").toList) e ts (by decide) (by decide) he he0,
    pkv_vdop]

lemma step_pdop (st : LineState) (ts : List TokSpec) (e : List Char)
    (he : e ≠ []) (he0 : getCh e 0 ≠ '"') :
    stepToks st (⟨("pdop").toList, .quoted e⟩ :: ts)
      = stepToks { st with line_pdop := some (g_ascii_strtod (e ++ '"' :: renderSep ts)) } ts := by
  rw [stepTok_quoted st (("pdop").toList) e ts (by decide) (by decide) he he0,
    pkv_pdop]

lemma step_magvar (st : LineState) (ts : List TokSpec) (e : List Char)
    (he : e ≠ []) (he0 : getCh e 0 ≠ '"') :
    stepToks st (⟨("magvar").toList, .quoted e⟩ :: ts)
      = stepToks { st with line_magvar := some (g_ascii_strtod (e ++ '"' :: renderSep ts)) } ts := by
  rw [stepTok_quoted st (("magvar").toList) e ts (by decide) (by decide) he he0,
    pkv_magvar]

lemma step_geoidheight (st : LineState) (ts : List TokSpec) (e : List Char)
    (he : e ≠ []) (he0 : getCh e 0 ≠ '"') :
    stepToks st (⟨("geoidheight").toList, .quoted e⟩ :: ts)
      = stepToks { st with line_geoidheight := some (g_ascii_strtod (e ++ '"' :: renderSep ts)) } ts := by
  rw [stepTok_quoted st (("geoidheight").toList) e ts (by decide) (by decide) he he0,
    pkv_geoidheight]

lemma step_url (st : LineState) (ts : List TokSpec) (e : List Char)
    (he : e ≠ []) (he0 : getCh e 0 ≠ '"') :
    stepToks st (⟨("url").toList, .quoted e⟩ :: ts)
      = stepToks { st with line_url := deslashndup (e ++ '"' :: renderSep ts) e.length } ts := by
  rw [stepTok_quoted st (("url").toList) e ts (by decide) (by decide) he he0,
    pkv_url]

lemma step_url_name (st : LineState) (ts : List TokSpec) (e : List Char)
    (he : e ≠ []) (he0 : getCh e 0 ≠ '"') :
    stepToks st (⟨("url_name").toList, .quoted e⟩ :: ts)
      = stepToks { st with line_url_name := deslashndup (e ++ '"' :: renderSep ts) e.length } ts := by
  rw [stepTok_quoted st (("url_name").toList) e ts (by decide) (by decide) he he0,
    pkv_url_name]

lemma step_ageofdgpsdata (st : LineState) (ts : List TokSpec) (e : List Char)
    (he : e ≠ []) (he0 : getCh e 0 ≠ '"') :
    stepToks st (⟨("ageofdgpsdata").toList, .quoted e⟩ :: ts)
      = stepToks { st with line_ageofdgpsdata := some (g_ascii_strtod (e ++ '"' :: renderSep ts)) } ts := by
  rw [stepTok_quoted st (("ageofdgpsdata").toList) e ts (by decide) (by decide) he he0,
    pkv_ageofdgpsdata]

lemma step_dgpsid (st : LineState) (ts : List TokSpec) (e : List Char)
    (he : e ≠ []) (he0 : getCh e 0 ≠ '"') :
    stepToks st (⟨("dgpsid").toList, .quoted e⟩ :: ts)
      = stepToks { st with line_dgpsid := intToGuint (c_atoi (e ++ '"' :: renderSep ts)) } ts := by
  rw [stepTok_quoted st (("dgpsid").toList) e ts (by decide) (by decide) he he0,
    pkv_dgpsid]

lemma step_name (st : LineState) (ts : List TokSpec) (e : List Char)
    (he : e ≠ []) (he0 : getCh e 0 ≠ '"') (hg : st.line_name = none) :
    stepToks st (⟨("name").toList, .quoted e⟩ :: ts)
      = stepToks
        { st with line_name := (deslashndup (e ++ '"' :: renderSep ts) e.length) }
        ts := by
  rw [stepTok_quoted st (("name").toList) e ts (by decide) (by decide) he he0,
    pkv_name _ _ _ _ hg]

lemma step_comment (st : LineState) (ts : List TokSpec) (e : List Char)
    (he : e ≠ []) (he0 : getCh e 0 ≠ '"') (hg : st.line_comment = none) :
    stepToks st (⟨("comment").toList, .quoted e⟩ :: ts)
      = stepToks
        { st with line_comment := (deslashndup (e ++ '"' :: renderSep ts) e.length) }
        ts := by
  rw [stepTok_quoted st (("comment").toList) e ts (by decide) (by decide) he he0,
    pkv_comment _ _ _ _ hg]

lemma step_description (st : LineState) (ts : List TokSpec) (e : List Char)
    (he : e ≠ []) (he0 : getCh e 0 ≠ '"') (hg : st.line_description = none) :
    stepToks st (⟨("description").toList, .quoted e⟩ :: ts)
      = stepToks
        { st with line_description := (deslashndup (e ++ '"' :: renderSep ts) e.length) }
        ts := by
  rw [stepTok_quoted st (("description").toList) e ts (by decide) (by decide) he he0,
    pkv_description _ _ _ _ hg]

lemma step_source (st : LineState) (ts : List TokSpec) (e : List Char)
    (he : e ≠ []) (he0 : getCh e 0 ≠ '"') (hg : st.line_source = none) :
    stepToks st (⟨("source").toList, .quoted e⟩ :: ts)
      = stepToks
        { st with line_source := (deslashndup (e ++ '"' :: renderSep ts) e.length) }
        ts := by
  rw [stepTok_quoted st (("source").toList) e ts (by decide) (by decide) he he0,
    pkv_source _ _ _ _ hg]

lemma step_xtype (st : LineState) (ts : List TokSpec) (e : List Char)
    (he : e ≠ []) (he0 : getCh e 0 ≠ '"') (hg : st.line_xtype = none) :
    stepToks st (⟨("xtype").toList, .quoted e⟩ :: ts)
      = stepToks
        { st with line_xtype := (deslashndup (e ++ '"' :: renderSep ts) e.length) }
        ts := by
  rw [stepTok_quoted st (("xtype").toList) e ts (by decide) (by decide) he he0,
    pkv_xtype _ _ _ _ hg]

lemma step_color (st : LineState) (ts : List TokSpec) (e : List Char)
    (he : e ≠ []) (he0 : getCh e 0 ≠ '"') (hg : st.line_color = none) :
    stepToks st (⟨("color").toList, .quoted e⟩ :: ts)
      = stepToks
        { st with line_color := (deslashndup (e ++ '"' :: renderSep ts) e.length) }
        ts := by
  rw [stepTok_quoted st (("color").toList) e ts (by decide) (by decide) he he0,
    pkv_color _ _ _ _ hg]

lemma step_image (st : LineState) (ts : List TokSpec) (e : List Char)
    (he : e ≠ []) (he0 : getCh e 0 ≠ '"') (hg : st.line_image = none) :
    stepToks st (⟨("image").toList, .quoted e⟩ :: ts)
      = stepToks
        { st with line_image := (deslashndup (e ++ '"' :: renderSep ts) e.length) }
        ts := by
  rw [stepTok_quoted st (("image").toList) e ts (by decide) (by decide) he he0,
    pkv_image _ _ _ _ hg]

lemma step_type_waypoint (st : LineState) (ts : List TokSpec) :
    stepToks st (⟨("type").toList, .quoted (("waypoint").toList)⟩ :: ts)
      = stepToks { st with line_type := GPSPOINT_TYPE_WAYPOINT } ts := by
  rw [stepTok_quoted st (("type").toList) (("waypoint").toList) ts (by decide)
    (by decide) (by decide) (by decide), pkv_type_waypoint]

lemma step_type_track (st : LineState) (ts : List TokSpec) :
    stepToks st (⟨("type").toList, .quoted (("track").toList)⟩ :: ts)
      = stepToks { st with line_type := GPSPOINT_TYPE_TRACK } ts := by
  rw [stepTok_quoted st (("type").toList) (("track").toList) ts (by decide)
    (by decide) (by decide) (by decide), pkv_type_track]

lemma step_type_route (st : LineState) (ts : List TokSpec) :
    stepToks st (⟨("type").toList, .quoted (("route").toList)⟩ :: ts)
      = stepToks { st with line_type := GPSPOINT_TYPE_ROUTE } ts := by
  rw [stepTok_quoted st (("type").toList) (("route").toList) ts (by decide)
    (by decide) (by decide) (by decide), pkv_type_route]

lemma step_type_trackpoint (st : LineState) (ts : List TokSpec) :
    stepToks st (⟨("type").toList, .quoted (("trackpoint").toList)⟩ :: ts)
      = stepToks { st with line_type := GPSPOINT_TYPE_TRACKPOINT } ts := by
  rw [stepTok_quoted st (("type").toList) (("trackpoint").toList) ts (by decide)
    (by decide) (by decide) (by decide), pkv_type_trackpoint]

lemma step_type_routepoint (st : LineState) (ts : List TokSpec) :
    stepToks st (⟨("type").toList, .quoted (("routepoint").toList)⟩ :: ts)
      = stepToks { st with line_type := GPSPOINT_TYPE_ROUTEPOINT } ts := by
  rw [stepTok_quoted st (("type").toList) (("routepoint").toList) ts (by decide)
    (by decide) (by decide) (by decide), pkv_type_routepoint]

lemma step_type_trackend (st : LineState) (ts : List TokSpec) :
    stepToks st (⟨("type").toList, .quoted (("trackend").toList)⟩ :: ts)
      = stepToks { st with line_type := GPSPOINT_TYPE_TRACK_END } ts := by
  rw [stepTok_quoted st (("type").toList) (("trackend").toList) ts (by decide)
    (by decide) (by decide) (by decide), pkv_type_trackend]

lemma step_type_routeend (st : LineState) (ts : List TokSpec) :
    stepToks st (⟨("type").toList, .quoted (("routeend").toList)⟩ :: ts)
      = stepToks { st with line_type := GPSPOINT_TYPE_ROUTE_END } ts := by
  rw [stepTok_quoted st (("type").toList) (("routeend").toList) ts (by decide)
    (by decide) (by decide) (by decide), pkv_type_routeend]

lemma step_type_waypointlist (st : LineState) (ts : List TokSpec) :
    stepToks st (⟨("type").toList, .quoted (("waypointlist").toList)⟩ :: ts)
      = stepToks { st with line_type := GPSPOINT_TYPE_NONE } ts := by
  rw [stepTok_quoted st (("type").toList) (("waypointlist").toList) ts (by decide)
    (by decide) (by decide) (by decide), pkv_type_waypointlist]

lemma step_type_waypointlistend (st : LineState) (ts : List TokSpec) :
    stepToks st (⟨("type").toList, .quoted (("waypointlistend").toList)⟩ :: ts)
      = stepToks { st with line_type := GPSPOINT_TYPE_NONE } ts := by
  rw [stepTok_quoted st (("type").toList) (("waypointlistend").toList) ts (by decide)
    (by decide) (by decide) (by decide), pkv_type_waypointlistend]

lemma step_visible_n (st : LineState) (ts : List TokSpec) :
    stepToks st (⟨("visible").toList, .quoted (("n").toList)⟩ :: ts)
      = stepToks { st with line_visible := false } ts := by
  rw [stepTok_quoted st (("visible").toList) (("n").toList) ts (by decide)
    (by decide) (by decide) (by decide), pkv_visible_n]

lemma stepToks_nil (st : LineState) : stepToks st [] = st := rfl

lemma escCount_le (s : List Char) : escCount s ≤ s.length := by
  induction s with
  | nil => simp [escCount]
  | cons c rest ih =>
    rw [escCount]
    split <;> simp <;> omega

lemma wfString_slashdup_lt (s : List Char) (h : wfString s) :
    (slashdup s).length < 65536 := by
  rw [length_slashdup]
  have h1 := h.2.1
  have h2 := escCount_le s
  omega

lemma wfString_no_nlcr (s : List Char) (h : wfString s) :
    ∀ c ∈ s, c ≠ '\n' ∧ c ≠ '\r' :=
  fun c hc => ⟨(h.2.2 c hc).2.1, (h.2.2 c hc).2.2⟩

lemma num_head_ne_quote_d (q : ℚ) : getCh (a_coords_dtostr q) 0 ≠ '"' :=
  head_ne_quote_of_num _ (a_coords_dtostr_ne_nil q) (a_coords_dtostr_chars q)

lemma num_head_ne_quote_f2 (q : ℚ) : getCh (util_formatd2 q) 0 ≠ '"' :=
  head_ne_quote_of_num _ (util_formatd2_ne_nil q) (util_formatd2_chars q)

lemma intToChars_head_ne_quote (i : Int) : getCh (intToChars i) 0 ≠ '"' :=
  head_ne_quote_of_num _ (intToChars_ne_nil i)
    (fun c hc => (intToChars_chars i c hc).elim Or.inl (fun h => Or.inr (Or.inr h)))

lemma guintPrintfD_ne_nil (v : Nat) : guintPrintfD v ≠ [] := by
  unfold guintPrintfD
  exact intToChars_ne_nil _

lemma guintPrintfD_head_ne_quote (v : Nat) : getCh (guintPrintfD v) 0 ≠ '"' := by
  unfold guintPrintfD
  exact intToChars_head_ne_quote _

lemma slashdup_head_ne_quote (s : List Char) (h : s ≠ []) :
    getCh (slashdup s) 0 ≠ '"' :=
  escSeq_head_ne_quote (escSeq_slashdup s) (slashdup_ne_nil s h)

lemma deslash_roundtrip (s : List Char) (h : wfString s) (r : List Char) :
    deslashndup (slashdup s ++ r) (slashdup s).length = some s := by
  rw [deslashndup_slashdup_append s r h.1 (wfString_slashdup_lt s h),
    map_normChar_id s (wfString_no_nlcr s h)]

lemma quote_head_not_digit (R : List Char) :
    c_isdigit (getCh ('"' :: R) 0) = false := rfl

lemma dtostr_strtod_q (q : ℚ) (hq : wfQ6 q) (R : List Char) :
    g_ascii_strtod (a_coords_dtostr q ++ '"' :: R) = q :=
  dtostr_strtod q hq _ (quote_head_not_digit R)

lemma formatd2_strtod_q (q : ℚ) (hq : wfQ2 q) (R : List Char) :
    g_ascii_strtod (util_formatd2 q ++ '"' :: R) = q :=
  formatd2_strtod q hq _ (quote_head_not_digit R)

lemma atoi_guintPrintfD_q (n : Nat) (h : n < 2 ^ 31) (R : List Char) :
    intToGuint (c_atoi (guintPrintfD n ++ '"' :: R)) = n :=
  atoi_guintPrintfD n h _ (quote_head_not_digit R)

lemma c_atoi_intToChars_q (i : Int) (R : List Char) :
    c_atoi (intToChars i ++ '"' :: R) = i :=
  c_atoi_intToChars i _ (quote_head_not_digit R)

set_option maxRecDepth 4000 in
set_option maxHeartbeats 2000000 in
lemma wp_line_state (ll : LatLon)
    (lat lon ts alt sp crs mg gh hd vd pd age dir : ℚ)
    (nm cm ds srcl url urln xt im sy : List Char) (fx sat dg : Nat)
    (ref : Int) (vts : List TokSpec)
    (hlat : wfQ6 lat) (hlon : wfQ6 lon) (hts : wfQ6 ts) (halt : wfQ6 alt)
    (hsp : wfQ6 sp) (hcrs : wfQ6 crs) (hmg : wfQ6 mg) (hgh : wfQ6 gh)
    (hhd : wfQ6 hd) (hvd : wfQ6 vd) (hpd : wfQ6 pd) (hage : wfQ6 age)
    (hdir : wfQ2 dir)
    (hnm : wfString nm) (hcm : wfString cm) (hds : wfString ds)
    (hsrc : wfString srcl) (hurl : wfString url) (hurln : wfString urln)
    (hxt : wfString xt) (him : wfString im)
    (hsy : sy ≠ []) (hsy0 : getCh sy 0 ≠ '"')
    (hfx : fx < 2 ^ 31) (hsat : sat < 2 ^ 31) (hdg : dg < 2 ^ 31) :
    stepToks (resetState ll)
      (⟨("type").toList, .quoted (("waypoint").toList)⟩ ::
      ⟨("latitude").toList, .quoted (a_coords_dtostr lat)⟩ ::
      ⟨("longitude").toList, .quoted (a_coords_dtostr lon)⟩ ::
      ⟨("name").toList, .quoted (slashdup nm)⟩ ::
      ⟨("altitude").toList, .quoted (a_coords_dtostr alt)⟩ ::
      ⟨("unixtime").toList, .quoted (a_coords_dtostr ts)⟩ ::
      ⟨("speed").toList, .quoted (a_coords_dtostr sp)⟩ ::
      ⟨("course").toList, .quoted (a_coords_dtostr crs)⟩ ::
      ⟨("magvar").toList, .quoted (a_coords_dtostr mg)⟩ ::
      ⟨("geoidheight").toList, .quoted (a_coords_dtostr gh)⟩ ::
      ⟨("comment").toList, .quoted (slashdup cm)⟩ ::
      ⟨("description").toList, .quoted (slashdup ds)⟩ ::
      ⟨("source").toList, .quoted (slashdup srcl)⟩ ::
      ⟨("url").toList, .quoted (slashdup url)⟩ ::
      ⟨("url_name").toList, .quoted (slashdup urln)⟩ ::
      ⟨("xtype").toList, .quoted (slashdup xt)⟩ ::
      ⟨("fix").toList, .quoted (guintPrintfD fx)⟩ ::
      ⟨("sat").toList, .quoted (guintPrintfD sat)⟩ ::
      ⟨("hdop").toList, .quoted (a_coords_dtostr hd)⟩ ::
      ⟨("vdop").toList, .quoted (a_coords_dtostr vd)⟩ ::
      ⟨("pdop").toList, .quoted (a_coords_dtostr pd)⟩ ::
      ⟨("ageofdgpsdata").toList, .quoted (a_coords_dtostr age)⟩ ::
      ⟨("dgpsid").toList, .quoted (guintPrintfD dg)⟩ ::
      ⟨("image").toList, .quoted (slashdup im)⟩ ::
      ⟨("image_direction").toList, .quoted (util_formatd2 dir)⟩ ::
      ⟨("image_direction_ref").toList, .quoted (intToChars ref)⟩ ::
      ⟨("symbol").toList, .quoted sy⟩ :: vts)
      = stepToks
        { line_type := GPSPOINT_TYPE_WAYPOINT
          line_latlon := ⟨lat, lon⟩
          line_name := some nm
          line_comment := some cm
          line_description := some ds
          line_source := some srcl
          line_number := 0
          line_xtype := some xt
          line_color := none
          line_name_label := 0
          line_dist_label := 0
          line_image := some im
          line_symbol := some sy
          line_url := some url
          line_url_name := some urln
          line_image_direction := some dir
          line_image_direction_ref := ref
          line_newsegment := false
          line_timestamp := some ts
          line_altitude := some alt
          line_visible := true
          line_extended := false
          line_speed := some sp
          line_course := some crs
          line_magvar := some mg
          line_geoidheight := some gh
          line_sat := sat
          line_fix := fx
          line_hdop := some hd
          line_vdop := some vd
          line_pdop := some pd
          line_ageofdgpsdata := some age
          line_dgpsid := dg }
        vts := by
  rw [step_type_waypoint]
  rw [step_latitude _ _ _ (a_coords_dtostr_ne_nil lat) (num_head_ne_quote_d lat)]
  rw [step_longitude _ _ _ (a_coords_dtostr_ne_nil lon) (num_head_ne_quote_d lon)]
  rw [step_name _ _ _ (slashdup_ne_nil nm hnm.1) (slashdup_head_ne_quote nm hnm.1) rfl]
  rw [step_altitude _ _ _ (a_coords_dtostr_ne_nil alt) (num_head_ne_quote_d alt)]
  rw [step_unixtime _ _ _ (a_coords_dtostr_ne_nil ts) (num_head_ne_quote_d ts)]
  rw [step_speed _ _ _ (a_coords_dtostr_ne_nil sp) (num_head_ne_quote_d sp)]
  rw [step_course _ _ _ (a_coords_dtostr_ne_nil crs) (num_head_ne_quote_d crs)]
  rw [step_magvar _ _ _ (a_coords_dtostr_ne_nil mg) (num_head_ne_quote_d mg)]
  rw [step_geoidheight _ _ _ (a_coords_dtostr_ne_nil gh) (num_head_ne_quote_d gh)]
  rw [step_comment _ _ _ (slashdup_ne_nil cm hcm.1) (slashdup_head_ne_quote cm hcm.1) rfl]
  rw [step_description _ _ _ (slashdup_ne_nil ds hds.1) (slashdup_head_ne_quote ds hds.1) rfl]
  rw [step_source _ _ _ (slashdup_ne_nil srcl hsrc.1) (slashdup_head_ne_quote srcl hsrc.1) rfl]
  rw [step_url _ _ _ (slashdup_ne_nil url hurl.1) (slashdup_head_ne_quote url hurl.1)]
  rw [step_url_name _ _ _ (slashdup_ne_nil urln hurln.1) (slashdup_head_ne_quote urln hurln.1)]
  rw [step_xtype _ _ _ (slashdup_ne_nil xt hxt.1) (slashdup_head_ne_quote xt hxt.1) rfl]
  rw [step_fix _ _ _ (guintPrintfD_ne_nil fx) (guintPrintfD_head_ne_quote fx)]
  rw [step_sat _ _ _ (guintPrintfD_ne_nil sat) (guintPrintfD_head_ne_quote sat)]
  rw [step_hdop _ _ _ (a_coords_dtostr_ne_nil hd) (num_head_ne_quote_d hd)]
  rw [step_vdop _ _ _ (a_coords_dtostr_ne_nil vd) (num_head_ne_quote_d vd)]
  rw [step_pdop _ _ _ (a_coords_dtostr_ne_nil pd) (num_head_ne_quote_d pd)]
  rw [step_ageofdgpsdata _ _ _ (a_coords_dtostr_ne_nil age) (num_head_ne_quote_d age)]
  rw [step_dgpsid _ _ _ (guintPrintfD_ne_nil dg) (guintPrintfD_head_ne_quote dg)]
  rw [step_image _ _ _ (slashdup_ne_nil im him.1) (slashdup_head_ne_quote im him.1) rfl]
  rw [step_image_direction _ _ _ (util_formatd2_ne_nil dir) (num_head_ne_quote_f2 dir)]
  rw [step_image_direction_ref _ _ _ (intToChars_ne_nil ref) (intToChars_head_ne_quote ref)]
  rw [step_symbol _ _ _ hsy hsy0]
  simp only [dtostr_strtod_q lat hlat, dtostr_strtod_q lon hlon,
    dtostr_strtod_q alt halt, dtostr_strtod_q ts hts,
    dtostr_strtod_q sp hsp, dtostr_strtod_q crs hcrs,
    dtostr_strtod_q mg hmg, dtostr_strtod_q gh hgh,
    dtostr_strtod_q hd hhd, dtostr_strtod_q vd hvd,
    dtostr_strtod_q pd hpd, dtostr_strtod_q age hage,
    formatd2_strtod_q dir hdir,
    deslash_roundtrip nm hnm, deslash_roundtrip cm hcm,
    deslash_roundtrip ds hds, deslash_roundtrip srcl hsrc,
    deslash_roundtrip url hurl, deslash_roundtrip urln hurln,
    deslash_roundtrip xt hxt, deslash_roundtrip im him,
    atoi_guintPrintfD_q fx hfx, atoi_guintPrintfD_q sat hsat,
    atoi_guintPrintfD_q dg hdg, c_atoi_intToChars_q ref]
  rfl

lemma trackpoints_end_set_ls (s : ReadState) (ls2 : LineState) :
    trackpoints_end { s with ls := ls2 } = { trackpoints_end s with ls := ls2 } := by
  unfold trackpoints_end
  repeat' split
  all_goals first | rfl | (rename_i h1 _ h2; simp_all) | simp_all

lemma util_abs_id (im : List Char) (dirpath : Option (List Char))
    (h : getCh im 0 = '/') :
    (util_make_absolute_filename im dirpath).getD im = im := by
  unfold util_make_absolute_filename
  rw [if_pos h]
  rfl

lemma tokGood_quoted (k e : List Char) (hk : k ≠ [])
    (hkc : ∀ c ∈ k, plainTokChar c ∧ c ≠ '=' ∧ c ≠ '#') (hesc : EscSeq e)
    (hne : e ≠ []) (hnl : ∀ c ∈ e, c ≠ '\n') : TokGood ⟨k, .quoted e⟩ :=
  ⟨hk, hkc, hesc, hne, hnl⟩

lemma numChar_ne_newline {c : Char}
    (h : c_isdigit c = true ∨ c = '.' ∨ c = '-') : c ≠ '\n' := by
  rcases h with h | rfl | rfl
  · intro hh
    subst hh
    exact absurd h (by decide)
  · decide
  · decide

lemma normChar_ne_newline (c : Char) : normChar c ≠ '\n' := by
  unfold normChar
  split
  · decide
  · rename_i h
    intro hh
    exact h (Or.inl hh)

lemma slashdup_no_newline (s : List Char) : ∀ c ∈ slashdup s, c ≠ '\n' := by
  induction s with
  | nil => simp [slashdup]
  | cons c rest ih =>
    intro d hd
    rw [slashdup] at hd
    split at hd
    · rcases List.mem_cons.mp hd with rfl | hd2
      · decide
      · rcases List.mem_cons.mp hd2 with rfl | hd3
        · rename_i hc
          rcases hc with rfl | rfl <;> decide
        · exact ih d hd3
    · rcases List.mem_cons.mp hd with rfl | hd2
      · exact normChar_ne_newline c
      · exact ih d hd2

lemma tokGood_dtostr (k : List Char) (q : ℚ) (hk : k ≠ [])
    (hkc : ∀ c ∈ k, plainTokChar c ∧ c ≠ '=' ∧ c ≠ '#') :
    TokGood ⟨k, .quoted (a_coords_dtostr q)⟩ :=
  tokGood_quoted k _ hk hkc
    (escSeq_of_no_special _ (fun c hc => numChar_not_special (a_coords_dtostr_chars q c hc)))
    (a_coords_dtostr_ne_nil q)
    (fun c hc => numChar_ne_newline (a_coords_dtostr_chars q c hc))

lemma tokGood_formatd2 (k : List Char) (q : ℚ) (hk : k ≠ [])
    (hkc : ∀ c ∈ k, plainTokChar c ∧ c ≠ '=' ∧ c ≠ '#') :
    TokGood ⟨k, .quoted (util_formatd2 q)⟩ :=
  tokGood_quoted k _ hk hkc
    (escSeq_of_no_special _ (fun c hc => numChar_not_special (util_formatd2_chars q c hc)))
    (util_formatd2_ne_nil q)
    (fun c hc => numChar_ne_newline (util_formatd2_chars q c hc))

lemma intToChars_chars3 (i : Int) :
    ∀ c ∈ intToChars i, c_isdigit c = true ∨ c = '.' ∨ c = '-' :=
  fun c hc => (intToChars_chars i c hc).elim Or.inl (fun h => Or.inr (Or.inr h))

lemma tokGood_intToChars (k : List Char) (i : Int) (hk : k ≠ [])
    (hkc : ∀ c ∈ k, plainTokChar c ∧ c ≠ '=' ∧ c ≠ '#') :
    TokGood ⟨k, .quoted (intToChars i)⟩ :=
  tokGood_quoted k _ hk hkc
    (escSeq_of_no_special _ (fun c hc => numChar_not_special (intToChars_chars3 i c hc)))
    (intToChars_ne_nil i)
    (fun c hc => numChar_ne_newline (intToChars_chars3 i c hc))

lemma tokGood_guintPrintfD (k : List Char) (v : Nat) (hk : k ≠ [])
    (hkc : ∀ c ∈ k, plainTokChar c ∧ c ≠ '=' ∧ c ≠ '#') :
    TokGood ⟨k, .quoted (guintPrintfD v)⟩ := by
  unfold guintPrintfD
  exact tokGood_intToChars k _ hk hkc

lemma tokGood_slashdup (k s : List Char) (hk : k ≠ [])
    (hkc : ∀ c ∈ k, plainTokChar c ∧ c ≠ '=' ∧ c ≠ '#') (hs : s ≠ []) :
    TokGood ⟨k, .quoted (slashdup s)⟩ :=
  tokGood_quoted k _ hk hkc (escSeq_slashdup s) (slashdup_ne_nil s hs)
    (slashdup_no_newline s)

lemma wp_commit (dirpath : Option (List Char)) (s : ReadState) (F : LineState)
    (lat lon ts alt sp crs mg gh hd vd pd age dir : ℚ)
    (nm cm ds srcl url urln xt im sy : List Char) (fx sat dg : Nat)
    (ref : Int) (vis : Bool)
    (hty : F.line_type = GPSPOINT_TYPE_WAYPOINT)
    (hll : F.line_latlon = ⟨lat, lon⟩)
    (hnm : F.line_name = some nm) (hcm : F.line_comment = some cm)
    (hds : F.line_description = some ds) (hsrc : F.line_source = some srcl)
    (hxt : F.line_xtype = some xt)
    (hurl : F.line_url = some url) (hurln : F.line_url_name = some urln)
    (him : F.line_image = some im)
    (hdir : F.line_image_direction = some dir)
    (href : F.line_image_direction_ref = ref)
    (hsy : F.line_symbol = some sy)
    (hts : F.line_timestamp = some ts) (halt : F.line_altitude = some alt)
    (hvis : F.line_visible = vis)
    (hsp : F.line_speed = some sp) (hcrs : F.line_course = some crs)
    (hmg : F.line_magvar = some mg) (hgh : F.line_geoidheight = some gh)
    (hsat : F.line_sat = sat) (hfx : F.line_fix = fx)
    (hhd : F.line_hdop = some hd) (hvd : F.line_vdop = some vd)
    (hpd : F.line_pdop = some pd) (hage : F.line_ageofdgpsdata = some age)
    (hdg : F.line_dgpsid = dg)
    (hte : trackpoints_end s = s) (him0 : getCh im 0 = '/') :
    gpspoint_commit_line dirpath { s with ls := F }
      = { s with
          ls := F
          trw :=
            { s.trw with
              waypoints := s.trw.waypoints ++
                [(⟨⟨lat, lon⟩, vis, some ts, some alt, some crs, some sp,
                  some mg, some gh, some nm, some cm, some ds, some srcl,
                  some url, some urln, some xt, fx, sat, some hd, some vd,
                  some pd, some age, dg, some im, some dir, ref,
                  some sy⟩ : VikWaypoint)] }
          have_read_something := true } := by
  simp only [gpspoint_commit_line]
  have hTE : ¬({ s with ls := F }.ls.line_type = GPSPOINT_TYPE_TRACK_END ∨
      { s with ls := F }.ls.line_type = GPSPOINT_TYPE_ROUTE_END) := by
    show ¬(F.line_type = _ ∨ F.line_type = _)
    rw [hty]
    decide
  rw [if_neg hTE]
  have hWP : { s with ls := F }.ls.line_type = GPSPOINT_TYPE_WAYPOINT ∧
      { s with ls := F }.ls.line_name ≠ none := by
    constructor
    · show F.line_type = _
      rw [hty]
    · show F.line_name ≠ none
      rw [hnm]
      simp
  rw [if_pos hWP]
  rw [trackpoints_end_set_ls, hte]
  simp only [hty, hll, hnm, hcm, hds, hsrc, hxt, hurl, hurln, him, hdir,
    href, hsy, hts, halt, hvis, hsp, hcrs, hmg, hgh, hsat, hfx, hhd, hvd,
    hpd, hage, hdg]
  rw [util_abs_id im dirpath him0]
  simp [vik_waypoint_new]

set_option maxRecDepth 4000 in
set_option maxHeartbeats 2000000 in
lemma wp_line_step (dirpath : Option (List Char)) (s : ReadState) (ll : LatLon)
    (lat lon ts alt sp crs mg gh hd vd pd age dir : ℚ)
    (nm cm ds srcl url urln xt im sy : List Char) (fx sat dg : Nat)
    (ref : Int) (vis : Bool)
    (hlat : wfQ6 lat) (hlon : wfQ6 lon) (hts : wfQ6 ts) (halt : wfQ6 alt)
    (hsp : wfQ6 sp) (hcrs : wfQ6 crs) (hmg : wfQ6 mg) (hgh : wfQ6 gh)
    (hhd : wfQ6 hd) (hvd : wfQ6 vd) (hpd : wfQ6 pd) (hage : wfQ6 age)
    (hdir : wfQ2 dir)
    (hnm : wfString nm) (hcm : wfString cm) (hds : wfString ds)
    (hsrc : wfString srcl) (hurl : wfString url) (hurln : wfString urln)
    (hxt : wfString xt) (him : wfString im)
    (hsy : sy ≠ []) (hsy0 : getCh sy 0 ≠ '"')
    (hsyesc : ∀ c ∈ sy, c ≠ '\\' ∧ c ≠ '"') (hsynl : ∀ c ∈ sy, c ≠ '\n')
    (hfx : fx < 2 ^ 31) (hsat : sat < 2 ^ 31) (hdg : dg < 2 ^ 31)
    (hls : s.ls = resetState ll) (hte : trackpoints_end s = s)
    (him0 : getCh im 0 = '/') :
    gpspoint_line_step dirpath s
      (renderToks
        (⟨("type").toList, .quoted (("waypoint").toList)⟩ ::
      ⟨("latitude").toList, .quoted (a_coords_dtostr lat)⟩ ::
      ⟨("longitude").toList, .quoted (a_coords_dtostr lon)⟩ ::
      ⟨("name").toList, .quoted (slashdup nm)⟩ ::
      ⟨("altitude").toList, .quoted (a_coords_dtostr alt)⟩ ::
      ⟨("unixtime").toList, .quoted (a_coords_dtostr ts)⟩ ::
      ⟨("speed").toList, .quoted (a_coords_dtostr sp)⟩ ::
      ⟨("course").toList, .quoted (a_coords_dtostr crs)⟩ ::
      ⟨("magvar").toList, .quoted (a_coords_dtostr mg)⟩ ::
      ⟨("geoidheight").toList, .quoted (a_coords_dtostr gh)⟩ ::
      ⟨("comment").toList, .quoted (slashdup cm)⟩ ::
      ⟨("description").toList, .quoted (slashdup ds)⟩ ::
      ⟨("source").toList, .quoted (slashdup srcl)⟩ ::
      ⟨("url").toList, .quoted (slashdup url)⟩ ::
      ⟨("url_name").toList, .quoted (slashdup urln)⟩ ::
      ⟨("xtype").toList, .quoted (slashdup xt)⟩ ::
      ⟨("fix").toList, .quoted (guintPrintfD fx)⟩ ::
      ⟨("sat").toList, .quoted (guintPrintfD sat)⟩ ::
      ⟨("hdop").toList, .quoted (a_coords_dtostr hd)⟩ ::
      ⟨("vdop").toList, .quoted (a_coords_dtostr vd)⟩ ::
      ⟨("pdop").toList, .quoted (a_coords_dtostr pd)⟩ ::
      ⟨("ageofdgpsdata").toList, .quoted (a_coords_dtostr age)⟩ ::
      ⟨("dgpsid").toList, .quoted (guintPrintfD dg)⟩ ::
      ⟨("image").toList, .quoted (slashdup im)⟩ ::
      ⟨("image_direction").toList, .quoted (util_formatd2 dir)⟩ ::
      ⟨("image_direction_ref").toList, .quoted (intToChars ref)⟩ ::
      ⟨("symbol").toList, .quoted sy⟩ ::
      (if vis then [] else [⟨("visible").toList, .quoted (("n").toList)⟩])))
      = { s with
          ls := resetState ⟨lat, lon⟩
          trw :=
            { s.trw with
              waypoints := s.trw.waypoints ++
                [(⟨⟨lat, lon⟩, vis, some ts, some alt, some crs, some sp,
                  some mg, some gh, some nm, some cm, some ds, some srcl,
                  some url, some urln, some xt, fx, sat, some hd, some vd,
                  some pd, some age, dg, some im, some dir, ref,
                  some sy⟩ : VikWaypoint)] }
          have_read_something := true } := by
  have hgood : ∀ t ∈ (⟨("type").toList, .quoted (("waypoint").toList)⟩ ::
      ⟨("latitude").toList, .quoted (a_coords_dtostr lat)⟩ ::
      ⟨("longitude").toList, .quoted (a_coords_dtostr lon)⟩ ::
      ⟨("name").toList, .quoted (slashdup nm)⟩ ::
      ⟨("altitude").toList, .quoted (a_coords_dtostr alt)⟩ ::
      ⟨("unixtime").toList, .quoted (a_coords_dtostr ts)⟩ ::
      ⟨("speed").toList, .quoted (a_coords_dtostr sp)⟩ ::
      ⟨("course").toList, .quoted (a_coords_dtostr crs)⟩ ::
      ⟨("magvar").toList, .quoted (a_coords_dtostr mg)⟩ ::
      ⟨("geoidheight").toList, .quoted (a_coords_dtostr gh)⟩ ::
      ⟨("comment").toList, .quoted (slashdup cm)⟩ ::
      ⟨("description").toList, .quoted (slashdup ds)⟩ ::
      ⟨("source").toList, .quoted (slashdup srcl)⟩ ::
      ⟨("url").toList, .quoted (slashdup url)⟩ ::
      ⟨("url_name").toList, .quoted (slashdup urln)⟩ ::
      ⟨("xtype").toList, .quoted (slashdup xt)⟩ ::
      ⟨("fix").toList, .quoted (guintPrintfD fx)⟩ ::
      ⟨("sat").toList, .quoted (guintPrintfD sat)⟩ ::
      ⟨("hdop").toList, .quoted (a_coords_dtostr hd)⟩ ::
      ⟨("vdop").toList, .quoted (a_coords_dtostr vd)⟩ ::
      ⟨("pdop").toList, .quoted (a_coords_dtostr pd)⟩ ::
      ⟨("ageofdgpsdata").toList, .quoted (a_coords_dtostr age)⟩ ::
      ⟨("dgpsid").toList, .quoted (guintPrintfD dg)⟩ ::
      ⟨("image").toList, .quoted (slashdup im)⟩ ::
      ⟨("image_direction").toList, .quoted (util_formatd2 dir)⟩ ::
      ⟨("image_direction_ref").toList, .quoted (intToChars ref)⟩ ::
      ⟨("symbol").toList, .quoted sy⟩ ::
      (if vis then [] else [⟨("visible").toList, .quoted (("n").toList)⟩])), TokGood t := by
    intro t ht
    simp only [List.mem_cons] at ht
    rcases ht with rfl | rfl | rfl | rfl | rfl | rfl | rfl | rfl | rfl | rfl | rfl | rfl | rfl | rfl | rfl | rfl | rfl | rfl | rfl | rfl | rfl | rfl | rfl | rfl | rfl | rfl | rfl | htail
    · exact tokGood_quoted _ _ (by decide) (by decide)
        (escSeq_of_no_special _ (by decide)) (by decide) (by decide)
    · exact tokGood_dtostr _ lat (by decide) (by decide)
    · exact tokGood_dtostr _ lon (by decide) (by decide)
    · exact tokGood_slashdup _ nm (by decide) (by decide) hnm.1
    · exact tokGood_dtostr _ alt (by decide) (by decide)
    · exact tokGood_dtostr _ ts (by decide) (by decide)
    · exact tokGood_dtostr _ sp (by decide) (by decide)
    · exact tokGood_dtostr _ crs (by decide) (by decide)
    · exact tokGood_dtostr _ mg (by decide) (by decide)
    · exact tokGood_dtostr _ gh (by decide) (by decide)
    · exact tokGood_slashdup _ cm (by decide) (by decide) hcm.1
    · exact tokGood_slashdup _ ds (by decide) (by decide) hds.1
    · exact tokGood_slashdup _ srcl (by decide) (by decide) hsrc.1
    · exact tokGood_slashdup _ url (by decide) (by decide) hurl.1
    · exact tokGood_slashdup _ urln (by decide) (by decide) hurln.1
    · exact tokGood_slashdup _ xt (by decide) (by decide) hxt.1
    · exact tokGood_guintPrintfD _ fx (by decide) (by decide)
    · exact tokGood_guintPrintfD _ sat (by decide) (by decide)
    · exact tokGood_dtostr _ hd (by decide) (by decide)
    · exact tokGood_dtostr _ vd (by decide) (by decide)
    · exact tokGood_dtostr _ pd (by decide) (by decide)
    · exact tokGood_dtostr _ age (by decide) (by decide)
    · exact tokGood_guintPrintfD _ dg (by decide) (by decide)
    · exact tokGood_slashdup _ im (by decide) (by decide) him.1
    · exact tokGood_formatd2 _ dir (by decide) (by decide)
    · exact tokGood_intToChars _ ref (by decide) (by decide)
    · exact tokGood_quoted _ sy (by decide) (by decide)
        (escSeq_of_no_special sy hsyesc) hsy hsynl
    · cases vis with
      | true => simp at htail
      | false =>
        simp at htail
        subst htail
        exact tokGood_quoted _ _ (by decide) (by decide)
          (escSeq_of_no_special _ (by decide)) (by decide) (by decide)
  simp only [gpspoint_line_step]
  rw [hls]
  rw [processTags_renderToks _ _ hgood]
  rw [wp_line_state ll lat lon ts alt sp crs mg gh hd vd pd age dir nm cm ds
    srcl url urln xt im sy fx sat dg ref _ hlat hlon hts halt hsp hcrs hmg
    hgh hhd hvd hpd hage hdir hnm hcm hds hsrc hurl hurln hxt him hsy hsy0
    hfx hsat hdg]
  cases vis with
  | true =>
    rw [if_pos rfl, stepToks_nil]
    rw [wp_commit dirpath s _ lat lon ts alt sp crs mg gh hd vd pd age dir
      nm cm ds srcl url urln xt im sy fx sat dg ref true rfl rfl rfl rfl rfl
      rfl rfl rfl rfl rfl rfl rfl rfl rfl rfl rfl rfl rfl rfl rfl rfl rfl
      rfl rfl rfl rfl rfl hte him0]
    rfl
  | false =>
    rw [if_neg (by decide), step_visible_n, stepToks_nil]
    rw [wp_commit dirpath s _ lat lon ts alt sp crs mg gh hd vd pd age dir
      nm cm ds srcl url urln xt im sy fx sat dg ref false rfl rfl rfl rfl rfl
      rfl rfl rfl rfl rfl rfl rfl rfl rfl rfl rfl rfl rfl rfl rfl rfl rfl
      rfl rfl rfl rfl rfl hte him0]
    rfl
